import Mathlib

/-! go-gtp: a verification development.

Shallow embedding of the GTPv1 default handlers (`src/gtpv1/handlers.go`,
`src/gtpv1/conn.go`, `src/gtpv1/errors.go`) and of the wire codec exercised by
the message tests (`src/gtpv0/message/echo-req_test.go` and the three tests under
`src/gtpv2/message/`). The codec packages themselves are not under src/; their
definitions here follow the specification and are checked against the vectors of
the tests. The gw-tester handlers of `src/examples/gw-tester/` (MME, S-GW), `Attach`
of the two MMEs, and the address pool of the P-GW with the part of `newPGW` that
fills it are embedded statement by statement; what they call of packages that are
not under src/ is a parameter.

Machine integers are natural numbers; octets are natural numbers below 256 and
octet strings are lists of them.

Part I holds the definitions, Part II the lemmas and theorems.
-/

set_option autoImplicit false

/-! # Part I: definitions -/

/-! ## Octet strings -/

namespace wire

/-- Big-endian encoding of `n` on `k` octets (the low `8k` bits of `n`). -/
def toBE : Nat → Nat → List Nat
  | 0, _ => []
  | k + 1, n => (n / 256 ^ k % 256) :: toBE k n

/-- The number a big-endian octet string stands for. -/
def fromBE (l : List Nat) : Nat := l.foldl (fun acc b => acc * 256 + b) 0

/-- The 2-octet length field of a message header: octets 2 and 3 in every version. -/
def lengthField (b : List Nat) : Nat := fromBE ((b.drop 2).take 2)

/-- The 2-octet length field of a GTPv2 IE header: octets 1 and 2. -/
def ieLengthField (b : List Nat) : Nat := fromBE ((b.drop 1).take 2)

end wire

/-! ## GTPv1: errors, messages, the `Conn` interface and the default handlers -/

namespace gtpv1

/-- Peer address (Go's `net.Addr`), identified by its textual form. -/
abbrev Addr := String

/-- The errors of `src/gtpv1/errors.go`: the five sentinel values and the error
structs with their fields, plus `other` for an error that originates outside the
package (for instance a socket write error passed on by `RespondTo`),
`RequiredIEMissingError` for the `gtpv2.RequiredIEMissingError{Type: ...}` that the
gw-tester handlers return, and `wrapped text err` for `fmt.Errorf(text + "%w", err)`. -/
inductive GtpError where
  | ErrUnexpectedType
  | ErrInvalidConnection
  | ErrConnNotOpened
  | ErrTEIDNotFound
  | ErrTimeout
  | ErrorIndicatedError (TEID : Nat) (Peer : String)
  | HandlerNotFoundError (MsgType : String)
  | RequiredParameterMissingError (Name Msg : String)
  | InvalidSequenceError (Seq : Nat)
  | InvalidSessionError (IMSI : String)
  | InvalidTEIDError (TEID : Nat)
  | UnknownIMSIError (IMSI : String)
  | CauseNotOKError (MsgType : String) (Cause : Nat) (Msg : String)
  | other (text : String)
  | RequiredIEMissingError (Typ : Nat)
  | wrapped (text : String) (err : GtpError)
deriving DecidableEq, Repr

/-- Modelled from the spec: the GTPv1 information element of package `gtpv1/ie`,
which is not under src/. Only the type tag and the payload octets are kept. -/
structure IE where
  Typ : Nat
  Payload : List Nat
deriving DecidableEq, Repr

namespace ie

/-- Modelled from the spec: type tag of the Recovery IE, "IE carrying the sender's
restart counter" (3GPP TS 29.060 value 14; package `gtpv1/ie` is not under src/). -/
def Recovery : Nat := 14

/-- Modelled from the spec: `ie.NewRecovery(recovery uint8)`, the Recovery IE whose
one-octet value is the restart counter (package `gtpv1/ie` is not under src/). -/
def NewRecovery (recovery : Nat) : IE := ⟨Recovery, [recovery]⟩

/-- Modelled from the spec: type tags of further IEs of package `gtpv1/ie` (3GPP TS
29.060: Cause 1, TEID Data I 16, TEID Control Plane 17, GSN Address 133, MSISDN
134, RAT Type 151, IMEI(SV) 154). -/
def Cause : Nat := 1

/-- Modelled from the spec: see `Cause`. -/
def TEIDDataI : Nat := 16

/-- Modelled from the spec: see `Cause`. -/
def TEIDCPlane : Nat := 17

/-- Modelled from the spec: see `Cause`. -/
def GSNAddress : Nat := 133

/-- Modelled from the spec: see `Cause`. -/
def MSISDN : Nat := 134

/-- Modelled from the spec: see `Cause`. -/
def RATType : Nat := 151

/-- Modelled from the spec: see `Cause`. -/
def IMEISV : Nat := 154

/-- Modelled from the spec: `ie.NewCause(cause uint8)`, the Cause IE with its
one-octet value. -/
def NewCause (cause : Nat) : IE := ⟨Cause, [cause]⟩

end ie

/-- Modelled from the spec: the part of the GTPv1 message header the handlers see
(package `gtpv1/message` is not under src/). -/
structure Header where
  Typ : Nat
  TEID : Nat
  SequenceNumber : Nat
deriving DecidableEq, Repr

namespace message

/-- Modelled from the spec: `message.CreatePDPContextRequest` with the fields that the
handlers under `src/examples/gw-tester/` read (package `gtpv1/message` is not under
src/); an absent IE is `none` (Go's `nil`). -/
structure CreatePDPContextRequest where
  hdr : Header
  IMSI : Option IE
  MSISDN : Option IE
  IMEI : Option IE
  RATType : Option IE
  TEIDCPlane : Option IE
  UserLocationInformation : Option IE
  APN : Option IE
  SelectionMode : Option IE
  EndUserAddress : Option IE
  QoSProfile : Option IE
  AdditionalIEs : List IE
deriving DecidableEq, Repr

/-- Modelled from the spec: `message.CreatePDPContextResponse` with the fields that the
gw-tester handlers read or write. -/
structure CreatePDPContextResponse where
  hdr : Header
  Cause : Option IE
  TEIDDataI : Option IE
  TEIDCPlane : Option IE
  EndUserAddress : Option IE
  GGSNAddressForCPlane : Option IE
  GGSNAddressForUserTraffic : Option IE
  AdditionalIEs : List IE
deriving DecidableEq, Repr

/-- Modelled from the spec: `message.UpdatePDPContextRequest` with the fields that the
gw-tester handlers read. -/
structure UpdatePDPContextRequest where
  hdr : Header
  TEIDDataI : Option IE
  SGSNAddressForCPlane : Option IE
  AdditionalIEs : List IE
deriving DecidableEq, Repr

/-- Modelled from the spec: `message.UpdatePDPContextResponse`. -/
structure UpdatePDPContextResponse where
  hdr : Header
  Cause : Option IE
  AdditionalIEs : List IE
deriving DecidableEq, Repr

/-- Modelled from the spec: `message.DeletePDPContextRequest`. -/
structure DeletePDPContextRequest where
  hdr : Header
  AdditionalIEs : List IE
deriving DecidableEq, Repr

/-- Modelled from the spec: `message.DeletePDPContextResponse`. -/
structure DeletePDPContextResponse where
  hdr : Header
  Cause : Option IE
  AdditionalIEs : List IE
deriving DecidableEq, Repr

end message

/-- Modelled from the spec: `message.Message` with the concrete message types that
the code under src/ asserts on: `*message.EchoRequest`, `*message.EchoResponse` and
`*message.ErrorIndication` (`handlers.go`; the last with the fields `TEIDDataI` and
`GTPUPeerAddress` the handler reads), the six PDP context messages of the gw-tester
handlers, and `Generic` for every other concrete type. Each carries its header and
its IEs. -/
inductive Message where
  | EchoRequest (hdr : Header) (ies : List IE)
  | EchoResponse (hdr : Header) (ies : List IE)
  | ErrorIndication (hdr : Header) (TEIDDataI GTPUPeerAddress : Option IE) (ies : List IE)
  | Generic (hdr : Header) (ies : List IE)
  | CreatePDPContextRequest (m : message.CreatePDPContextRequest)
  | CreatePDPContextResponse (m : message.CreatePDPContextResponse)
  | UpdatePDPContextRequest (m : message.UpdatePDPContextRequest)
  | UpdatePDPContextResponse (m : message.UpdatePDPContextResponse)
  | DeletePDPContextRequest (m : message.DeletePDPContextRequest)
  | DeletePDPContextResponse (m : message.DeletePDPContextResponse)
deriving DecidableEq, Repr

namespace message

/-- Modelled from the spec: message type values of package `gtpv1/message`
(3GPP TS 29.060: Echo Request 1, Echo Response 2, Error Indication 26). -/
def MsgTypeEchoRequest : Nat := 1

/-- Modelled from the spec: see `MsgTypeEchoRequest`. -/
def MsgTypeEchoResponse : Nat := 2

/-- Modelled from the spec: see `MsgTypeEchoRequest`. -/
def MsgTypeErrorIndication : Nat := 26

/-- Modelled from the spec: message type values of the PDP context messages (3GPP
TS 29.060: Create 16 and 17, Update 18 and 19, Delete 20 and 21). -/
def MsgTypeCreatePDPContextRequest : Nat := 16

/-- Modelled from the spec: see `MsgTypeCreatePDPContextRequest`. -/
def MsgTypeCreatePDPContextResponse : Nat := 17

/-- Modelled from the spec: see `MsgTypeCreatePDPContextRequest`. -/
def MsgTypeUpdatePDPContextRequest : Nat := 18

/-- Modelled from the spec: see `MsgTypeCreatePDPContextRequest`. -/
def MsgTypeUpdatePDPContextResponse : Nat := 19

/-- Modelled from the spec: see `MsgTypeCreatePDPContextRequest`. -/
def MsgTypeDeletePDPContextRequest : Nat := 20

/-- Modelled from the spec: see `MsgTypeCreatePDPContextRequest`. -/
def MsgTypeDeletePDPContextResponse : Nat := 21

/-- Modelled from the spec: `message.NewEchoResponse(seq, ies...)`, an EchoResponse
with the given sequence number carrying the given IEs in order. -/
def NewEchoResponse (seq : Nat) (ies : List IE) : Message :=
  .EchoResponse ⟨MsgTypeEchoResponse, 0, seq⟩ ies

end message

/-- Header of a message. -/
def Message.hdr : Message → Header
  | .EchoRequest h _ => h
  | .EchoResponse h _ => h
  | .ErrorIndication h _ _ _ => h
  | .Generic h _ => h
  | .CreatePDPContextRequest m => m.hdr
  | .CreatePDPContextResponse m => m.hdr
  | .UpdatePDPContextRequest m => m.hdr
  | .UpdatePDPContextResponse m => m.hdr
  | .DeletePDPContextRequest m => m.hdr
  | .DeletePDPContextResponse m => m.hdr

/-- The ordered IEs of a message (the named ones first, in the order of the fields). -/
def Message.ies : Message → List IE
  | .EchoRequest _ l => l
  | .EchoResponse _ l => l
  | .ErrorIndication _ t p l => t.toList ++ p.toList ++ l
  | .Generic _ l => l
  | .CreatePDPContextRequest m =>
    m.IMSI.toList ++ m.MSISDN.toList ++ m.IMEI.toList ++ m.RATType.toList
      ++ m.TEIDCPlane.toList ++ m.UserLocationInformation.toList ++ m.APN.toList
      ++ m.SelectionMode.toList ++ m.EndUserAddress.toList ++ m.QoSProfile.toList
      ++ m.AdditionalIEs
  | .CreatePDPContextResponse m =>
    m.Cause.toList ++ m.TEIDDataI.toList ++ m.TEIDCPlane.toList ++ m.EndUserAddress.toList
      ++ m.GGSNAddressForCPlane.toList ++ m.GGSNAddressForUserTraffic.toList
      ++ m.AdditionalIEs
  | .UpdatePDPContextRequest m =>
    m.TEIDDataI.toList ++ m.SGSNAddressForCPlane.toList ++ m.AdditionalIEs
  | .UpdatePDPContextResponse m => m.Cause.toList ++ m.AdditionalIEs
  | .DeletePDPContextRequest m => m.AdditionalIEs
  | .DeletePDPContextResponse m => m.Cause.toList ++ m.AdditionalIEs

/-- Modelled from the spec: `Message.Sequence()`. -/
def Message.Sequence (m : Message) : Nat := m.hdr.SequenceNumber

/-- Modelled from the spec: `Message.TEID()`. -/
def Message.TEID (m : Message) : Nat := m.hdr.TEID

/-- Modelled from the spec: `Message.SetSequenceNumber(seq)`. -/
def Message.SetSequenceNumber (m : Message) (seq : Nat) : Message :=
  match m with
  | .EchoRequest h l => .EchoRequest ⟨h.Typ, h.TEID, seq⟩ l
  | .EchoResponse h l => .EchoResponse ⟨h.Typ, h.TEID, seq⟩ l
  | .ErrorIndication h t p l => .ErrorIndication ⟨h.Typ, h.TEID, seq⟩ t p l
  | .Generic h l => .Generic ⟨h.Typ, h.TEID, seq⟩ l
  | .CreatePDPContextRequest m =>
    .CreatePDPContextRequest { m with hdr := ⟨m.hdr.Typ, m.hdr.TEID, seq⟩ }
  | .CreatePDPContextResponse m =>
    .CreatePDPContextResponse { m with hdr := ⟨m.hdr.Typ, m.hdr.TEID, seq⟩ }
  | .UpdatePDPContextRequest m =>
    .UpdatePDPContextRequest { m with hdr := ⟨m.hdr.Typ, m.hdr.TEID, seq⟩ }
  | .UpdatePDPContextResponse m =>
    .UpdatePDPContextResponse { m with hdr := ⟨m.hdr.Typ, m.hdr.TEID, seq⟩ }
  | .DeletePDPContextRequest m =>
    .DeletePDPContextRequest { m with hdr := ⟨m.hdr.Typ, m.hdr.TEID, seq⟩ }
  | .DeletePDPContextResponse m =>
    .DeletePDPContextResponse { m with hdr := ⟨m.hdr.Typ, m.hdr.TEID, seq⟩ }

/-- Modelled from the spec: `Message.MessageTypeName()`, the name of the concrete
message type. -/
def Message.MessageTypeName : Message → String
  | .EchoRequest _ _ => "Echo Request"
  | .EchoResponse _ _ => "Echo Response"
  | .ErrorIndication _ _ _ _ => "Error Indication"
  | .Generic _ _ => "Unknown"
  | .CreatePDPContextRequest _ => "Create PDP Context Request"
  | .CreatePDPContextResponse _ => "Create PDP Context Response"
  | .UpdatePDPContextRequest _ => "Update PDP Context Request"
  | .UpdatePDPContextResponse _ => "Update PDP Context Response"
  | .DeletePDPContextRequest _ => "Delete PDP Context Request"
  | .DeletePDPContextResponse _ => "Delete PDP Context Response"

/-- Whether a message is an EchoResponse. -/
def Message.isEchoResponse : Message → Bool
  | .EchoResponse _ _ => true
  | _ => false

/-- Modelled from the spec: the session of §3, reduced to the attributes the store
indexes on (`IMSI`, `peerAddr`) and the fields the gw-tester handlers assign
(`MSISDN`, `IMEI`, `RATType`); type `Session` of package gtpv1 is not under src/.
What the methods of a session keep (its TEIDs, its inbox, its `active` flag) is
part of the state the methods act on, see `SessionAPI`. -/
structure Session where
  IMSI : String
  peerAddr : Addr
  MSISDN : String := ""
  IMEI : String := ""
  RATType : Nat := 0
deriving DecidableEq, Repr

/-- The interface `Conn` of `src/gtpv1/conn.go` over an implementation state `σ`:
every method takes the state and returns its results with the next state. A
`*Session` or `*ie.IE` that may be `nil` is an `Option`. `AddHandler` and the
embedded `net.PacketConn` are left out: no handler under src/ calls them. -/
structure Conn (σ : Type) where
  RespondTo : Addr → Message → Message → σ → Option GtpError × σ
  Restarts : σ → Nat × σ
  GetSessionByTEID : Nat → Addr → σ → Except GtpError Session × σ
  GetSessionByIMSI : String → σ → Except GtpError Session × σ
  RemoveSession : Option Session → σ → σ
  NewSenderCTEID : σ → Option IE × σ
  NewSenderUTEID : σ → Option IE × σ
  NewSenderFTEID : σ → Option IE × σ
  RegisterSession : Nat → Session → σ → σ

/-- `HandlerFunc` of `handlers.go`: `func(c Conn, senderAddr net.Addr, msg
message.Message) error`; the error is `none` for Go's `nil`. -/
abbrev HandlerFunc (σ : Type) := Conn σ → Addr → Message → σ → Option GtpError × σ

/-- `handleEchoRequest` of `handlers.go`: type assertion, then
`c.RespondTo(senderAddr, msg, message.NewEchoResponse(0, ie.NewRecovery(c.Restarts())))`;
Go evaluates the argument `c.Restarts()` before the call. -/
def handleEchoRequest {σ : Type} : HandlerFunc σ := fun c senderAddr msg s =>
  match msg with
  | .EchoRequest _ _ =>
    let r := c.Restarts s
    c.RespondTo senderAddr msg (message.NewEchoResponse 0 [ie.NewRecovery r.1]) r.2
  | _ => (some .ErrUnexpectedType, s)

/-- `handleEchoResponse` of `handlers.go`: type assertion, then "do nothing". -/
def handleEchoResponse {σ : Type} : HandlerFunc σ := fun _ _ msg s =>
  match msg with
  | .EchoResponse _ _ => (none, s)
  | _ => (some .ErrUnexpectedType, s)

/-- `handleErrorIndication` of `handlers.go`: type assertion, then a log line and
`nil`. The values read by `ind.TEIDDataI.MustTEID()` and
`ind.GTPUPeerAddress.MustIPAddress()` feed the log line only, and logging has no
effect on the connection. The two accessors are called on the IEs of the message,
so this is the handler for an ErrorIndication that carries both; what a call on a
`nil` IE does is not modelled (`HandlerFunc` has no outcome for a panic). -/
def handleErrorIndication {σ : Type} : HandlerFunc σ := fun _ _ msg s =>
  match msg with
  | .ErrorIndication _ _ _ _ => (none, s)
  | _ => (some .ErrUnexpectedType, s)

/-- `msgHandlerMap` of `handlers.go`. The `sync.Map` is an association list in which
the first entry for a key is the current one. -/
structure msgHandlerMap (σ : Type) where
  syncMap : List (Nat × HandlerFunc σ)

/-- `msgHandlerMap.store`: `m.syncMap.Store(msgType, handler)`. -/
def msgHandlerMap.store {σ : Type} (m : msgHandlerMap σ) (msgType : Nat)
    (handler : HandlerFunc σ) : msgHandlerMap σ :=
  ⟨(msgType, handler) :: m.syncMap⟩

/-- `msgHandlerMap.load`: `none` is Go's `(nil, false)`, `some h` is `(h, true)`. -/
def msgHandlerMap.load {σ : Type} (m : msgHandlerMap σ) (msgType : Nat) :
    Option (HandlerFunc σ) :=
  (m.syncMap.find? (fun e => e.1 == msgType)).map Prod.snd

/-- `newMsgHandlerMap`: stores every entry of the Go map `m` into an empty
`msgHandlerMap`. The entries come as a list in the order the `range` loop visits
them (Go leaves that order unspecified; a Go map has no two entries with one key). -/
def newMsgHandlerMap {σ : Type} (m : List (Nat × HandlerFunc σ)) : msgHandlerMap σ :=
  m.foldl (fun mhm e => mhm.store e.1 e.2) ⟨[]⟩

/-- The map literal of `newDefaultMsgHandlerMap`. -/
def defaultHandlers (σ : Type) : List (Nat × HandlerFunc σ) :=
  [(message.MsgTypeEchoRequest, handleEchoRequest),
   (message.MsgTypeEchoResponse, handleEchoResponse),
   (message.MsgTypeErrorIndication, handleErrorIndication)]

/-- `newDefaultMsgHandlerMap` of `handlers.go`. -/
def newDefaultMsgHandlerMap (σ : Type) : msgHandlerMap σ :=
  newMsgHandlerMap (defaultHandlers σ)

/-- One invocation of a method of `Conn`, with its arguments. -/
inductive ConnCall where
  | RespondTo (raddr : Addr) (received toBeSent : Message)
  | Restarts
  | GetSessionByTEID (teid : Nat) (peer : Addr)
  | GetSessionByIMSI (imsi : String)
  | RemoveSession (session : Option Session)
  | RegisterSession (itei : Nat) (session : Session)
  | NewSenderCTEID
  | NewSenderUTEID
  | NewSenderFTEID
deriving DecidableEq, Repr

/-- Whether a recorded call is a `RespondTo`. -/
def ConnCall.isRespondTo : ConnCall → Bool
  | .RespondTo _ _ _ => true
  | _ => false

/-- Whether a recorded call is a `RemoveSession`. -/
def ConnCall.isRemoveSession : ConnCall → Bool
  | .RemoveSession _ => true
  | _ => false

/-- Whether a recorded call is a `RegisterSession`. -/
def ConnCall.isRegisterSession : ConnCall → Bool
  | .RegisterSession _ _ => true
  | _ => false

/-- Instrumentation of an arbitrary `Conn`: the same behaviour on the state, and
every method invocation is appended to a log kept next to the state. -/
def Conn.traced {σ : Type} (c : Conn σ) : Conn (σ × List ConnCall) where
  RespondTo raddr received toBeSent s :=
    ((c.RespondTo raddr received toBeSent s.1).1,
     ((c.RespondTo raddr received toBeSent s.1).2, s.2 ++ [.RespondTo raddr received toBeSent]))
  Restarts s := ((c.Restarts s.1).1, ((c.Restarts s.1).2, s.2 ++ [.Restarts]))
  GetSessionByTEID teid peer s :=
    ((c.GetSessionByTEID teid peer s.1).1,
     ((c.GetSessionByTEID teid peer s.1).2, s.2 ++ [.GetSessionByTEID teid peer]))
  GetSessionByIMSI imsi s :=
    ((c.GetSessionByIMSI imsi s.1).1,
     ((c.GetSessionByIMSI imsi s.1).2, s.2 ++ [.GetSessionByIMSI imsi]))
  RemoveSession session s := (c.RemoveSession session s.1, s.2 ++ [.RemoveSession session])
  NewSenderCTEID s := ((c.NewSenderCTEID s.1).1, ((c.NewSenderCTEID s.1).2, s.2 ++ [.NewSenderCTEID]))
  NewSenderUTEID s := ((c.NewSenderUTEID s.1).1, ((c.NewSenderUTEID s.1).2, s.2 ++ [.NewSenderUTEID]))
  NewSenderFTEID s := ((c.NewSenderFTEID s.1).1, ((c.NewSenderFTEID s.1).2, s.2 ++ [.NewSenderFTEID]))
  RegisterSession itei session s :=
    (c.RegisterSession itei session s.1, s.2 ++ [.RegisterSession itei session])

/-- Modelled from the spec: the state of a connection endpoint (§3 Connection, §4.C
store; the implementations of `Conn` are not under src/): the restart counter, the
session store as the list of (local TEID, session) registrations, the datagrams
handed to the socket so far, the error the socket returns on a write (`none`
when writes succeed), and the counter local TEIDs are drawn from. -/
structure ConnState where
  restartCounter : Nat
  sessions : List (Nat × Session)
  sent : List (Addr × Message)
  writeErr : Option GtpError
  nextTEID : Nat := 1
deriving DecidableEq, Repr

/-- Modelled from the spec: a `Conn` implementation (none is under src/).
`respond_to` "echoes the request's sequence number into the response before
sending"; `get_by_imsi` "returns the session with that subscriber identity (or
UNKNOWN_IMSI error)"; `get_by_teid` returns the session registered under the TEID
for that peer; `remove` "removes all indices for that session" (none for a `nil`
session); `register` "adds a local-TEID index"; the `NewSender…TEID` methods draw
"32-bit non-zero values ... from a per-connection counter". -/
def specConn : Conn ConnState where
  RespondTo raddr received toBeSent s :=
    (s.writeErr,
     { s with sent := s.sent ++ [(raddr, toBeSent.SetSequenceNumber received.Sequence)] })
  Restarts s := (s.restartCounter, s)
  GetSessionByTEID teid peer s :=
    (match s.sessions.find? (fun e => e.1 == teid && e.2.peerAddr == peer) with
     | some e => .ok e.2
     | none => .error (.InvalidTEIDError teid), s)
  GetSessionByIMSI imsi s :=
    (match s.sessions.find? (fun e => e.2.IMSI == imsi) with
     | some e => .ok e.2
     | none => .error (.UnknownIMSIError imsi), s)
  RemoveSession session s :=
    match session with
    | some x => { s with sessions := s.sessions.filter (fun e => e.2 != x) }
    | none => s
  NewSenderCTEID s :=
    (some ⟨ie.TEIDCPlane, wire.toBE 4 s.nextTEID⟩, { s with nextTEID := s.nextTEID + 1 })
  NewSenderUTEID s :=
    (some ⟨ie.TEIDDataI, wire.toBE 4 s.nextTEID⟩, { s with nextTEID := s.nextTEID + 1 })
  NewSenderFTEID s :=
    (some ⟨ie.TEIDCPlane, wire.toBE 4 s.nextTEID⟩, { s with nextTEID := s.nextTEID + 1 })
  RegisterSession itei session s := { s with sessions := (itei, session) :: s.sessions }

end gtpv1

/-! ## TBCD digit strings -/

namespace utils

/-- The decimal digits. -/
def digits : List Char := ['0', '1', '2', '3', '4', '5', '6', '7', '8', '9']

/-- Value of a digit character. -/
def digitVal (c : Char) : Nat := c.toNat - 48

/-- Digit character of a value below ten. -/
def digitChar (n : Nat) : Char := Char.ofNat (n + 48)

/-- Modelled from the spec: TBCD encoding of package `utils`, which is not under
src/ ("swap-nibble BCD, low nibble first, 0xF padding on odd digit count"): two
digits per octet, the first in the low nibble, the second in the high nibble. -/
def tbcdEncode : List Char → List Nat
  | [] => []
  | [a] => [0xf * 16 + digitVal a]
  | a :: b :: rest => (digitVal b * 16 + digitVal a) :: tbcdEncode rest

/-- Modelled from the spec: TBCD decoding, the inverse reading: of each octet the low
nibble first, then the high nibble, a high nibble `0xF` in the last octet being the
pad and giving no digit. -/
def tbcdDecode : List Nat → List Char
  | [] => []
  | [o] =>
    if o / 16 = 0xf then [digitChar (o % 16)] else [digitChar (o % 16), digitChar (o / 16)]
  | o :: o2 :: rest => digitChar (o % 16) :: digitChar (o / 16) :: tbcdDecode (o2 :: rest)

/-- Modelled from the spec: digit string to TBCD octets. -/
def StrToSwappedBytes (s : String) : List Nat := tbcdEncode s.data

/-- Modelled from the spec: TBCD octets to digit string. -/
def SwappedBytesToStr (b : List Nat) : String := String.mk (tbcdDecode b)

end utils

/-! ## GTPv2: information elements and messages -/

namespace gtpv2

/-- Modelled from the spec: the failure kinds of the codec (§4.A `MALFORMED`, §4.B
`TRUNCATED`, `BAD_VERSION`, `MALFORMED_IE`); packages `gtpv2/ie` and
`gtpv2/message` are not under src/, only their tests are. -/
inductive ParseError where
  | MALFORMED
  | TRUNCATED
  | BAD_VERSION
  | MALFORMED_IE
deriving DecidableEq, Repr

/-- Modelled from the spec: the information element of §3: "`type` (1 octet),
`length` (2 octets, payload length), `instance` (0–15, 4 bits), `payload` (opaque
bytes) and, for grouped IE types, a list of child IEs". -/
inductive IE where
  | mk (Typ : Nat) (Length : Nat) (inst : Nat) (Payload : List Nat) (ChildIEs : List IE)

/-- Type tag of an IE. -/
def IE.Typ : IE → Nat
  | .mk t _ _ _ _ => t

/-- Length attribute of an IE. -/
def IE.Length : IE → Nat
  | .mk _ l _ _ _ => l

/-- Instance of an IE. -/
def IE.inst : IE → Nat
  | .mk _ _ i _ _ => i

/-- Payload octets of an IE. -/
def IE.Payload : IE → List Nat
  | .mk _ _ _ p _ => p

/-- Child IEs of a grouped IE. -/
def IE.ChildIEs : IE → List IE
  | .mk _ _ _ _ c => c

mutual
/-- Modelled from the spec: serialization of an IE: the 4-octet header
`type:1 | length:2 BE | spare:4|instance:4`, then the payload, which for a grouped
type is the children serialized in order. The table of grouped types is the
parameter `grouped`. -/
def IE.Serialize (grouped : Nat → Bool) : IE → List Nat
  | .mk t l i p ch =>
    t :: (wire.toBE 2 l ++ i :: (if grouped t then IE.SerializeAll grouped ch else p))
/-- Modelled from the spec: serialization of a sequence of IEs, one after the other. -/
def IE.SerializeAll (grouped : Nat → Bool) : List IE → List Nat
  | [] => []
  | x :: xs => IE.Serialize grouped x ++ IE.SerializeAll grouped xs
end

/-- Serialized size of an IE in octets. -/
def IE.MarshalLen (grouped : Nat → Bool) (i : IE) : Nat := (i.Serialize grouped).length

mutual
/-- The data-model invariant of an IE (§3): the fields are in range (type one
octet, instance four bits, length two octets, payload made of octets), the length
is the payload length, and the payload of a grouped IE is its children serialized,
each child satisfying the invariant; an IE of another type has no children. -/
def IE.valid (grouped : Nat → Bool) : IE → Bool
  | .mk t l i p ch =>
    decide (t < 256) && decide (i < 16) && decide (l < 65536) && decide (l = p.length)
      && p.all (fun o => decide (o < 256))
      && (if grouped t then IE.validAll grouped ch && decide (p = IE.SerializeAll grouped ch)
          else ch.isEmpty)
/-- The invariant on every IE of a list. -/
def IE.validAll (grouped : Nat → Bool) : List IE → Bool
  | [] => true
  | x :: xs => IE.valid grouped x && IE.validAll grouped xs
end

/-- Modelled from the spec: parsing of a sequence of IEs (§4.A). Each IE takes
`4 + length` octets; the parse fails with `MALFORMED` when the buffer is shorter
than the header or shorter than `length`, or when the payload of a grouped IE does
not parse as a sequence of IEs ("parsed recursively"). Every other type gives an
opaque IE that keeps its payload. The first argument bounds the number of nested
calls; `ParseMultiIEs` supplies enough. -/
def ParseMultiIEsAux (grouped : Nat → Bool) : Nat → List Nat → Except ParseError (List IE)
  | 0, _ => .error .MALFORMED
  | _ + 1, [] => .ok []
  | fuel + 1, t :: l1 :: l0 :: i :: rest =>
    if rest.length < wire.fromBE [l1, l0] then .error .MALFORMED
    else
      match (if grouped t then ParseMultiIEsAux grouped fuel (rest.take (wire.fromBE [l1, l0]))
             else .ok []),
            ParseMultiIEsAux grouped fuel (rest.drop (wire.fromBE [l1, l0])) with
      | .ok ch, .ok more =>
        .ok (IE.mk t (wire.fromBE [l1, l0]) (i % 16) (rest.take (wire.fromBE [l1, l0])) ch
              :: more)
      | _, _ => .error .MALFORMED
  | _ + 1, _ => .error .MALFORMED

/-- Modelled from the spec: `ie.ParseMultiIEs`. Every nested call is on a strictly
shorter octet string, so `b.length + 1` nested calls are enough. -/
def ParseMultiIEs (grouped : Nat → Bool) (b : List Nat) : Except ParseError (List IE) :=
  ParseMultiIEsAux grouped (b.length + 1) b

namespace ie

/-- Modelled from the spec: type tags, read off the vectors of the tests under
`src/gtpv2/message/`: EPS Bearer ID `0x49`, Indication `0x4d`, Bearer QoS `0x50`,
Bearer TFT `0x54`, Delay Value `0x5c`, Bearer Context `0x5d`. -/
def EPSBearerID : Nat := 0x49

/-- Modelled from the spec: see `EPSBearerID`. -/
def Indication : Nat := 0x4d

/-- Modelled from the spec: see `EPSBearerID`. -/
def BearerQoS : Nat := 0x50

/-- Modelled from the spec: see `EPSBearerID`. -/
def BearerTFT : Nat := 0x54

/-- Modelled from the spec: see `EPSBearerID`. -/
def DelayValue : Nat := 0x5c

/-- Modelled from the spec: see `EPSBearerID`. -/
def BearerContext : Nat := 0x5d

/-- Modelled from the spec: type tag of the PDN Connection IE, the other grouped
type that §3 names (3GPP TS 29.274 value 109). -/
def PDNConnection : Nat := 0x6d

/-- Modelled from the spec: the grouped types that §3 names, "BearerContext,
PDNConnection". -/
def IsGrouped (t : Nat) : Bool := t == BearerContext || t == PDNConnection

/-- Modelled from the spec: `ie.New(type, instance, data)`, an IE with the given
payload and the length set from it. -/
def New (typ inst : Nat) (data : List Nat) : IE := .mk typ data.length inst data []

/-- Modelled from the spec: constructor of a grouped IE: the children are kept, the
payload is their serialization, the length "the sum of serialized child lengths". -/
def NewGrouped (grouped : Nat → Bool) (typ inst : Nat) (ies : List IE) : IE :=
  .mk typ (IE.SerializeAll grouped ies).length inst (IE.SerializeAll grouped ies) ies

/-- Modelled from the spec: `ie.NewEPSBearerID(ebi)`: one octet, the EBI on 4 bits. -/
def NewEPSBearerID (ebi : Nat) : IE := New EPSBearerID 0 [ebi % 16]

/-- Modelled from the spec: `ie.NewDelayValue(delay)`, the delay in milliseconds:
one octet counting multiples of 50 ms (500 ms gives `0x0a`, 100 ms gives `0x02`). -/
def NewDelayValue (delayMs : Nat) : IE := New DelayValue 0 [delayMs / 50 % 256]

/-- Modelled from the spec: `ie.NewIndicationFromOctets(octs...)`. -/
def NewIndicationFromOctets (octs : List Nat) : IE := New Indication 0 octs

/-- Modelled from the spec: `ie.NewBearerQoS(pci, pl, pvi, qci, umbr, dmbr, ugbr,
dgbr)`: one octet `pci:1 (bit 7) | pl:4 (bits 6-3) | pvi:1 (bit 1)`, the QCI, and
the four bit rates on 5 octets each. -/
def NewBearerQoS (pci pl pvi qci umbr dmbr ugbr dgbr : Nat) : IE :=
  New BearerQoS 0
    ([pci % 2 * 64 + pl % 16 * 4 + pvi % 2, qci % 256]
      ++ wire.toBE 5 umbr ++ wire.toBE 5 dmbr ++ wire.toBE 5 ugbr ++ wire.toBE 5 dgbr)

/-- Modelled from the spec: `ie.NewBearerContext(ies...)`, a grouped IE. -/
def NewBearerContext (grouped : Nat → Bool) (ies : List IE) : IE :=
  NewGrouped grouped BearerContext 0 ies

/-- Modelled from the spec: a component of a TFT packet filter: its type octet and
its contents (`ie.TFTPFComponent`; the encodings are read off the vector of
`create-bearer-req_test.go`). -/
structure TFTPFComponent where
  Typ : Nat
  Contents : List Nat
deriving DecidableEq, Repr

/-- Modelled from the spec: `ie.NewTFTPFComponentIPv4RemoteAddress(ip, mask)`. -/
def NewTFTPFComponentIPv4RemoteAddress (ip mask : List Nat) : TFTPFComponent :=
  ⟨0x10, ip ++ mask⟩

/-- Modelled from the spec: `ie.NewTFTPFComponentIPv4LocalAddress(ip, mask)`. -/
def NewTFTPFComponentIPv4LocalAddress (ip mask : List Nat) : TFTPFComponent :=
  ⟨0x11, ip ++ mask⟩

/-- Modelled from the spec: `ie.NewTFTPFComponentIPv6RemoteAddress(ip, mask)`. -/
def NewTFTPFComponentIPv6RemoteAddress (ip mask : List Nat) : TFTPFComponent :=
  ⟨0x20, ip ++ mask⟩

/-- Modelled from the spec: `ie.NewTFTPFComponentIPv6RemoteAddressPrefixLength`. -/
def NewTFTPFComponentIPv6RemoteAddressPrefixLength (ip : List Nat) (prefixLen : Nat) :
    TFTPFComponent :=
  ⟨0x21, ip ++ [prefixLen % 256]⟩

/-- Modelled from the spec: `ie.NewTFTPFComponentIPv6LocalAddressPrefixLength`. -/
def NewTFTPFComponentIPv6LocalAddressPrefixLength (ip : List Nat) (prefixLen : Nat) :
    TFTPFComponent :=
  ⟨0x23, ip ++ [prefixLen % 256]⟩

/-- Modelled from the spec: `ie.NewTFTPFComponentProtocolIdentifierNextHeader(id)`. -/
def NewTFTPFComponentProtocolIdentifierNextHeader (id : Nat) : TFTPFComponent :=
  ⟨0x30, [id % 256]⟩

/-- Modelled from the spec: `ie.NewTFTPFComponentSingleLocalPort(port)`. -/
def NewTFTPFComponentSingleLocalPort (port : Nat) : TFTPFComponent :=
  ⟨0x40, wire.toBE 2 port⟩

/-- Modelled from the spec: `ie.NewTFTPFComponentSingleRemotePort(port)`. -/
def NewTFTPFComponentSingleRemotePort (port : Nat) : TFTPFComponent :=
  ⟨0x50, wire.toBE 2 port⟩

/-- Modelled from the spec: `ie.NewTFTPFComponentLocalPortRange(low, high)`. -/
def NewTFTPFComponentLocalPortRange (low high : Nat) : TFTPFComponent :=
  ⟨0x41, wire.toBE 2 low ++ wire.toBE 2 high⟩

/-- Modelled from the spec: `ie.NewTFTPFComponentRemotePortRange(low, high)`. -/
def NewTFTPFComponentRemotePortRange (low high : Nat) : TFTPFComponent :=
  ⟨0x51, wire.toBE 2 low ++ wire.toBE 2 high⟩

/-- Modelled from the spec: `ie.NewTFTPFComponentSecurityParameterIndex(idx)`. -/
def NewTFTPFComponentSecurityParameterIndex (idx : Nat) : TFTPFComponent :=
  ⟨0x60, wire.toBE 4 idx⟩

/-- Modelled from the spec: `ie.NewTFTPFComponentTypeOfServiceTrafficClass(tos, mask)`. -/
def NewTFTPFComponentTypeOfServiceTrafficClass (tos mask : Nat) : TFTPFComponent :=
  ⟨0x70, [tos % 256, mask % 256]⟩

/-- Modelled from the spec: `ie.NewTFTPFComponentFlowLabel(label)`, on 3 octets. -/
def NewTFTPFComponentFlowLabel (label : Nat) : TFTPFComponent :=
  ⟨0x80, wire.toBE 3 label⟩

/-- Modelled from the spec: `ie.NewTFTPFComponentDestinationMACAddress(mac)`. -/
def NewTFTPFComponentDestinationMACAddress (mac : List Nat) : TFTPFComponent :=
  ⟨0x81, mac⟩

/-- Modelled from the spec: `ie.NewTFTPFComponentSourceMACAddress(mac)`. -/
def NewTFTPFComponentSourceMACAddress (mac : List Nat) : TFTPFComponent :=
  ⟨0x82, mac⟩

/-- Modelled from the spec: `ie.NewTFTPFComponentDot1QCTAGVID(vid)`. -/
def NewTFTPFComponentDot1QCTAGVID (vid : Nat) : TFTPFComponent :=
  ⟨0x83, wire.toBE 2 vid⟩

/-- Modelled from the spec: `ie.NewTFTPFComponentDot1QSTAGVID(vid)`. -/
def NewTFTPFComponentDot1QSTAGVID (vid : Nat) : TFTPFComponent :=
  ⟨0x84, wire.toBE 2 vid⟩

/-- Modelled from the spec: `ie.NewTFTPFComponentDot1QCTAGPCPDEI(v)`. -/
def NewTFTPFComponentDot1QCTAGPCPDEI (v : Nat) : TFTPFComponent :=
  ⟨0x85, [v % 256]⟩

/-- Modelled from the spec: `ie.NewTFTPFComponentDot1QSTAGPCPDEI(v)`. -/
def NewTFTPFComponentDot1QSTAGPCPDEI (v : Nat) : TFTPFComponent :=
  ⟨0x86, [v % 256]⟩

/-- Modelled from the spec: `ie.NewTFTPFComponentEthertype(v)`. -/
def NewTFTPFComponentEthertype (v : Nat) : TFTPFComponent :=
  ⟨0x87, wire.toBE 2 v⟩

/-- Octets of a packet filter component: the type, then the contents. -/
def TFTPFComponent.Serialize (c : TFTPFComponent) : List Nat := c.Typ :: c.Contents

/-- Modelled from the spec: the packet filter directions `ie.TFTPFPreRel7TFTFilter`,
`ie.TFTPFDownlinkOnly`, `ie.TFTPFUplinkOnly`, `ie.TFTPFBidirectional`. -/
def TFTPFPreRel7TFTFilter : Nat := 0

/-- Modelled from the spec: see `TFTPFPreRel7TFTFilter`. -/
def TFTPFDownlinkOnly : Nat := 1

/-- Modelled from the spec: see `TFTPFPreRel7TFTFilter`. -/
def TFTPFUplinkOnly : Nat := 2

/-- Modelled from the spec: see `TFTPFPreRel7TFTFilter`. -/
def TFTPFBidirectional : Nat := 3

/-- Modelled from the spec: `ie.TFTPacketFilter` as built by
`ie.NewTFTPacketFilter(direction, identifier, precedence, components...)`. -/
structure TFTPacketFilter where
  Direction : Nat
  Identifier : Nat
  EvaluationPrecedence : Nat
  Components : List TFTPFComponent
deriving DecidableEq, Repr

/-- Modelled from the spec: `ie.NewTFTPacketFilter`. -/
def NewTFTPacketFilter (dir id precedence : Nat) (comps : List TFTPFComponent) :
    TFTPacketFilter :=
  ⟨dir, id, precedence, comps⟩

/-- Octets of the components of a packet filter, in order. -/
def TFTPacketFilter.Contents (f : TFTPacketFilter) : List Nat :=
  f.Components.foldr (fun c acc => c.Serialize ++ acc) []

/-- Octets of a packet filter: `direction:2|identifier:4`, the evaluation
precedence, the length of the contents, the contents. -/
def TFTPacketFilter.Serialize (f : TFTPacketFilter) : List Nat :=
  (f.Direction % 4 * 16 + f.Identifier % 16) :: f.EvaluationPrecedence % 256
    :: f.Contents.length % 256 :: f.Contents

/-- Modelled from the spec: `ie.TFTParameter` as built by
`ie.NewTFTParameter(identifier, contents)`. -/
structure TFTParameter where
  Identifier : Nat
  Contents : List Nat
deriving DecidableEq, Repr

/-- Modelled from the spec: the parameter identifiers of the test. -/
def TFTParamIDAuthorizationToken : Nat := 1

/-- Modelled from the spec: see `TFTParamIDAuthorizationToken`. -/
def TFTParamIDFlowIdentifier : Nat := 2

/-- Modelled from the spec: see `TFTParamIDAuthorizationToken`. -/
def TFTParamIDPacketFileterIdentifier : Nat := 3

/-- Modelled from the spec: `ie.NewTFTParameter`. -/
def NewTFTParameter (id : Nat) (contents : List Nat) : TFTParameter := ⟨id, contents⟩

/-- Octets of a TFT parameter: identifier, length, contents. -/
def TFTParameter.Serialize (p : TFTParameter) : List Nat :=
  p.Identifier % 256 :: p.Contents.length % 256 :: p.Contents

/-- Modelled from the spec: `ie.NewBearerTFTCreateNewTFT(filters, params)`: the
octet `opcode:3 | E:1 | number of filters:4` with operation code 1 ("create new
TFT") and the E bit set when there are parameters, then the packet filters, then
the parameters. -/
def NewBearerTFTCreateNewTFT (filters : List TFTPacketFilter) (params : List TFTParameter) :
    IE :=
  New BearerTFT 0
    ((1 * 32 + (if params.isEmpty then 0 else 16) + filters.length % 16)
      :: (filters.foldr (fun f acc => f.Serialize ++ acc) []
          ++ params.foldr (fun p acc => p.Serialize ++ acc) []))

end ie

/-- Modelled from the spec: the message of §3 for version 2: "`version`, `type`
(1 octet), `length`, optional `teid` (32-bit; present when the T-flag is set),
`sequence_number` (24 bits), ordered `ies`, and an opaque `payload` tail (empty for
generated messages)". -/
structure Message where
  Version : Nat
  Typ : Nat
  Length : Nat
  TEID : Option Nat
  SequenceNumber : Nat
  IEs : List IE
  Payload : List Nat

/-- Clearing of the payload tail, the `v.Payload = nil` of the tests. -/
def Message.clearPayload (m : Message) : Message := { m with Payload := [] }

/-- Modelled from the spec: serialization of a version 2 message (§4.B): the flags
octet (version in bits 7-5, T-flag `0x08`), the type, the 2-octet length, the TEID
on 4 octets when present, the sequence number on 3 octets, one spare octet, the IEs
in order and the payload tail. -/
def Message.Serialize (grouped : Nat → Bool) (m : Message) : List Nat :=
  (m.Version * 32 + (if m.TEID.isSome then 8 else 0)) :: m.Typ :: (wire.toBE 2 m.Length
    ++ (match m.TEID with
        | some teid => wire.toBE 4 teid
        | none => [])
    ++ wire.toBE 3 m.SequenceNumber ++ [0]
    ++ IE.SerializeAll grouped m.IEs ++ m.Payload)

/-- Modelled from the spec: `parse_message` for version 2 (§4.B): "reads version
bits from the first octet, validates version/flags, decodes the header, then parses
a sequence of IEs until `length` bytes are consumed. Extra bytes become `payload`.
Fails with `TRUNCATED`, `BAD_VERSION`, or `MALFORMED_IE`." The flags octet is
`0x48` (12-octet header with TEID) or `0x40` (8-octet header). -/
def Parse (grouped : Nat → Bool) (b : List Nat) : Except ParseError Message :=
  match b with
  | flags :: typ :: l1 :: l0 :: rest =>
    if flags ≠ 0x48 ∧ flags ≠ 0x40 then .error .BAD_VERSION
    else if rest.length < wire.fromBE [l1, l0]
        ∨ wire.fromBE [l1, l0] < (if flags = 0x48 then 8 else 4) then .error .TRUNCATED
    else
      match ParseMultiIEs grouped
          (((rest.take (wire.fromBE [l1, l0])).drop (if flags = 0x48 then 8 else 4))) with
      | .ok ies =>
        .ok { Version := flags / 32
              Typ := typ
              Length := wire.fromBE [l1, l0]
              TEID := if flags = 0x48 then some (wire.fromBE (rest.take 4)) else none
              SequenceNumber :=
                wire.fromBE (((rest.take (wire.fromBE [l1, l0])).drop
                  (if flags = 0x48 then 4 else 0)).take 3)
              IEs := ies
              Payload := rest.drop (wire.fromBE [l1, l0]) }
      | .error _ => .error .MALFORMED_IE
  | _ => .error .TRUNCATED

namespace message

/-- Modelled from the spec: message type values, read off the vectors of the tests
under `src/gtpv2/message/` (`0x5f`, `0xd3`, `0x42`) and of scenario 1 of §8 (`0x01`). -/
def MsgTypeEchoRequest : Nat := 0x01

/-- Modelled from the spec: see `MsgTypeEchoRequest`. -/
def MsgTypeDeleteBearerCommand : Nat := 0x42

/-- Modelled from the spec: see `MsgTypeEchoRequest`. -/
def MsgTypeCreateBearerRequest : Nat := 0x5f

/-- Modelled from the spec: see `MsgTypeEchoRequest`. -/
def MsgTypeModifyAccessBearersRequest : Nat := 0xd3

/-- Modelled from the spec: what every message constructor does: version 2, the
given type, TEID, sequence number and IEs in order, no payload tail, and the length
set to the number of octets after the length field. -/
def New (grouped : Nat → Bool) (typ : Nat) (teid : Option Nat) (seq : Nat) (ies : List IE) :
    Message :=
  { Version := 2
    Typ := typ
    Length := (if teid.isSome then 8 else 4) + (IE.SerializeAll grouped ies).length
    TEID := teid
    SequenceNumber := seq
    IEs := ies
    Payload := [] }

/-- Modelled from the spec: `message.NewCreateBearerRequest(teid, seq, ies...)`. -/
def NewCreateBearerRequest (grouped : Nat → Bool) (teid seq : Nat) (ies : List IE) : Message :=
  New grouped MsgTypeCreateBearerRequest (some teid) seq ies

/-- Modelled from the spec: `message.NewModifyAccessBearersRequest(teid, seq, ies...)`. -/
def NewModifyAccessBearersRequest (grouped : Nat → Bool) (teid seq : Nat) (ies : List IE) :
    Message :=
  New grouped MsgTypeModifyAccessBearersRequest (some teid) seq ies

/-- Modelled from the spec: `message.NewDeleteBearerCommand(teid, seq, ies...)`. -/
def NewDeleteBearerCommand (grouped : Nat → Bool) (teid seq : Nat) (ies : List IE) : Message :=
  New grouped MsgTypeDeleteBearerCommand (some teid) seq ies

/-- Modelled from the spec: `message.NewEchoRequest(seq, ies...)`, a message without
TEID (8-octet header). -/
def NewEchoRequest (grouped : Nat → Bool) (seq : Nat) (ies : List IE) : Message :=
  New grouped MsgTypeEchoRequest none seq ies

/-- Modelled from the spec: `message.ParseCreateBearerRequest(b)`. -/
def ParseCreateBearerRequest (grouped : Nat → Bool) (b : List Nat) :
    Except ParseError Message :=
  Parse grouped b

/-- Modelled from the spec: `message.ParseModifyAccessBearersRequest(b)`. -/
def ParseModifyAccessBearersRequest (grouped : Nat → Bool) (b : List Nat) :
    Except ParseError Message :=
  Parse grouped b

/-- Modelled from the spec: `message.ParseDeleteBearerCommand(b)`. -/
def ParseDeleteBearerCommand (grouped : Nat → Bool) (b : List Nat) :
    Except ParseError Message :=
  Parse grouped b

end message

/-- The inputs of a message constructor are "supported": the TEID fits 32 bits, the
sequence number 24 bits, every IE satisfies the invariant of the data model, and
the length fits its 2 octets. -/
def Supported (grouped : Nat → Bool) (teid seq : Nat) (ies : List IE) : Prop :=
  teid < 2 ^ 32 ∧ seq < 2 ^ 24 ∧ IE.validAll grouped ies = true
    ∧ 8 + (IE.SerializeAll grouped ies).length < 65536

/-- Well-formedness of an octet string as a sequence of IEs: it splits into IEs,
each with its 4-octet header, the spare half of the fourth octet zero and `length`
octets of payload available, the payload of a grouped type being well-formed in
turn. The first argument bounds the nesting as in `ParseMultiIEsAux`. -/
def WellFormedIEsAux (grouped : Nat → Bool) : Nat → List Nat → Bool
  | 0, _ => false
  | _ + 1, [] => true
  | fuel + 1, t :: l1 :: l0 :: i :: rest =>
    decide (i < 16) && decide (wire.fromBE [l1, l0] ≤ rest.length)
      && (if grouped t then WellFormedIEsAux grouped fuel (rest.take (wire.fromBE [l1, l0]))
          else true)
      && WellFormedIEsAux grouped fuel (rest.drop (wire.fromBE [l1, l0]))
  | _ + 1, _ => false

/-- An octet string is a well-formed message of type `typ` with TEID: every element
is an octet, the flags are `0x48`, the type is `typ`, the spare octet is zero, the
length field covers the rest of the header and no more than what follows, and the
octets it covers after the header are a well-formed sequence of IEs. What follows
the octets covered by the length field is the payload tail. -/
def WellFormed (grouped : Nat → Bool) (typ : Nat) : List Nat → Bool
  | flags :: t :: l1 :: l0 :: a :: b :: c :: d :: e :: f :: g :: spare :: rest =>
    (flags :: t :: l1 :: l0 :: a :: b :: c :: d :: e :: f :: g :: spare :: rest).all
        (fun o => decide (o < 256))
      && decide (flags = 0x48) && decide (t = typ) && decide (spare = 0)
      && decide (8 ≤ wire.fromBE [l1, l0]) && decide (wire.fromBE [l1, l0] ≤ 8 + rest.length)
      && WellFormedIEsAux grouped ((rest.take (wire.fromBE [l1, l0] - 8)).length + 1)
          (rest.take (wire.fromBE [l1, l0] - 8))
  | _ => false

end gtpv2

/-! ## The vectors of the GTPv2 message tests -/

namespace gtpv2.message_test

/-- `testutils.TestBearerInfo.TEID`, as the vectors show it (`11 22 33 44`). -/
def TestTEID : Nat := 0x11223344

/-- `testutils.TestBearerInfo.Seq`, as the vectors show it (`00 00 01`). -/
def TestSeq : Nat := 0x000001

/-- `net.ParseIP("127.0.0.1")`. -/
def ip4Loopback : List Nat := [127, 0, 0, 1]

/-- `net.IPv4Mask(255, 255, 255, 0)`. -/
def mask24 : List Nat := [255, 255, 255, 0]

/-- `net.ParseIP("2001::1")`. -/
def ip6 : List Nat := [0x20, 0x01, 0, 0, 0, 0, 0, 0, 0, 0, 0, 0, 0, 0, 0, 1]

/-- `net.CIDRMask(64, 128)`. -/
def mask64 : List Nat := [255, 255, 255, 255, 255, 255, 255, 255, 0, 0, 0, 0, 0, 0, 0, 0]

/-- The test's `mac1`, as the vector shows it. -/
def mac1 : List Nat := [0x12, 0x34, 0x56, 0x78, 0x90, 0x01]

/-- The test's `mac2`, as the vector shows it. -/
def mac2 : List Nat := [0x12, 0x34, 0x56, 0x78, 0x90, 0x02]

/-- The Bearer TFT of `TestCreateBearerRequest`. -/
def createBearerTFT : IE :=
  ie.NewBearerTFTCreateNewTFT
    [ie.NewTFTPacketFilter ie.TFTPFPreRel7TFTFilter 1 0
       [ie.NewTFTPFComponentIPv4RemoteAddress ip4Loopback mask24,
        ie.NewTFTPFComponentIPv4LocalAddress ip4Loopback mask24,
        ie.NewTFTPFComponentIPv6RemoteAddress ip6 mask64,
        ie.NewTFTPFComponentIPv6RemoteAddressPrefixLength ip6 64,
        ie.NewTFTPFComponentIPv6LocalAddressPrefixLength ip6 64],
     ie.NewTFTPacketFilter ie.TFTPFDownlinkOnly 2 0
       [ie.NewTFTPFComponentProtocolIdentifierNextHeader 1,
        ie.NewTFTPFComponentSingleLocalPort 2152,
        ie.NewTFTPFComponentSingleRemotePort 2123,
        ie.NewTFTPFComponentLocalPortRange 2123 2152,
        ie.NewTFTPFComponentRemotePortRange 2152 2123],
     ie.NewTFTPacketFilter ie.TFTPFUplinkOnly 3 0
       [ie.NewTFTPFComponentSecurityParameterIndex 0xdeadbeef,
        ie.NewTFTPFComponentTypeOfServiceTrafficClass 1 2,
        ie.NewTFTPFComponentFlowLabel 0x00011111,
        ie.NewTFTPFComponentDestinationMACAddress mac1,
        ie.NewTFTPFComponentSourceMACAddress mac2],
     ie.NewTFTPacketFilter ie.TFTPFBidirectional 4 0
       [ie.NewTFTPFComponentDot1QCTAGVID 0x0111,
        ie.NewTFTPFComponentDot1QSTAGVID 0x0222,
        ie.NewTFTPFComponentDot1QCTAGPCPDEI 3,
        ie.NewTFTPFComponentDot1QSTAGPCPDEI 5,
        ie.NewTFTPFComponentEthertype 0x0800]]
    [ie.NewTFTParameter ie.TFTParamIDAuthorizationToken [0xde, 0xad, 0xbe, 0xef],
     ie.NewTFTParameter ie.TFTParamIDFlowIdentifier [0x11, 0x11, 0x22, 0x22],
     ie.NewTFTParameter ie.TFTParamIDPacketFileterIdentifier [0x01, 0x02, 0x03, 0x04]]

/-- The Bearer Context of `TestCreateBearerRequest`. -/
def createBearerContext : IE :=
  ie.NewBearerContext ie.IsGrouped
    [ie.NewEPSBearerID 0,
     ie.NewBearerQoS 1 2 1 0xff 0x1111111111 0x2222222222 0x1111111111 0x2222222222,
     createBearerTFT]

/-- The IEs of `TestCreateBearerRequest`. -/
def createBearerIEs : List IE := [ie.NewEPSBearerID 5, createBearerContext]

/-- `Structured` of `TestCreateBearerRequest` (create-bearer-req_test.go). -/
def createBearerStructured : Message :=
  message.NewCreateBearerRequest ie.IsGrouped TestTEID TestSeq createBearerIEs

/-- `Serialized` of `TestCreateBearerRequest`, 231 octets. -/
def createBearerSerialized : List Nat :=
  [0x48, 0x5f, 0x00, 0xe3, 0x11, 0x22, 0x33, 0x44, 0x00, 0x00, 0x01, 0x00,
   0x49, 0x00, 0x01, 0x00, 0x05,
   0x5d, 0x00, 0xd2, 0x00,
   0x49, 0x00, 0x01, 0x00, 0x00,
   0x50, 0x00, 0x16, 0x00, 0x49, 0xff,
   0x11, 0x11, 0x11, 0x11, 0x11, 0x22, 0x22, 0x22, 0x22, 0x22,
   0x11, 0x11, 0x11, 0x11, 0x11, 0x22, 0x22, 0x22, 0x22, 0x22,
   0x54, 0x00, 0xaf, 0x00, 0x34, 0x01, 0x00, 0x57, 0x10, 0x7f, 0x00, 0x00, 0x01, 0xff, 0xff, 0xff,
   0x00, 0x11, 0x7f, 0x00, 0x00, 0x01, 0xff, 0xff, 0xff, 0x00, 0x20, 0x20, 0x01, 0x00, 0x00, 0x00,
   0x00, 0x00, 0x00, 0x00, 0x00, 0x00, 0x00, 0x00, 0x00, 0x00, 0x01, 0xff, 0xff, 0xff, 0xff, 0xff,
   0xff, 0xff, 0xff, 0x00, 0x00, 0x00, 0x00, 0x00, 0x00, 0x00, 0x00, 0x21, 0x20, 0x01, 0x00, 0x00,
   0x00, 0x00, 0x00, 0x00, 0x00, 0x00, 0x00, 0x00, 0x00, 0x00, 0x00, 0x01, 0x40, 0x23, 0x20, 0x01,
   0x00, 0x00, 0x00, 0x00, 0x00, 0x00, 0x00, 0x00, 0x00, 0x00, 0x00, 0x00, 0x00, 0x01, 0x40, 0x12,
   0x00, 0x12, 0x30, 0x01, 0x40, 0x08, 0x68, 0x50, 0x08, 0x4b, 0x41, 0x08, 0x4b, 0x08, 0x68, 0x51,
   0x08, 0x68, 0x08, 0x4b, 0x23, 0x00, 0x1a, 0x60, 0xde, 0xad, 0xbe, 0xef, 0x70, 0x01, 0x02, 0x80,
   0x01, 0x11, 0x11, 0x81, 0x12, 0x34, 0x56, 0x78, 0x90, 0x01, 0x82, 0x12, 0x34, 0x56, 0x78, 0x90,
   0x02, 0x34, 0x00, 0x0d, 0x83, 0x01, 0x11, 0x84, 0x02, 0x22, 0x85, 0x03, 0x86, 0x05, 0x87, 0x08,
   0x00, 0x01, 0x04, 0xde, 0xad, 0xbe, 0xef, 0x02, 0x04, 0x11, 0x11, 0x22, 0x22, 0x03, 0x04, 0x01,
   0x02, 0x03, 0x04]

/-- `Structured` of `TestModifyAccessBearersRequest`, case "Normal/NoIE". -/
def modifyAccessBearersNoIE : Message :=
  message.NewModifyAccessBearersRequest ie.IsGrouped TestTEID TestSeq []

/-- `Serialized` of `TestModifyAccessBearersRequest`, case "Normal/NoIE". -/
def modifyAccessBearersNoIESerialized : List Nat :=
  [0x48, 0xd3, 0x00, 0x08, 0x11, 0x22, 0x33, 0x44, 0x00, 0x00, 0x01, 0x00]

/-- `Structured` of `TestModifyAccessBearersRequest`, case "Normal/WithIndication". -/
def modifyAccessBearersWithIndication : Message :=
  message.NewModifyAccessBearersRequest ie.IsGrouped TestTEID TestSeq
    [ie.NewIndicationFromOctets [0xa1, 0x08, 0x15, 0x10, 0x88, 0x81, 0x40]]

/-- `Serialized` of `TestModifyAccessBearersRequest`, case "Normal/WithIndication". -/
def modifyAccessBearersWithIndicationSerialized : List Nat :=
  [0x48, 0xd3, 0x00, 0x13, 0x11, 0x22, 0x33, 0x44, 0x00, 0x00, 0x01, 0x00,
   0x4d, 0x00, 0x07, 0x00, 0xa1, 0x08, 0x15, 0x10, 0x88, 0x81, 0x40]

/-- The Bearer Context of `TestDeleteBearerCommand`: two Delay Values, 500 ms and
100 ms. -/
def deleteBearerContext : IE :=
  ie.NewBearerContext ie.IsGrouped [ie.NewDelayValue 500, ie.NewDelayValue 100]

/-- `Structured` of `TestDeleteBearerCommand` (delete-bearer-command_test.go). -/
def deleteBearerStructured : Message :=
  message.NewDeleteBearerCommand ie.IsGrouped TestTEID TestSeq [deleteBearerContext]

/-- `Serialized` of `TestDeleteBearerCommand`. -/
def deleteBearerSerialized : List Nat :=
  [0x48, 0x42, 0x00, 0x16, 0x11, 0x22, 0x33, 0x44, 0x00, 0x00, 0x01, 0x00,
   0x5d, 0x00, 0x0a, 0x00, 0x5c, 0x00, 0x01, 0x00, 0x0a, 0x5c, 0x00, 0x01, 0x00, 0x02]

end gtpv2.message_test

/-! ## GTPv0: the message header -/

namespace gtpv0

/-- Modelled from the spec: failure kinds of the version 0 codec (package
`gtpv0/message` is not under src/, only its test is). -/
inductive ParseError where
  | TRUNCATED
  | BAD_VERSION
deriving DecidableEq, Repr

/-- Modelled from the spec: the version 0 message, "20-byte fixed header; 16-bit
sequence", with the header fields the test vector shows: type, length, sequence
number, flow label, SNDCP N-PDU number and the 8-octet TID. The IEs are kept as
their octets; the payload tail is what follows them. -/
structure Message where
  Version : Nat
  Typ : Nat
  Length : Nat
  SequenceNumber : Nat
  FlowLabel : Nat
  SndcpNumber : Nat
  TID : Nat
  IEs : List Nat
  Payload : List Nat
deriving DecidableEq, Repr

/-- Clearing of the payload tail, the `v.Payload = nil` of the test. -/
def Message.clearPayload (m : Message) : Message := { m with Payload := [] }

/-- Modelled from the spec: serialization of a version 0 message: flags `0x1e`
(version 0 in bits 7-5), type, 2-octet length, 2-octet sequence number, 2-octet flow
label, the SNDCP N-PDU number, three spare octets `0xff`, the TID on 8 octets, then
the IEs and the payload tail. -/
def Message.Serialize (m : Message) : List Nat :=
  (m.Version * 32 + 0x1e) :: m.Typ :: (wire.toBE 2 m.Length ++ wire.toBE 2 m.SequenceNumber
    ++ wire.toBE 2 m.FlowLabel ++ [m.SndcpNumber, 0xff, 0xff, 0xff] ++ wire.toBE 8 m.TID
    ++ m.IEs ++ m.Payload)

/-- Modelled from the spec: parsing of a version 0 message: the flags octet is
validated, the 20-octet header decoded, `length` octets taken as the IEs and the
extra octets as the payload tail. -/
def Parse (b : List Nat) : Except ParseError Message :=
  match b with
  | flags :: typ :: l1 :: l0 :: rest =>
    if flags ≠ 0x1e then .error .BAD_VERSION
    else if rest.length < 16 + wire.fromBE [l1, l0] then .error .TRUNCATED
    else
      .ok { Version := flags / 32
            Typ := typ
            Length := wire.fromBE [l1, l0]
            SequenceNumber := wire.fromBE (rest.take 2)
            FlowLabel := wire.fromBE ((rest.drop 2).take 2)
            SndcpNumber := wire.fromBE ((rest.drop 4).take 1)
            TID := wire.fromBE ((rest.drop 8).take 8)
            IEs := (rest.drop 16).take (wire.fromBE [l1, l0])
            Payload := (rest.drop 16).drop (wire.fromBE [l1, l0]) }
  | _ => .error .TRUNCATED

namespace message

/-- Modelled from the spec: message type of the Echo Request (`0x01` in the vector). -/
def MsgTypeEchoRequest : Nat := 0x01

/-- Modelled from the spec: what a version 0 message constructor does: the header
fields as given, SNDCP N-PDU number `0xff`, the IEs, no payload tail, and the length
set to the number of octets after the 20-octet header. -/
def New (typ seq label tid : Nat) (ies : List Nat) : Message :=
  { Version := 0
    Typ := typ
    Length := ies.length
    SequenceNumber := seq
    FlowLabel := label
    SndcpNumber := 0xff
    TID := tid
    IEs := ies
    Payload := [] }

/-- Modelled from the spec: `message.NewEchoRequest(seq, label, tid)`, without IEs. -/
def NewEchoRequest (seq label tid : Nat) : Message := New MsgTypeEchoRequest seq label tid []

/-- Modelled from the spec: `message.ParseEchoRequest(b)`. -/
def ParseEchoRequest (b : List Nat) : Except ParseError Message := Parse b

end message

namespace message_test

/-- `testutils.TestFlow.Seq`, `.Label` and `.TID`, as the vector shows them. -/
def TestSeq : Nat := 0x0001

/-- See `TestSeq`. -/
def TestLabel : Nat := 0x0000

/-- See `TestSeq`. -/
def TestTID : Nat := 0x2143658709214355

/-- `Structured` of `TestEchoRequest` (echo-req_test.go). -/
def echoRequestStructured : Message := message.NewEchoRequest TestSeq TestLabel TestTID

/-- `Serialized` of `TestEchoRequest`, 20 octets. -/
def echoRequestSerialized : List Nat :=
  [0x1e, 0x01, 0x00, 0x00,
   0x00, 0x01, 0x00, 0x00,
   0xff, 0xff, 0xff, 0xff,
   0x21, 0x43, 0x65, 0x87, 0x09, 0x21, 0x43, 0x55]

end message_test

end gtpv0

/-! ## GTPv1: the type assertions of the default handlers -/

namespace gtpv1

/-- Whether a message is an EchoRequest (the type assertion of `handleEchoRequest`). -/
def Message.isEchoRequest : Message → Bool
  | .EchoRequest _ _ => true
  | _ => false

/-- Whether a message is an ErrorIndication (the type assertion of
`handleErrorIndication`). -/
def Message.isErrorIndication : Message → Bool
  | .ErrorIndication _ _ _ _ => true
  | _ => false

end gtpv1

/-! ## GTPv1: error texts -/

namespace gtpv1

/-- Lower-case hexadecimal digit of a value below 16, as Go's `fmt` prints it. -/
def hexDigit (n : Nat) : Char := if n < 10 then Char.ofNat (48 + n) else Char.ofNat (87 + n)

/-- Value of a lower-case hexadecimal digit. -/
def hexVal (c : Char) : Nat := if c.toNat < 58 then c.toNat - 48 else c.toNat - 87

/-- Go's `%#08x` applied to a `uint32`: the flag `0` with width 8 asks for eight
digits, zero-padded, and the flag `#` puts `0x` in front of them. These are the
eight digits. -/
def hex8 (v : Nat) : List Char :=
  [hexDigit (v / 16 ^ 7 % 16), hexDigit (v / 16 ^ 6 % 16), hexDigit (v / 16 ^ 5 % 16),
   hexDigit (v / 16 ^ 4 % 16), hexDigit (v / 16 ^ 3 % 16), hexDigit (v / 16 ^ 2 % 16),
   hexDigit (v / 16 % 16), hexDigit (v % 16)]

/-- `InvalidTEIDError.Error` of `errors.go`:
`fmt.Sprintf("got invalid TEID: %#08x", e.TEID)`, for the 32-bit `TEID`. -/
def InvalidTEIDError.Error (TEID : Nat) : String :=
  "got invalid TEID: " ++ ("0x" ++ String.mk (hex8 TEID))

end gtpv1

/-! ## gw-tester: the address pool of the P-GW -/

namespace gwtester.pool

/-- `type list struct` of `pgw.go`. A `*list` is the address of a node in the heap
of the pool, `none` for `nil`. -/
structure list where
  ip : String
  prevList : Option Nat
  nextList : Option Nat
  last : Option Nat
deriving DecidableEq, Repr

/-- The part of `type pgw struct` that the pool functions touch: the two list heads,
and the heap holding the nodes they point to (the node at address `a` is
`heap[a]`). -/
structure pgw where
  heap : List list
  inactive : Option Nat
  active : Option Nat
deriving DecidableEq, Repr

/-- Reading through a pointer; `none` when there is no node at the address. -/
def pgw.get (p : pgw) (a : Nat) : Option list := p.heap[a]?

/-- Writing a field through a pointer; `none` when there is no node at the address. -/
def pgw.modify (p : pgw) (a : Nat) (f : list → list) : Option pgw :=
  match p.heap[a]? with
  | some n => some { p with heap := p.heap.set a (f n) }
  | none => none

/-- `add_inactive` of `pgw.go`. The local `current` escapes and lives in the heap at
a fresh address. The result is `none` when the function dereferences `nil` (a Go
panic). -/
def add_inactive (p : pgw) (addr : String) : Option pgw :=
  let current := p.heap.length
  let p0 : pgw := { p with heap := p.heap ++ [⟨addr, none, none, none⟩] }
  match p0.inactive with
  | none =>
    (pgw.modify { p0 with inactive := some current } current
      (fun n => { n with prevList := none })).bind fun p1 =>
    p1.inactive.bind fun hd =>
    p1.modify hd (fun n => { n with last := some current })
  | some hd =>
    (p0.get hd).bind fun h =>
    (p0.modify current (fun n => { n with prevList := h.last })).bind fun p1 =>
    (p1.get hd).bind fun h1 =>
    h1.last.bind fun l =>
    (p1.modify l (fun n => { n with nextList := some current })).bind fun p2 =>
    p2.inactive.bind fun hd2 =>
    p2.modify hd2 (fun n => { n with last := some current })

/-- `rem_inactive` of `pgw.go`; the result is the returned pointer and the pool, or
`none` when the function dereferences `nil`. -/
def rem_inactive (p : pgw) : Option (Option Nat × pgw) :=
  p.inactive.bind fun current =>
  (p.get current).bind fun c =>
  let p1 : pgw := { p with inactive := c.nextList }
  p1.inactive.bind fun hd =>
  (p1.modify hd (fun n => { n with prevList := none })).bind fun p2 =>
  (p2.get current).bind fun c2 =>
  p2.inactive.bind fun hd2 =>
  (p2.modify hd2 (fun n => { n with last := c2.last })).bind fun p3 =>
  (p3.modify current (fun n => { n with last := none })).bind fun p4 =>
  (p4.modify current (fun n => { n with nextList := none })).bind fun p5 =>
  (p5.modify current (fun n => { n with prevList := none })).bind fun p6 =>
  some (some current, p6)

/-- `add_active` of `pgw.go`. -/
def add_active (p : pgw) (addr : String) : Option pgw :=
  let current := p.heap.length
  let p0 : pgw := { p with heap := p.heap ++ [⟨addr, none, none, none⟩] }
  match p0.active with
  | none =>
    (pgw.modify { p0 with active := some current } current
      (fun n => { n with prevList := none })).bind fun p1 =>
    p1.active.bind fun hd =>
    p1.modify hd (fun n => { n with last := some current })
  | some hd =>
    (p0.get hd).bind fun h =>
    (p0.modify current (fun n => { n with prevList := h.last })).bind fun p1 =>
    (p1.get hd).bind fun h1 =>
    h1.last.bind fun l =>
    (p1.modify l (fun n => { n with nextList := some current })).bind fun p2 =>
    p2.active.bind fun hd2 =>
    p2.modify hd2 (fun n => { n with last := some current })

/-- `rem_active` of `pgw.go`: `current := p.inactive` (sic), then `p.active` is set
to `current.nextList` and the links are rewritten as in `rem_inactive`. -/
def rem_active (p : pgw) : Option (Option Nat × pgw) :=
  p.inactive.bind fun current =>
  (p.get current).bind fun c =>
  let p1 : pgw := { p with active := c.nextList }
  p1.active.bind fun hd =>
  (p1.modify hd (fun n => { n with prevList := none })).bind fun p2 =>
  (p2.get current).bind fun c2 =>
  p2.active.bind fun hd2 =>
  (p2.modify hd2 (fun n => { n with last := c2.last })).bind fun p3 =>
  (p3.modify current (fun n => { n with last := none })).bind fun p4 =>
  (p4.modify current (fun n => { n with nextList := none })).bind fun p5 =>
  (p5.modify current (fun n => { n with prevList := none })).bind fun p6 =>
  some (some current, p6)

/-- The empty pool of `newPGW` (`inactive: nil, active: nil`). -/
def emptyPool : pgw := ⟨[], none, none⟩

end gwtester.pool

/-! ## gw-tester: the inactive list of the pool as a queue -/

namespace gwtester.pool

/-- The nodes reached from a pointer by following `nextList`, at most `fuel` of
them. -/
def pgw.follow (p : pgw) : Nat → Option Nat → List Nat
  | 0, _ => []
  | _ + 1, none => []
  | fuel + 1, some a =>
    match p.heap[a]? with
    | some n => a :: p.follow fuel n.nextList
    | none => []

/-- The inactive list: the nodes followed through `nextList` from `p.inactive` (a
list without cycle has at most as many nodes as the heap). -/
def pgw.inactiveNodes (p : pgw) : List Nat := p.follow p.heap.length p.inactive

/-- The address held by the node at `a` (empty when there is no node). -/
def pgw.ipOf (p : pgw) (a : Nat) : String := ((p.heap[a]?).map (fun n => n.ip)).getD ""

/-- A call on the inactive pool. -/
inductive Op where
  | add_inactive (addr : String)
  | rem_inactive
deriving DecidableEq, Repr

/-- A sequence of calls on the pool, in order: the pool at the end and the nodes that
the `rem_inactive` calls returned, each as it was when returned; `none` when a call
dereferences `nil`. -/
def run : List Op → pgw → Option (pgw × List list)
  | [], p => some (p, [])
  | .add_inactive addr :: ops, p => (add_inactive p addr).bind fun p1 => run ops p1
  | .rem_inactive :: ops, p =>
    (rem_inactive p).bind fun r =>
    (r.1.bind r.2.get).bind fun node =>
    (run ops r.2).map fun x => (x.1, node :: x.2)

/-- The claim's words, a first-in first-out queue of addresses: `add_inactive` puts
the address at the end, `rem_inactive` takes the oldest one, and is made only while
at least two entries remain (otherwise the sequence is not one the claim speaks of,
`none`). The result is the queue at the end and the addresses taken, in order. -/
def fifo : List Op → List String → Option (List String × List String)
  | [], q => some (q, [])
  | .add_inactive addr :: ops, q => fifo ops (q ++ [addr])
  | .rem_inactive :: ops, q =>
    match q with
    | x :: y :: rest => (fifo ops (y :: rest)).map fun r => (r.1, x :: r.2)
    | _ => none


/-- The node at address `i` of the pool that holds the addresses `addrs`, allocated in
this order at the addresses `0, 1, ...`, of which the first `k` were taken out: a node
taken out has its links cleared, the head `k` has no `prevList` and its `last` points
to the final node, every later node points to its neighbours. -/
def nodeOf (addrs : List String) (k i : Nat) : list :=
  { ip := addrs[i]?.getD ""
    prevList := if i ≤ k then none else some (i - 1)
    nextList := if i < k ∨ i + 1 = addrs.length then none else some (i + 1)
    last := if i = k then some (addrs.length - 1) else none }

/-- The pool that holds the addresses `addrs` with the first `k` taken out. -/
def poolOf (addrs : List String) (k : Nat) (active : Option Nat) : pgw :=
  { heap := (List.range addrs.length).map (nodeOf addrs k)
    inactive := if k < addrs.length then some k else none
    active := active }

end gwtester.pool

/-! ## GTPv1: what the gw-tester handlers use of the packages not under src/ -/

namespace gtpv1

/-- Modelled from the spec: `gtpv1.ResCauseRequestAccepted`, the Cause value
"Request accepted" (3GPP TS 29.060 value 128; the constant is not under src/). -/
def ResCauseRequestAccepted : Nat := 128

/-- Modelled from the spec: `gtpv1.APNRestrictionPrivate2` (3GPP TS 29.060, APN
Restriction value 4; the constant is not under src/). -/
def APNRestrictionPrivate2 : Nat := 4

/-- Modelled from the spec: `gtpv1.GTPCPort`, the port suffix of GTP-C ("UDP on ports
2123 (GTP-C v1/v2)"). -/
def GTPCPort : String := ":2123"

/-- Modelled from the spec: `gtpv1.GTPUPort`, the port suffix of GTP-U ("2152
(GTP-U)"). -/
def GTPUPort : String := ":2152"

/-- Modelled from the spec: `gtpv1.RatTypeUTRAN` (3GPP TS 29.060, RAT Type value 1; the
constant is not under src/). -/
def RatTypeUTRAN : Nat := 1

/-- Modelled from the spec: `gtpv1.SelectionModeMSorNetworkProvidedAPNSubscribedVerified`
(3GPP TS 29.060, Selection Mode value 0; the constant is not under src/). -/
def SelectionModeMSorNetworkProvidedAPNSubscribedVerified : Nat := 0

/-- The constructors of package `gtpv1/ie` that the MME of `mme1/mme.go` calls to
build its requests; the package is not under src/, so they are parameters. A
`*ConfigurationProtocolOption` built by `ie.NewConfigurationProtocolOption(id,
contents)` is kept as the pair of its arguments, and a `time.Duration` is in
nanoseconds. -/
structure IEConstructors where
  NewIMSI : String → IE
  NewMSISDN : String → IE
  NewIMEISV : String → IE
  NewUserLocationInformationWithSAI : String → String → Nat → Nat → IE
  NewRATType : Nat → IE
  NewQoSProfile : List Nat → IE
  NewEndUserAddressIPv4 : String → IE
  NewAccessPointName : String → IE
  NewSelectionMode : Nat → IE
  NewProtocolConfigurationOptions : Nat → List (Nat × List Nat) → IE
  NewAPNRestriction : Nat → IE
  NewMSTimeZone : Nat → Nat → IE
  NewTEIDDataI : Nat → IE

/-- Modelled from the spec: the interface types under which a session keeps its
TEIDs ("interface-type is an enum such as S11-MME-C, ..."), as far as the handlers
under src/ name them: `gtpv1.S11MMEGTPC`, `gtpv1.S11SGWGTPC`, `gtpv1.S11SGWGTPU`,
`gtpv1.S5SGWGTPC`, `gtpv1.S5PGWGTPC`, `gtpv1.S5SGWGTPU`. -/
inductive IFType where
  | S11MMEGTPC
  | S11SGWGTPC
  | S11SGWGTPU
  | S5SGWGTPC
  | S5PGWGTPC
  | S5SGWGTPU
deriving DecidableEq, Repr

/-- Modelled from the spec: `gtpv1.NewSession(peerAddr, subscriber)` with an empty
subscriber: a new session of that peer with no identity yet. -/
def NewSession (peerAddr : Addr) : Session := { IMSI := "", peerAddr := peerAddr }

/-- The functions of package `gtpv1/ie` that the gw-tester handlers call; the package
is not under src/, so they are parameters. A Go result `(v, err)` is the pair of the
value and the error (`none` for nil), as the handlers sometimes use the value
without looking at the error. `TEID` and `MustTEID` are called on IEs that may be
`nil`; their result is `none` when such a call panics. -/
structure IEAPI where
  Cause : IE → Nat × Option GtpError
  IPAddress : IE → String × Option GtpError
  IMSI : IE → String × Option GtpError
  MSISDN : IE → String × Option GtpError
  IMEISV : IE → String × Option GtpError
  RATType : IE → Nat × Option GtpError
  TEID : Option IE → Option (Nat × Option GtpError)
  MustTEID : Option IE → Option Nat
  NewGSNAddress : String → IE

/-- The methods of `*gtpv1.Session` that the gw-tester handlers call, over the state
`σ` of the world they act on; the type is not under src/, so they are parameters.
`WaitMessage(seq, timeout)` has the timeout in seconds. -/
structure SessionAPI (σ : Type) where
  AddTEID : Session → IFType → Nat → σ → σ
  GetTEID : Session → IFType → σ → (Nat × Option GtpError) × σ
  Activate : Session → σ → Option GtpError × σ
  AddIp : Session → String → σ → σ
  WaitMessage : Session → Nat → Nat → σ → (Option Message × Option GtpError) × σ
  SetRemoteAddress : Session → Addr → σ → σ
  SetOutgoingTEID : Session → Nat → σ → σ
  OutgoingTEID : Session → σ → Nat × σ
  RemoteAddress : Session → σ → Addr × σ
  GetIp : Session → σ → String × σ

/-- The methods of `*gtpv1.CPlaneConn` that the S-GW calls on its S5-C connection,
over the state `σ`; the type is not under src/, so they are parameters.
`CreateSession` returns the session and the sequence number, or the error;
`DeleteSession` and `ModifyBearer` return the sequence number and the error. -/
structure CPlaneConn (σ : Type) where
  NewSenderCTEID : σ → Option IE × σ
  NewSenderUTEID : σ → Option IE × σ
  FirstUteid : σ → Option IE × σ
  CreateSession : Addr → List (Option IE) → σ → Except GtpError (Session × Nat) × σ
  DeleteSession : Nat → Session → σ → (Nat × Option GtpError) × σ
  GetSessionByIMSI : String → σ → Except GtpError Session × σ
  NewReplaceSenderCTEID : Nat → σ → Option IE × σ
  ModifyBearer : Nat → Session → List (Option IE) → σ → (Nat × Option GtpError) × σ

/-- The method of `*gtpv1.UPlaneConn` that the S-GW calls on its two user-plane
connections, over the state `σ`; the type is not under src/, so it is a parameter.
`RelayTo(other, teidIn, teidOut, raddr)` is kept without its first argument: the
S-GW relays from each of its two connections to the other one. -/
structure UPlaneConn (σ : Type) where
  RelayTo : Nat → Nat → Addr → σ → Option GtpError × σ

namespace message

/-- Modelled from the spec: `message.NewCreatePDPContextResponse(teid, seq, ies...)`:
the response with that TEID and sequence number; of the IEs given, the Cause IE
goes to the field `Cause`, the others are kept in order. -/
def NewCreatePDPContextResponse (teid seq : Nat) (ies : List IE) : Message :=
  .CreatePDPContextResponse
    { hdr := ⟨MsgTypeCreatePDPContextResponse, teid, seq⟩
      Cause := ies.find? (fun i => i.Typ == ie.Cause)
      TEIDDataI := none
      TEIDCPlane := none
      EndUserAddress := none
      GGSNAddressForCPlane := none
      GGSNAddressForUserTraffic := none
      AdditionalIEs := ies.filter (fun i => i.Typ != ie.Cause) }

/-- Modelled from the spec: `message.NewDeletePDPContextResponse(teid, seq, ies...)`. -/
def NewDeletePDPContextResponse (teid seq : Nat) (ies : List IE) : Message :=
  .DeletePDPContextResponse
    { hdr := ⟨MsgTypeDeletePDPContextResponse, teid, seq⟩
      Cause := ies.find? (fun i => i.Typ == ie.Cause)
      AdditionalIEs := ies.filter (fun i => i.Typ != ie.Cause) }

/-- Modelled from the spec: `message.NewUpdatePDPContextResponse(teid, seq, ies...)`. -/
def NewUpdatePDPContextResponse (teid seq : Nat) (ies : List IE) : Message :=
  .UpdatePDPContextResponse
    { hdr := ⟨MsgTypeUpdatePDPContextResponse, teid, seq⟩
      Cause := ies.find? (fun i => i.Typ == ie.Cause)
      AdditionalIEs := ies.filter (fun i => i.Typ != ie.Cause) }

end message

namespace ie

/-- Modelled from the spec: the IE type tag `ie.SGSNNumber` (3GPP TS 29.060, type
147; package `gtpv1/ie` is not under src/). -/
def SGSNNumber : Nat := 147

end ie

end gtpv1

namespace gtpv2

/-- Modelled from the spec: `gtpv2.CausePGWNotResponding`, the Cause value "PGW not
responding" (3GPP TS 29.274, table 8.4-1, value 12; the constant is not under src/). -/
def CausePGWNotResponding : Nat := 12

/-- Modelled from the spec: `gtpv2.APNRestrictionNoExistingContextsorRestriction`
(3GPP TS 29.274, APN Restriction value 0; the constant is not under src/). -/
def APNRestrictionNoExistingContextsorRestriction : Nat := 0

/-- Modelled from the spec: `gtpv2.GTPCPort` ("UDP on ports 2123 (GTP-C v1/v2)"). -/
def GTPCPort : String := ":2123"

/-- Modelled from the spec: `gtpv2.GTPUPort` ("2152 (GTP-U)"). -/
def GTPUPort : String := ":2152"

/-- Modelled from the spec: the interface types of GTPv2 that `mme/mme.go` names (3GPP
TS 29.274, Interface Type: S1-U eNodeB GTP-U 0, S1-U SGW GTP-U 1, S5/S8 PGW GTP-C 7,
S11/S4 SGW GTP-C 11; the constants are not under src/). -/
def IFTypeS1UeNodeBGTPU : Nat := 0

/-- Modelled from the spec: see `IFTypeS1UeNodeBGTPU`. -/
def IFTypeS1USGWGTPU : Nat := 1

/-- Modelled from the spec: see `IFTypeS1UeNodeBGTPU`. -/
def IFTypeS5S8PGWGTPC : Nat := 7

/-- Modelled from the spec: see `IFTypeS1UeNodeBGTPU`. -/
def IFTypeS11S4SGWGTPC : Nat := 11

/-- Modelled from the spec: `gtpv2.RATTypeEUTRAN` (3GPP TS 29.274, RAT Type value 6). -/
def RATTypeEUTRAN : Nat := 6

/-- Modelled from the spec: `gtpv2.SelectionModeMSorNetworkProvidedAPNSubscribedVerified`
(3GPP TS 29.274, Selection Mode value 0). -/
def SelectionModeMSorNetworkProvidedAPNSubscribedVerified : Nat := 0

/-- Modelled from the spec: `gtpv2.PDNTypeIPv4` (3GPP TS 29.274, PDN Type value 1). -/
def PDNTypeIPv4 : Nat := 1

/-- Modelled from the spec: the QoS profile of a bearer of §3 ("PL, QCI, PCI, PVI, MBR
up/down, GBR up/down"); type `gtpv2.QoSProfile` is not under src/. -/
structure QoSProfile where
  PL : Nat
  QCI : Nat
  PCI : Bool := false
  PVI : Bool := false
  MBRUL : Nat
  MBRDL : Nat
  GBRUL : Nat
  GBRDL : Nat
deriving DecidableEq, Repr

/-- Modelled from the spec: the bearer of §3, with the attributes that `mme/mme.go`
reads: its `EBI` and its QoS profile, whose fields Go promotes to the bearer
(`br.PCI` is `br.QoSProfile.PCI`); type `gtpv2.Bearer` is not under src/. -/
structure Bearer where
  EBI : Nat
  SubscriberIP : String
  QoSProfile : QoSProfile
deriving DecidableEq, Repr

/-- Modelled from the spec: the session of §3; `mme/mme.go` keeps a `*gtpv2.Session`
where `mme1/mme.go` keeps a `*gtpv1.Session`, and the attributes kept here are the
same. -/
abbrev Session := gtpv1.Session

namespace ie

/-- The values that the constructors `ie.NewCGI`, `ie.NewSAI`, `ie.NewRAI`,
`ie.NewTAI`, `ie.NewECGI`, `ie.NewLAI`, `ie.NewMENBI` and `ie.NewEMENBI` of package
`gtpv2/ie` build for a User Location Information IE, each kept as its arguments; the
package is not under src/. -/
inductive ULIField where
  | NewCGI (mcc mnc : String) (lac ci : Nat)
  | NewSAI (mcc mnc : String) (lac sac : Nat)
  | NewRAI (mcc mnc : String) (lac rac : Nat)
  | NewTAI (mcc mnc : String) (tac : Nat)
  | NewECGI (mcc mnc : String) (eci : Nat)
  | NewLAI (mcc mnc : String) (lac : Nat)
  | NewMENBI (mcc mnc : String) (menbi : Nat)
  | NewEMENBI (mcc mnc : String) (emenbi : Nat)
deriving DecidableEq, Repr

end ie

/-- The functions of package `gtpv2/ie` and `gtpv2.NewBearer` that the MME of
`mme/mme.go` calls to build its requests; the packages are not under src/, so they are
parameters. A `time.Duration` is in nanoseconds. -/
structure IEConstructors where
  NewBearer : Nat → String → QoSProfile → Bearer
  NewIMSI : String → IE
  NewMSISDN : String → IE
  NewMobileEquipmentIdentity : String → IE
  NewUserLocationInformationStruct : List ie.ULIField → IE
  NewRATType : Nat → IE
  NewIndicationFromOctets : List Nat → IE
  NewFullyQualifiedTEID : Nat → Nat → String → String → IE
  WithInstance : IE → Nat → IE
  NewAccessPointName : String → IE
  NewSelectionMode : Nat → IE
  NewPDNType : Nat → IE
  NewPDNAddressAllocation : String → IE
  NewAPNRestriction : Nat → IE
  NewAggregateMaximumBitRate : Nat → Nat → IE
  NewBearerContext : List IE → IE
  NewEPSBearerID : Nat → IE
  NewBearerQoS : Nat → Nat → Nat → Nat → Nat → Nat → Nat → Nat → IE
  NewFullyQualifiedCSID : String → Nat → IE
  NewServingNetwork : String → String → IE
  NewUETimeZone : Nat → Nat → IE
  NewPortNumber : Nat → IE

/-- The methods of `*gtpv2.Session` that `mme/mme.go` calls, over the state `σ`; the
type is not under src/, so they are parameters. `GetDefaultBearer` may give `nil`. -/
structure SessionAPI (σ : Type) where
  GetTEID : Session → Nat → σ → (Nat × Option gtpv1.GtpError) × σ
  GetDefaultBearer : Session → σ → Option Bearer × σ
  GetIp : Session → σ → String × σ

/-- The methods of `*gtpv2.Conn` that `mme/mme.go` calls on its S11 connection, over
the state `σ`; the type is not under src/, so they are parameters. -/
structure CPlaneConn (σ : Type) where
  CreateSession : gtpv1.Addr → List IE → σ
    → Except gtpv1.GtpError (Session × Nat) × σ
  ModifyBearer : Nat → Session → List IE → σ → (Nat × Option gtpv1.GtpError) × σ
  NewSenderFTEID : String → String → σ → IE × σ

end gtpv2

/-! ## The messages of the S1-MME service (package `s1mme`) -/

namespace s1mme

/-- Modelled from the field names read in `Attach`: message `Location` of the
generated package `s1mme`, which is not under src/. -/
structure Location where
  Mcc : String
  Mnc : String
  Tai : Nat
  Eci : Nat
deriving DecidableEq, Repr

/-- Modelled from the field names read in `Attach`: message `AttachRequest`. -/
structure AttachRequest where
  Imsi : String
  Msisdn : String
  Imeisv : String
  SrcIp : String
  ITei : Nat
  S1UAddr : String
  Location : s1mme.Location
deriving DecidableEq, Repr

/-- Modelled from the name used in `Attach`: the value `s1mme.Cause_SUCCESS`. -/
inductive Cause where
  | SUCCESS
deriving DecidableEq, Repr

/-- Modelled from the field names written in `Attach`: message `AttachResponse`. -/
structure AttachResponse where
  Cause : s1mme.Cause
  SgwAddr : String
  OTei : Nat
  SrcIp : String
deriving DecidableEq, Repr

end s1mme

/-! ## gw-tester: handler bodies and the record of their calls -/

namespace gwtester

open gtpv1

/-- How a statement of a handler body ends: it completes with a value, the handler
returns with an error (`none` for nil), the program panics, or the goroutine blocks
at the statement (a send on a full channel) and the body does not go on. -/
inductive Flow (α : Type) where
  | next (a : α)
  | ret (err : Option GtpError)
  | panic
  | blocked
deriving DecidableEq, Repr

/-- A handler body over the state `ω`. -/
abbrev Body (ω α : Type) := ω → Flow α × ω

/-- Sequencing: what follows is run only when the statement completes. -/
def Body.bind {ω α β : Type} (x : Body ω α) (f : α → Body ω β) : Body ω β := fun s =>
  match x s with
  | (.next a, s1) => f a s1
  | (.ret e, s1) => (.ret e, s1)
  | (.panic, s1) => (.panic, s1)
  | (.blocked, s1) => (.blocked, s1)

instance {ω : Type} : Monad (Body ω) where
  pure a := fun s => (.next a, s)
  bind := Body.bind

/-- The statement `return err`. -/
def Body.ret {ω α : Type} (err : Option GtpError) : Body ω α := fun s => (.ret err, s)

/-- A run-time panic. -/
def Body.panic {ω α : Type} : Body ω α := fun s => (.panic, s)

/-- A call that acts on the world (the first component of the state) and gives a
result. -/
def Body.call {σ ρ α : Type} (f : σ → α × σ) : Body (σ × ρ) α := fun s =>
  (.next (f s.1).1, ((f s.1).2, s.2))

/-- A call that acts on the world and gives no result. -/
def Body.exec {σ ρ : Type} (f : σ → σ) : Body (σ × ρ) Unit := fun s =>
  (.next (), (f s.1, s.2))

/-- An update of the receiver (the second component of the state). -/
def Body.update {σ ρ : Type} (f : ρ → ρ) : Body (σ × ρ) Unit := fun s =>
  (.next (), (s.1, f s.2))

/-- A send on a buffered channel of the receiver, of capacity `cap`: `held` reads the
number of values that the channel holds and `put` writes it. With room in the buffer
the value is added and the body goes on; on a full channel the goroutine blocks at
the send. -/
def Body.send {σ ρ : Type} (cap : Nat) (held : ρ → Nat) (put : Nat → ρ → ρ) :
    Body (σ × ρ) Unit := fun s =>
  if held s.2 < cap then (.next (), (s.1, put (held s.2 + 1) s.2)) else (.blocked, s)

/-- The value of a call that may panic. -/
def Body.orPanic {ω α : Type} (x : Option α) : Body ω α :=
  match x with
  | some a => pure a
  | none => Body.panic

/-- `if err != nil { return err }`. -/
def Body.check {ω : Type} (err : Option GtpError) : Body ω Unit :=
  match err with
  | some e => Body.ret (some e)
  | none => pure ()

/-- The run of a handler body from a state: how it ends, and the state then. -/
def Body.run {ω α : Type} (x : Body ω α) (s : ω) : Flow α × ω := x s

/-- What the handlers call of the packages that are not under src/: the IE
functions, the methods of a session, `net.ResolveUDPAddr("udp", ·)`, and
`gtpv1.PassMessageTo(session, msg, timeout)` with the timeout in seconds. -/
structure Deps (σ : Type) where
  ie : IEAPI
  session : SessionAPI σ
  ResolveUDPAddr : String → Addr × Option GtpError
  PassMessageTo : Session → Message → Nat → σ → Option GtpError × σ

/-- One call on the world, with its arguments and its result: the methods of the
connection handed to the handler, of the S5-C connection of the S-GW (`S5…`), of its
two user-plane connections (`S1URelayTo`, `S5URelayTo`), of sessions, and
`PassMessageTo`; `S11` marks a call on the S11 connection that the S-GW keeps in its
field `s11Conn`. For the MME there are the calls on its S11 connection
(`CreateSession`, `ModifyBearer`, and with `V2` those of `mme/mme.go` on GTPv2), and
`Select` for a `select` between a receive from one of its channels and
`time.After`, with whether a value was received. -/
inductive Call where
  | RespondTo (raddr : Addr) (received toBeSent : Message) (err : Option GtpError)
  | Restarts (n : Nat)
  | GetSessionByTEID (teid : Nat) (peer : Addr) (res : Except GtpError Session)
  | GetSessionByIMSI (imsi : String) (res : Except GtpError Session)
  | RemoveSession (session : Option Session)
  | NewSenderCTEID (res : Option IE)
  | NewSenderUTEID (res : Option IE)
  | NewSenderFTEID (res : Option IE)
  | RegisterSession (itei : Nat) (session : Session)
  | S5NewSenderCTEID (res : Option IE)
  | S5NewSenderUTEID (res : Option IE)
  | S5FirstUteid (res : Option IE)
  | S5CreateSession (raddr : Addr) (ies : List (Option IE))
      (res : Except GtpError (Session × Nat))
  | S5DeleteSession (teid : Nat) (session : Session) (res : Nat × Option GtpError)
  | S5GetSessionByIMSI (imsi : String) (res : Except GtpError Session)
  | AddTEID (session : Session) (iface : IFType) (teid : Nat)
  | GetTEID (session : Session) (iface : IFType) (res : Nat × Option GtpError)
  | Activate (session : Session) (err : Option GtpError)
  | AddIp (session : Session) (ip : String)
  | WaitMessage (session : Session) (seq timeout : Nat)
      (res : Option Message × Option GtpError)
  | S5NewReplaceSenderCTEID (teid : Nat) (res : Option IE)
  | S5ModifyBearer (teid : Nat) (session : Session) (ies : List (Option IE))
      (res : Nat × Option GtpError)
  | S1URelayTo (teidIn teidOut : Nat) (raddr : Addr) (err : Option GtpError)
  | S5URelayTo (teidIn teidOut : Nat) (raddr : Addr) (err : Option GtpError)
  | SetRemoteAddress (session : Session) (addr : Addr)
  | SetOutgoingTEID (session : Session) (teid : Nat)
  | OutgoingTEID (session : Session) (res : Nat)
  | RemoteAddress (session : Session) (res : Addr)
  | PassMessageTo (session : Session) (msg : Message) (timeout : Nat)
      (err : Option GtpError)
  | S11 (call : Call)
  | GetIp (session : Session) (res : String)
  | CreateSession (raddr : Addr) (ies : List (Option IE))
      (res : Except GtpError (Session × Nat))
  | ModifyBearer (teid : Nat) (session : Session) (ies : List (Option IE))
      (res : Nat × Option GtpError)
  | DeleteSession (teid : Nat) (session : Session) (res : Nat × Option GtpError)
  | FirstUteid (res : Option IE)
  | NewReplaceSenderCTEID (teid : Nat) (res : Option IE)
  | Select (ch : String) (timeout : Nat) (received : Bool)
  | V2GetTEID (session : Session) (iface : Nat) (res : Nat × Option GtpError)
  | V2GetDefaultBearer (session : Session) (res : Option gtpv2.Bearer)
  | V2GetIp (session : Session) (res : String)
  | V2CreateSession (raddr : Addr) (ies : List gtpv2.IE)
      (res : Except GtpError (Session × Nat))
  | V2ModifyBearer (teid : Nat) (session : Session) (ies : List gtpv2.IE)
      (res : Nat × Option GtpError)
  | V2NewSenderFTEID (v4 v6 : String) (res : gtpv2.IE)

/-- Whether a recorded call is a `RespondTo` on the connection of the handler. -/
def Call.isRespondTo : Call → Bool
  | .RespondTo _ _ _ _ => true
  | _ => false

/-- Whether a recorded call is a `RemoveSession` on the connection of the handler. -/
def Call.isRemoveSession : Call → Bool
  | .RemoveSession _ => true
  | _ => false

/-- Whether a recorded call is a `RegisterSession` on the connection of the handler. -/
def Call.isRegisterSession : Call → Bool
  | .RegisterSession _ _ => true
  | _ => false

/-- Recording of a call with a result: the same effect on the world, and the call
with its result is appended to the record kept next to the world. -/
def record {σ α : Type} (f : σ → α × σ) (ev : α → Call) : σ × List Call → α × (σ × List Call) :=
  fun s => ((f s.1).1, ((f s.1).2, s.2 ++ [ev (f s.1).1]))

/-- Recording of a call without result. -/
def recordExec {σ : Type} (f : σ → σ) (ev : Call) : σ × List Call → σ × List Call :=
  fun s => (f s.1, s.2 ++ [ev])

/-- A connection that records the calls made on it. -/
def recordedConn {σ : Type} (c : Conn σ) : Conn (σ × List Call) where
  RespondTo raddr received toBeSent :=
    record (c.RespondTo raddr received toBeSent) (Call.RespondTo raddr received toBeSent)
  Restarts := record c.Restarts Call.Restarts
  GetSessionByTEID teid peer :=
    record (c.GetSessionByTEID teid peer) (Call.GetSessionByTEID teid peer)
  GetSessionByIMSI imsi := record (c.GetSessionByIMSI imsi) (Call.GetSessionByIMSI imsi)
  RemoveSession session := recordExec (c.RemoveSession session) (Call.RemoveSession session)
  NewSenderCTEID := record c.NewSenderCTEID Call.NewSenderCTEID
  NewSenderUTEID := record c.NewSenderUTEID Call.NewSenderUTEID
  NewSenderFTEID := record c.NewSenderFTEID Call.NewSenderFTEID
  RegisterSession itei session :=
    recordExec (c.RegisterSession itei session) (Call.RegisterSession itei session)

/-- An S5-C connection that records the calls made on it. -/
def recordedCPlaneConn {σ : Type} (c : CPlaneConn σ) : CPlaneConn (σ × List Call) where
  NewSenderCTEID := record c.NewSenderCTEID Call.S5NewSenderCTEID
  NewSenderUTEID := record c.NewSenderUTEID Call.S5NewSenderUTEID
  FirstUteid := record c.FirstUteid Call.S5FirstUteid
  CreateSession raddr ies := record (c.CreateSession raddr ies) (Call.S5CreateSession raddr ies)
  DeleteSession teid session :=
    record (c.DeleteSession teid session) (Call.S5DeleteSession teid session)
  GetSessionByIMSI imsi := record (c.GetSessionByIMSI imsi) (Call.S5GetSessionByIMSI imsi)
  NewReplaceSenderCTEID teid :=
    record (c.NewReplaceSenderCTEID teid) (Call.S5NewReplaceSenderCTEID teid)
  ModifyBearer teid session ies :=
    record (c.ModifyBearer teid session ies) (Call.S5ModifyBearer teid session ies)

/-- The S11 connection kept by the S-GW, with the calls made on it recorded under
`Call.S11`. -/
def recordedS11Conn {σ : Type} (c : Conn σ) : Conn (σ × List Call) where
  RespondTo raddr received toBeSent :=
    record (c.RespondTo raddr received toBeSent)
      (fun err => .S11 (.RespondTo raddr received toBeSent err))
  Restarts := record c.Restarts (fun n => .S11 (.Restarts n))
  GetSessionByTEID teid peer :=
    record (c.GetSessionByTEID teid peer) (fun res => .S11 (.GetSessionByTEID teid peer res))
  GetSessionByIMSI imsi :=
    record (c.GetSessionByIMSI imsi) (fun res => .S11 (.GetSessionByIMSI imsi res))
  RemoveSession session :=
    recordExec (c.RemoveSession session) (.S11 (.RemoveSession session))
  NewSenderCTEID := record c.NewSenderCTEID (fun res => .S11 (.NewSenderCTEID res))
  NewSenderUTEID := record c.NewSenderUTEID (fun res => .S11 (.NewSenderUTEID res))
  NewSenderFTEID := record c.NewSenderFTEID (fun res => .S11 (.NewSenderFTEID res))
  RegisterSession itei session :=
    recordExec (c.RegisterSession itei session) (.S11 (.RegisterSession itei session))

/-- The S11 connection of the MME of `mme1/mme.go`, with the calls made on it
recorded. -/
def recordedMMEConn {σ : Type} (c : CPlaneConn σ) : CPlaneConn (σ × List Call) where
  NewSenderCTEID := record c.NewSenderCTEID Call.NewSenderCTEID
  NewSenderUTEID := record c.NewSenderUTEID Call.NewSenderUTEID
  FirstUteid := record c.FirstUteid Call.FirstUteid
  CreateSession raddr ies := record (c.CreateSession raddr ies) (Call.CreateSession raddr ies)
  DeleteSession teid session :=
    record (c.DeleteSession teid session) (Call.DeleteSession teid session)
  GetSessionByIMSI imsi := record (c.GetSessionByIMSI imsi) (Call.GetSessionByIMSI imsi)
  NewReplaceSenderCTEID teid :=
    record (c.NewReplaceSenderCTEID teid) (Call.NewReplaceSenderCTEID teid)
  ModifyBearer teid session ies :=
    record (c.ModifyBearer teid session ies) (Call.ModifyBearer teid session ies)

/-- The S11 connection of the MME of `mme/mme.go`, with the calls made on it
recorded. -/
def recordedV2Conn {σ : Type} (c : gtpv2.CPlaneConn σ) : gtpv2.CPlaneConn (σ × List Call) where
  CreateSession raddr ies :=
    record (c.CreateSession raddr ies) (Call.V2CreateSession raddr ies)
  ModifyBearer teid session ies :=
    record (c.ModifyBearer teid session ies) (Call.V2ModifyBearer teid session ies)
  NewSenderFTEID v4 v6 := record (c.NewSenderFTEID v4 v6) (Call.V2NewSenderFTEID v4 v6)

/-- The methods of a GTPv2 session with the calls recorded. -/
def recordedV2Session {σ : Type} (a : gtpv2.SessionAPI σ) :
    gtpv2.SessionAPI (σ × List Call) where
  GetTEID session iface := record (a.GetTEID session iface) (Call.V2GetTEID session iface)
  GetDefaultBearer session :=
    record (a.GetDefaultBearer session) (Call.V2GetDefaultBearer session)
  GetIp session := record (a.GetIp session) (Call.V2GetIp session)

/-- A user-plane connection that records the calls made on it, as `S1URelayTo` or as
`S5URelayTo`. -/
def recordedUPlaneConn {σ : Type} (c : UPlaneConn σ)
    (ev : Nat → Nat → Addr → Option GtpError → Call) : UPlaneConn (σ × List Call) where
  RelayTo teidIn teidOut raddr :=
    record (c.RelayTo teidIn teidOut raddr) (ev teidIn teidOut raddr)

/-- The packages with the calls on sessions and `PassMessageTo` recorded. -/
def recordedDeps {σ : Type} (d : Deps σ) : Deps (σ × List Call) where
  ie := d.ie
  session :=
    { AddTEID := fun session iface teid =>
        recordExec (d.session.AddTEID session iface teid) (Call.AddTEID session iface teid)
      GetTEID := fun session iface =>
        record (d.session.GetTEID session iface) (Call.GetTEID session iface)
      Activate := fun session => record (d.session.Activate session) (Call.Activate session)
      AddIp := fun session ip =>
        recordExec (d.session.AddIp session ip) (Call.AddIp session ip)
      WaitMessage := fun session seq timeout =>
        record (d.session.WaitMessage session seq timeout)
          (Call.WaitMessage session seq timeout)
      SetRemoteAddress := fun session addr =>
        recordExec (d.session.SetRemoteAddress session addr)
          (Call.SetRemoteAddress session addr)
      SetOutgoingTEID := fun session teid =>
        recordExec (d.session.SetOutgoingTEID session teid)
          (Call.SetOutgoingTEID session teid)
      OutgoingTEID := fun session =>
        record (d.session.OutgoingTEID session) (Call.OutgoingTEID session)
      RemoteAddress := fun session =>
        record (d.session.RemoteAddress session) (Call.RemoteAddress session)
      GetIp := fun session => record (d.session.GetIp session) (Call.GetIp session) }
  ResolveUDPAddr := d.ResolveUDPAddr
  PassMessageTo := fun session msg timeout =>
    record (d.PassMessageTo session msg timeout) (Call.PassMessageTo session msg timeout)

/-- A body over a recorded world extends the record: whatever the state it starts
from, the record at its end is the record at its start with calls appended. -/
structure Body.Extends {σ ρ α : Type} (x : Body ((σ × List Call) × ρ) α) : Prop where
  grows : ∀ s, ∃ rest, (x.run s).2.1.2 = s.1.2 ++ rest

end gwtester

namespace gtpv2.ie

/-- Modelled from the spec: the IE type tag `ie.PDNAddressAllocation` of GTPv2
(3GPP TS 29.274, type 79; package `gtpv2/ie` is not under src/). -/
def PDNAddressAllocation : Nat := 79

end gtpv2.ie

/-! ## gw-tester: the GTPv1 handlers of the MME (`mme1/handlers.go`) -/

namespace gwtester.mme1

open gtpv1

/-- `Sub` of `mme1/mme.go`: what the MME keeps of an attached subscriber. -/
structure Sub where
  teid : Nat
  session : Session
deriving DecidableEq, Repr

/-- The part of the receiver `*mme` of `mme1/mme.go` that the handlers write: the
channels `created`, `modified`, `deleted` (each `make(chan struct{}, 1)`; kept is the
number of values that the channel holds, see `chanCap`) and the field
`sgw.s1uIP`; and the fields that `Attach`, `CreateSession` and `ModifyBearer` read or
write: the local addresses, the APN, the map `teid` and the fields of `enb` and `sgw`
(a field `x` of the nested struct `enb` is `enb_x`). The connection `s11Conn` is
passed to these methods next to the receiver. The metrics collector `mc` and the log
lines have no effect on what the methods do and are left out. -/
structure mme where
  created : Nat
  modified : Nat
  deleted : Nat
  sgw_s1uIP : String
  s11IP : String := ""
  s1cIP : String := ""
  apn : String := ""
  teid : List (String × Sub) := []
  enb_mcc : String := ""
  enb_mnc : String := ""
  enb_tai : Nat := 0
  enb_eci : Nat := 0
  enb_s1uIP : String := ""
  sgw_s11IP : String := ""
deriving DecidableEq, Repr

/-- The capacity of the channels `created`, `modified` and `deleted` of the MME:
`make(chan struct{}, 1)` (`mme1/mme.go`, lines 86 to 88). -/
def chanCap : Nat := 1

/-- `handleCreatePDPContextResponse` of `mme1/handlers.go`. The session is looked up
by the TEID of the message (on error `c.RemoveSession(session)` is called with the
nil session and the error is returned); the message is type-asserted without
comma-ok; a Cause IE that is present is read and, when it is not "Request accepted",
the session is removed and a `CauseNotOKError` returned (the branch for an absent
Cause IE is empty in the source); then the GGSN address and the end-user address are
required, the TEIDs are read (errors of `TEID()` are not looked at), the session is
activated and a value is sent on `m.created`. -/
def handleCreatePDPContextResponse {σ : Type} (d : Deps σ) (c : Conn σ) (sgwAddr : Addr)
    (msg : Message) : Body (σ × mme) Unit := do
  let r ← Body.call (c.GetSessionByTEID msg.TEID sgwAddr)
  match r with
  | .error err =>
    Body.exec (c.RemoveSession none)
    Body.ret (some err)
  | .ok session =>
    match msg with
    | .CreatePDPContextResponse csRspFromSGW =>
      (match csRspFromSGW.Cause with
      | some causeIE => do
        let cause := d.ie.Cause causeIE
        Body.check cause.2
        (if cause.1 ≠ ResCauseRequestAccepted then do
          Body.exec (c.RemoveSession (some session))
          Body.ret (some (.CauseNotOKError msg.MessageTypeName cause.1
            ("subscriber: " ++ session.IMSI)))
        else pure ())
      | none => pure ())
      (match csRspFromSGW.GGSNAddressForUserTraffic with
      | some ggsnIE => do
        let ip := d.ie.IPAddress ggsnIE
        Body.update (fun m => { m with sgw_s1uIP := ip.1 })
        Body.check ip.2
      | none => Body.ret (some (.RequiredIEMissingError gtpv2.ie.BearerContext)))
      (match csRspFromSGW.EndUserAddress with
      | some euaIE => do
        let ip := d.ie.IPAddress euaIE
        Body.check ip.2
        Body.exec (d.session.AddIp session ip.1)
      | none => Body.ret (some (.RequiredIEMissingError gtpv2.ie.PDNAddressAllocation)))
      let teid ← Body.orPanic (d.ie.TEID csRspFromSGW.TEIDCPlane)
      Body.exec (d.session.AddTEID session .S11SGWGTPC teid.1)
      let s11sgwTEID ← Body.call (d.session.GetTEID session .S11MMEGTPC)
      (if s11sgwTEID.2 ≠ none then do
        Body.exec (c.RemoveSession (some session))
        Body.ret s11sgwTEID.2
      else pure ())
      let s11mmeTEID ← Body.call (d.session.GetTEID session .S11MMEGTPC)
      (if s11mmeTEID.2 ≠ none then do
        Body.exec (c.RemoveSession (some session))
        Body.ret s11mmeTEID.2
      else pure ())
      let teid ← Body.orPanic (d.ie.TEID csRspFromSGW.TEIDDataI)
      Body.exec (d.session.AddTEID session .S11SGWGTPU teid.1)
      let err ← Body.call (d.session.Activate session)
      (if err ≠ none then do
        Body.exec (c.RemoveSession (some session))
        Body.ret err
      else pure ())
      Body.send chanCap mme.created (fun n m => { m with created := n })
      Body.ret none
    | _ => Body.panic

/-- `handleUpdatePDPContextResponse` of `mme1/handlers.go`: the same lookup, type
assertion and Cause check as for the create response, then a value is sent on
`m.modified`. -/
def handleUpdatePDPContextResponse {σ : Type} (d : Deps σ) (c : Conn σ) (sgwAddr : Addr)
    (msg : Message) : Body (σ × mme) Unit := do
  let r ← Body.call (c.GetSessionByTEID msg.TEID sgwAddr)
  match r with
  | .error err =>
    Body.exec (c.RemoveSession none)
    Body.ret (some err)
  | .ok session =>
    match msg with
    | .UpdatePDPContextResponse csRspFromSGW =>
      (match csRspFromSGW.Cause with
      | some causeIE => do
        let cause := d.ie.Cause causeIE
        Body.check cause.2
        (if cause.1 ≠ ResCauseRequestAccepted then do
          Body.exec (c.RemoveSession (some session))
          Body.ret (some (.CauseNotOKError msg.MessageTypeName cause.1
            ("subscriber: " ++ session.IMSI)))
        else pure ())
      | none => pure ())
      Body.send chanCap mme.modified (fun n m => { m with modified := n })
      Body.ret none
    | _ => Body.panic

end gwtester.mme1

/-! ## gw-tester: the handlers of the S-GW (`sgw1/s11_handlers.go`, `s5_handlers.go`) -/

namespace gwtester.sgw1

open gtpv1

/-- The part of the receiver `*sgw` that the handlers read: the address of the P-GW,
the local addresses, the switch `useKernelGTP`, the S5-C connection, the two
user-plane connections and the S11 connection (of which the S5 handlers call a method
of the interface `Conn`). The metrics collector `mc` and the log lines have no effect
on what the handlers do and are left out. -/
structure sgw (σ : Type) where
  pgwAddr : String
  s5cIP : String
  s11IP : String
  s1uIP : String
  s5cConn : CPlaneConn σ
  s5uIP : String
  useKernelGTP : Bool
  s1uConn : UPlaneConn σ
  s5uConn : UPlaneConn σ
  s11Conn : Conn σ

/-- `handleCreateSessionRequest` of `sgw1/s11_handlers.go`, statement by statement:
the type assertion without comma-ok, the TEID of the MME, the address of the P-GW,
the four IEs that are looked at (IMSI, MSISDN, IMEI, RAT type; an absent one makes
the handler return a `RequiredIEMissingError`, and for an absent IMSI the type in the
error is `ie.MSISDN`), the removal of a previous session of the same IMSI, the
registration of the new session, the request to the P-GW, the wait of five seconds
for its answer, and the relay of the answer to the MME. `SetLength` is left out: the
header kept here has no length field. -/
def handleCreateSessionRequest {σ : Type} (s : sgw σ) (d : Deps σ) (s11Conn : Conn σ)
    (mmeAddr : Addr) (msg : Message) : Body (σ × Unit) Unit := do
  let s11Session := NewSession mmeAddr
  match msg with
  | .CreatePDPContextRequest csReqFromMME =>
    let pgwAddrString := s.pgwAddr ++ GTPCPort
    let teid ← Body.orPanic (d.ie.TEID csReqFromMME.TEIDCPlane)
    Body.check teid.2
    Body.exec (d.session.AddTEID s11Session .S11MMEGTPC teid.1)
    let raddr := d.ResolveUDPAddr pgwAddrString
    Body.check raddr.2
    let s11Session ← (match csReqFromMME.IMSI with
      | some imsiIE => do
        let imsi := d.ie.IMSI imsiIE
        Body.check imsi.2
        let sess ← Body.call (s11Conn.GetSessionByIMSI imsi.1)
        (match sess with
        | .error (.UnknownIMSIError _) => pure ()
        | .error err => Body.ret (some (.wrapped "got something unexpected: " err))
        | .ok sess => Body.exec (s11Conn.RemoveSession (some sess)))
        pure { s11Session with IMSI := imsi.1 }
      | none => Body.ret (some (.RequiredIEMissingError ie.MSISDN)))
    let s11Session ← (match csReqFromMME.MSISDN with
      | some msisdnIE => do
        let v := d.ie.MSISDN msisdnIE
        Body.check v.2
        pure { s11Session with MSISDN := v.1 }
      | none => Body.ret (some (.RequiredIEMissingError ie.MSISDN)))
    let s11Session ← (match csReqFromMME.IMEI with
      | some meiIE => do
        let v := d.ie.IMEISV meiIE
        Body.check v.2
        pure { s11Session with IMEI := v.1 }
      | none => Body.ret (some (.RequiredIEMissingError ie.IMEISV)))
    let s11Session ← (match csReqFromMME.RATType with
      | some ratIE => do
        let v := d.ie.RATType ratIE
        Body.check v.2
        pure { s11Session with RATType := v.1 }
      | none => Body.ret (some (.RequiredIEMissingError ie.RATType)))
    let s11sgwFTEID ← Body.call s11Conn.NewSenderCTEID
    let s11sgwTEID ← Body.orPanic (d.ie.MustTEID s11sgwFTEID)
    Body.exec (s11Conn.RegisterSession s11sgwTEID s11Session)
    let s5cFTEID ← Body.call s.s5cConn.NewSenderCTEID
    let s5uFTEID ← Body.call s.s5cConn.FirstUteid
    let created ← Body.call (match csReqFromMME.RATType with
      | some _ => s.s5cConn.CreateSession raddr.1
          [csReqFromMME.IMSI, csReqFromMME.MSISDN, csReqFromMME.IMEI,
            csReqFromMME.UserLocationInformation, csReqFromMME.RATType, s5cFTEID, s5uFTEID,
            csReqFromMME.APN, csReqFromMME.SelectionMode, csReqFromMME.EndUserAddress,
            some (d.ie.NewGSNAddress s.s5cIP), some (d.ie.NewGSNAddress "1.1.1.1"),
            csReqFromMME.QoSProfile]
      | none => s.s5cConn.CreateSession raddr.1
          [csReqFromMME.IMSI, csReqFromMME.MSISDN, csReqFromMME.IMEI,
            csReqFromMME.UserLocationInformation, csReqFromMME.RATType, s5cFTEID, s5uFTEID,
            csReqFromMME.APN, csReqFromMME.SelectionMode,
            some (d.ie.NewGSNAddress s.s5cIP), some (d.ie.NewGSNAddress "1.1.1.1")])
    match created with
    | .error err => Body.ret (some err)
    | .ok (s5Session, seq) =>
      let s5uTEID ← Body.orPanic (d.ie.MustTEID s5uFTEID)
      Body.exec (d.session.AddTEID s5Session .S5SGWGTPU s5uTEID)
      let s11mmeTEID ← Body.call (d.session.GetTEID s11Session .S11MMEGTPC)
      (if s11mmeTEID.2 ≠ none then do
        Body.exec (s11Conn.RemoveSession (some s11Session))
        Body.ret s11mmeTEID.2
      else pure ())
      let incomingMsg ← Body.call (d.session.WaitMessage s11Session seq 5)
      match incomingMsg.2 with
      | some err =>
        let csRspFromSGW := message.NewCreatePDPContextResponse s11mmeTEID.1 0
          [ie.NewCause APNRestrictionPrivate2]
        let e ← Body.call (s11Conn.RespondTo mmeAddr msg csRspFromSGW)
        (if e ≠ none then do
          Body.exec (s11Conn.RemoveSession (some s11Session))
          Body.ret e
        else pure ())
        Body.exec (s11Conn.RemoveSession (some s11Session))
        Body.ret (some err)
      | none =>
        match incomingMsg.1 with
        | some (.CreatePDPContextResponse csRspFromPGW) =>
          let s1usgwFTEID ← Body.call s.s5cConn.NewSenderUTEID
          let csRspFromSGW : message.CreatePDPContextResponse :=
            { csRspFromPGW with
              hdr := ⟨csRspFromPGW.hdr.Typ, s11mmeTEID.1, csRspFromPGW.hdr.SequenceNumber⟩
              TEIDCPlane := s11sgwFTEID
              TEIDDataI := s1usgwFTEID
              GGSNAddressForCPlane := some (d.ie.NewGSNAddress s.s11IP)
              GGSNAddressForUserTraffic := some (d.ie.NewGSNAddress s.s1uIP) }
          Body.exec (d.session.AddTEID s11Session .S11SGWGTPC s11sgwTEID)
          let s1usgwTEID ← Body.orPanic (d.ie.MustTEID s1usgwFTEID)
          Body.exec (d.session.AddTEID s11Session .S11SGWGTPU s1usgwTEID)
          let e ← Body.call (s11Conn.RespondTo mmeAddr msg (.CreatePDPContextResponse csRspFromSGW))
          (if e ≠ none then do
            Body.exec (s11Conn.RemoveSession (some s11Session))
            Body.ret e
          else pure ())
          let s5cpgwTEID ← Body.call (d.session.GetTEID s5Session .S5PGWGTPC)
          (if s5cpgwTEID.2 ≠ none then do
            Body.exec (s11Conn.RemoveSession (some s11Session))
            Body.ret s5cpgwTEID.2
          else pure ())
          let s5csgwTEID ← Body.call (d.session.GetTEID s5Session .S5SGWGTPC)
          (if s5csgwTEID.2 ≠ none then do
            Body.exec (s11Conn.RemoveSession (some s11Session))
            Body.ret s5csgwTEID.2
          else pure ())
          let err ← Body.call (d.session.Activate s11Session)
          (if err ≠ none then do
            Body.exec (s11Conn.RemoveSession (some s11Session))
            Body.ret err
          else pure ())
          Body.ret none
        | _ =>
          Body.exec (s11Conn.RemoveSession (some s11Session))
          Body.ret (some (.RequiredIEMissingError ie.MSISDN))
  | _ => Body.panic

/-- `handleDeleteSessionRequest` of `sgw1/s11_handlers.go`, statement by statement:
the type assertion without comma-ok, the S11 session by the TEID of the message, the
S5 session by the IMSI, the Delete request to the P-GW, the wait of five seconds for
its answer (on a timeout a response with cause `APNRestrictionPrivate2` is sent to
the MME and the error of the wait returned), the relay of the answer, and at the very
end `s11Conn.RemoveSession(s11Session)`. -/
def handleDeleteSessionRequest {σ : Type} (s : sgw σ) (d : Deps σ) (s11Conn : Conn σ)
    (mmeAddr : Addr) (msg : Message) : Body (σ × Unit) Unit := do
  match msg with
  | .DeletePDPContextRequest _ =>
    let r ← Body.call (s11Conn.GetSessionByTEID msg.TEID mmeAddr)
    match r with
    | .error err => Body.ret (some err)
    | .ok s11Session =>
      let r5 ← Body.call (s.s5cConn.GetSessionByIMSI s11Session.IMSI)
      match r5 with
      | .error err => Body.ret (some err)
      | .ok s5Session =>
        let s5cpgwTEID ← Body.call (d.session.GetTEID s5Session .S5PGWGTPC)
        Body.check s5cpgwTEID.2
        let seq ← Body.call (s.s5cConn.DeleteSession s5cpgwTEID.1 s5Session)
        Body.check seq.2
        let s11mmeTEID ← Body.call (d.session.GetTEID s11Session .S11MMEGTPC)
        Body.check s11mmeTEID.2
        let incomingMessage ← Body.call (d.session.WaitMessage s11Session seq.1 5)
        match incomingMessage.2 with
        | some err =>
          let dsRspFromSGW := message.NewDeletePDPContextResponse s11mmeTEID.1 0
            [ie.NewCause APNRestrictionPrivate2]
          let e ← Body.call (s11Conn.RespondTo mmeAddr msg dsRspFromSGW)
          Body.check e
          Body.ret (some err)
        | none =>
          match incomingMessage.1 with
          | some (.DeletePDPContextResponse dsRspFromPGW) =>
            let dsRspFromSGW : message.DeletePDPContextResponse :=
              { dsRspFromPGW with
                hdr := ⟨dsRspFromPGW.hdr.Typ, s11mmeTEID.1, dsRspFromPGW.hdr.SequenceNumber⟩ }
            let e ← Body.call (s11Conn.RespondTo mmeAddr msg (.DeletePDPContextResponse dsRspFromSGW))
            Body.check e
            Body.exec (s11Conn.RemoveSession (some s11Session))
            Body.ret none
          | _ => Body.ret (some (.CauseNotOKError "" 0 "toto"))
  | _ => Body.panic

/-- `handleFTEIDU` of `sgw1/s11_handlers.go`: the address `ip + gtpv1.GTPUPort` is
resolved, and on success kept with the TEID as the remote end of the session's
user-plane tunnel. The result is the error returned (`none` for nil). -/
def handleFTEIDU {σ ρ : Type} (d : Deps σ) (ip : String) (teid : Nat) (session : Session) :
    Body (σ × ρ) (Option GtpError) := do
  let addr := d.ResolveUDPAddr (ip ++ GTPUPort)
  match addr.2 with
  | some err => pure (some err)
  | none =>
    Body.exec (d.session.SetRemoteAddress session addr.1)
    Body.exec (d.session.SetOutgoingTEID session teid)
    pure none

/-- `handleModifyBearerRequest` of `sgw1/s11_handlers.go`, statement by statement: the
S11 session by the TEID of the message, the S5 session by the IMSI, the type assertion
without comma-ok, the address and TEID of the eNB (an absent `SGSNAddressForCPlane`
or `TEIDDataI` makes the handler return a `RequiredIEMissingError`), a new user-plane
TEID and a replaced control-plane TEID on S5, the TEIDs kept by the two sessions (the
error of the first `GetTEID` is not looked at), the two forwarding rules unless
`useKernelGTP` is set, the request to the P-GW, the wait of five seconds for its
answer (on a failure a response with cause `gtpv2.CausePGWNotResponding` is sent to
the MME and the error of the wait returned), and the response to the MME with cause
`ResCauseRequestAccepted`. -/
def handleModifyBearerRequest {σ : Type} (s : sgw σ) (d : Deps σ) (s11Conn : Conn σ)
    (mmeAddr : Addr) (msg : Message) : Body (σ × Unit) Unit := do
  let r ← Body.call (s11Conn.GetSessionByTEID msg.TEID mmeAddr)
  match r with
  | .error err => Body.ret (some err)
  | .ok s11Session =>
    let r5 ← Body.call (s.s5cConn.GetSessionByIMSI s11Session.IMSI)
    match r5 with
    | .error err => Body.ret (some err)
    | .ok s5cSession =>
      match msg with
      | .UpdatePDPContextRequest mbReqFromMME =>
        (match mbReqFromMME.SGSNAddressForCPlane with
        | some brCtxIE => do
          let enbIP := d.ie.IPAddress brCtxIE
          Body.check enbIP.2
          (match mbReqFromMME.TEIDDataI with
          | some enbteid => do
            let enbTEID ← Body.orPanic (d.ie.MustTEID (some enbteid))
            let err ← handleFTEIDU d enbIP.1 enbTEID s11Session
            Body.check err
          | none => Body.ret (some (.RequiredIEMissingError ie.TEIDDataI)))
        | none => Body.ret (some (.RequiredIEMissingError ie.SGSNNumber)))
        let s5uFTEID ← Body.call s.s5cConn.NewSenderUTEID
        let s5uTEID ← Body.orPanic (d.ie.MustTEID s5uFTEID)
        Body.exec (d.session.AddTEID s5cSession .S5SGWGTPU s5uTEID)
        let tmpTeid ← Body.call (d.session.GetTEID s5cSession .S5SGWGTPC)
        let s5cFTEID ← Body.call (s.s5cConn.NewReplaceSenderCTEID tmpTeid.1)
        let s11mmeTEID ← Body.call (d.session.GetTEID s11Session .S11MMEGTPC)
        Body.check s11mmeTEID.2
        let s1usgwTEID ← Body.call (d.session.GetTEID s11Session .S11SGWGTPU)
        Body.check s1usgwTEID.2
        let s5usgwTEID ← Body.call (d.session.GetTEID s5cSession .S5SGWGTPU)
        Body.check s5usgwTEID.2
        (if s.useKernelGTP then pure ()
        else do
          let otei ← Body.call (d.session.OutgoingTEID s5cSession)
          let raddr ← Body.call (d.session.RemoteAddress s5cSession)
          let err ← Body.call (s.s1uConn.RelayTo s1usgwTEID.1 otei raddr)
          Body.check err
          let otei ← Body.call (d.session.OutgoingTEID s11Session)
          let raddr ← Body.call (d.session.RemoteAddress s11Session)
          let err ← Body.call (s.s5uConn.RelayTo s5usgwTEID.1 otei raddr)
          Body.check err)
        let s5cpgwTEID ← Body.call (d.session.GetTEID s5cSession .S5PGWGTPC)
        Body.check s5cpgwTEID.2
        let seq ← Body.call (s.s5cConn.ModifyBearer s5cpgwTEID.1 s5cSession
          [s5cFTEID, s5uFTEID, some (d.ie.NewGSNAddress s.s5cIP),
            some (d.ie.NewGSNAddress s.s5uIP)])
        Body.check seq.2
        let incomingMessage ← Body.call (d.session.WaitMessage s11Session seq.1 5)
        match incomingMessage.2 with
        | some err =>
          let mbRspFromPGW := message.NewUpdatePDPContextResponse s11mmeTEID.1 0
            [ie.NewCause gtpv2.CausePGWNotResponding]
          let e ← Body.call (s11Conn.RespondTo mmeAddr msg mbRspFromPGW)
          Body.check e
          Body.ret (some err)
        | none =>
          match incomingMessage.1 with
          | some (.UpdatePDPContextResponse _) =>
            let mbRspFromSGW := message.NewUpdatePDPContextResponse s11mmeTEID.1 0
              [ie.NewCause ResCauseRequestAccepted]
            let e ← Body.call (s11Conn.RespondTo mmeAddr msg mbRspFromSGW)
            Body.check e
            Body.ret none
          | _ =>
            Body.exec (s11Conn.RemoveSession (some s11Session))
            Body.ret (some (.CauseNotOKError "" 0 "toto"))
      | _ => Body.panic

/-- `handleModifyBearerResponse` of `sgw1/s5_handlers.go`, statement by statement: the
S5 session by the TEID of the message, the S11 session by the IMSI, and the message
passed to the S11 session with a timeout of five seconds; then nil is returned. There
is no type assertion and no `RemoveSession` in it. -/
def handleModifyBearerResponse {σ : Type} (s : sgw σ) (d : Deps σ) (s5cConn : Conn σ)
    (pgwAddr : Addr) (msg : Message) : Body (σ × Unit) Unit := do
  let r ← Body.call (s5cConn.GetSessionByTEID msg.TEID pgwAddr)
  match r with
  | .error err => Body.ret (some err)
  | .ok s5Session =>
    let r11 ← Body.call (s.s11Conn.GetSessionByIMSI s5Session.IMSI)
    match r11 with
    | .error err => Body.ret (some err)
    | .ok s11Session =>
      let e ← Body.call (d.PassMessageTo s11Session msg 5)
      Body.check e
      Body.ret none

/-- `handleDeleteSessionResponse` of `sgw1/s5_handlers.go`, statement by statement: as
`handleModifyBearerResponse`, and after the message was passed
`s5cConn.RemoveSession(s5Session)`; then nil is returned. -/
def handleDeleteSessionResponse {σ : Type} (s : sgw σ) (d : Deps σ) (s5cConn : Conn σ)
    (pgwAddr : Addr) (msg : Message) : Body (σ × Unit) Unit := do
  let r ← Body.call (s5cConn.GetSessionByTEID msg.TEID pgwAddr)
  match r with
  | .error err => Body.ret (some err)
  | .ok s5Session =>
    let r11 ← Body.call (s.s11Conn.GetSessionByIMSI s5Session.IMSI)
    match r11 with
    | .error err => Body.ret (some err)
    | .ok s11Session =>
      let e ← Body.call (d.PassMessageTo s11Session msg 5)
      Body.check e
      Body.exec (s5cConn.RemoveSession (some s5Session))
      Body.ret none

/-- Whether a recorded call is a `WaitMessage` that returned an error. -/
def failedWait : Call → Bool
  | .WaitMessage _ _ _ res => res.2.isSome
  | _ => false

/-- The S-GW with the calls on its connections recorded. -/
def recordedSgw {σ : Type} (s : sgw σ) : sgw (σ × List Call) :=
  { pgwAddr := s.pgwAddr, s5cIP := s.s5cIP, s11IP := s.s11IP, s1uIP := s.s1uIP
    s5cConn := recordedCPlaneConn s.s5cConn
    s5uIP := s.s5uIP
    useKernelGTP := s.useKernelGTP
    s1uConn := recordedUPlaneConn s.s1uConn Call.S1URelayTo
    s5uConn := recordedUPlaneConn s.s5uConn Call.S5URelayTo
    s11Conn := recordedS11Conn s.s11Conn }

end gwtester.sgw1

/-! ## gw-tester: a world to run the handlers in -/

namespace gtpv1.ie

/-- Modelled from the spec: type tags of the IMSI IE and of the End User Address IE
(3GPP TS 29.060: 2 and 128; package `gtpv1/ie` is not under src/). -/
def IMSI : Nat := 2

/-- Modelled from the spec: see `IMSI`. -/
def EndUserAddress : Nat := 128

end gtpv1.ie

namespace gwtester

open gtpv1

/-- Dotted-decimal text of the octets of an address. -/
def dotted (b : List Nat) : String := String.intercalate "." (b.map toString)

/-- The octets of a dotted-decimal address. -/
def parseDotted (s : String) : List Nat :=
  let r := s.data.foldl
    (fun (acc : List Nat × Nat) c =>
      if c = '.' then (acc.1 ++ [acc.2], 0) else (acc.1, acc.2 * 10 + (c.toNat - 48)))
    ([], 0)
  r.1 ++ [r.2]

/-- Modelled from the spec: the typed accessors of package `gtpv1/ie` ("`.IMSI() →
string`, `.Cause() → u8`, `.TEID() → u32`, `.IPAddress() → string`. Accessors fail
with `WRONG_TYPE` if invoked on the wrong IE"): digit strings are TBCD, a TEID is
four octets big-endian, an address is its octets. A call on a `nil` IE panics. -/
def specIE : IEAPI where
  Cause i :=
    if i.Typ = ie.Cause then (i.Payload.headD 0, none) else (0, some (.other "WRONG_TYPE"))
  IPAddress i :=
    if i.Typ = ie.GSNAddress then (dotted i.Payload, none)
    else if i.Typ = ie.EndUserAddress then (dotted (i.Payload.drop 2), none)
    else ("", some (.other "WRONG_TYPE"))
  IMSI i :=
    if i.Typ = ie.IMSI then (utils.SwappedBytesToStr i.Payload, none)
    else ("", some (.other "WRONG_TYPE"))
  MSISDN i :=
    if i.Typ = ie.MSISDN then (utils.SwappedBytesToStr i.Payload, none)
    else ("", some (.other "WRONG_TYPE"))
  IMEISV i :=
    if i.Typ = ie.IMEISV then (utils.SwappedBytesToStr i.Payload, none)
    else ("", some (.other "WRONG_TYPE"))
  RATType i :=
    if i.Typ = ie.RATType then (i.Payload.headD 0, none) else (0, some (.other "WRONG_TYPE"))
  TEID x :=
    match x with
    | some i =>
      if i.Typ = ie.TEIDDataI ∨ i.Typ = ie.TEIDCPlane then
        some (wire.fromBE (i.Payload.take 4), none)
      else some (0, some (.other "WRONG_TYPE"))
    | none => none
  MustTEID x :=
    match x with
    | some i => some (wire.fromBE (i.Payload.take 4))
    | none => none
  NewGSNAddress s := ⟨ie.GSNAddress, parseDotted s⟩

/-- Modelled from the spec: the state of a gateway with two control-plane endpoints
(S11 and S5-C, each a `ConnState`) and what its sessions keep: "`teids` (mapping:
interface-type → 32-bit TEID)", "`active` flag", "`assigned_ip`", "an inbox for
inbound responses matched by sequence number", the remote address and the outgoing
TEID of its user-plane tunnel, the forwarding rules installed on the two
user-plane connections (`true` for S1-U), and for the MME the channels on which a
handler sends a value in time for a `select` that waits on them. A session is told
apart here by the address of its peer. -/
structure World where
  s11 : ConnState
  s5c : ConnState
  teids : List ((Addr × IFType) × Nat)
  inbox : List Message
  active : List Addr
  assigned : List (Addr × String)
  remote : List (Addr × Addr) := []
  outgoing : List (Addr × Nat) := []
  relays : List (Bool × Nat × Nat × Addr) := []
  signals : List String := []
deriving DecidableEq, Repr

/-- A call on the S11 endpoint of the world. -/
def World.onS11 {α : Type} (f : ConnState → α × ConnState) (w : World) : α × World :=
  ((f w.s11).1, { w with s11 := (f w.s11).2 })

/-- A call on the S5-C endpoint of the world. -/
def World.onS5c {α : Type} (f : ConnState → α × ConnState) (w : World) : α × World :=
  ((f w.s5c).1, { w with s5c := (f w.s5c).2 })

/-- The S11 endpoint of the world as a connection: `specConn` on its state. -/
def worldConn : Conn World where
  RespondTo raddr received toBeSent := World.onS11 (specConn.RespondTo raddr received toBeSent)
  Restarts := World.onS11 specConn.Restarts
  GetSessionByTEID teid peer := World.onS11 (specConn.GetSessionByTEID teid peer)
  GetSessionByIMSI imsi := World.onS11 (specConn.GetSessionByIMSI imsi)
  RemoveSession session w := { w with s11 := specConn.RemoveSession session w.s11 }
  NewSenderCTEID := World.onS11 specConn.NewSenderCTEID
  NewSenderUTEID := World.onS11 specConn.NewSenderUTEID
  NewSenderFTEID := World.onS11 specConn.NewSenderFTEID
  RegisterSession itei session w :=
    { w with s11 := specConn.RegisterSession itei session w.s11 }

/-- Modelled from the spec: the S5-C endpoint of the world. `CreateSession` "builds
a ... CreatePDPContext(v1) request from a list of IEs, transmits, returns `(session,
seq)` where `session` is pre-registered in the store under a freshly allocated
caller-side TEID"; `DeleteSession` "transmits the delete, returns `seq`";
`ModifyBearer` "transmits a ModifyBearer request addressed to the peer-side TEID,
returns `seq`"; sequence numbers count the messages sent, from 1. The subscriber of
the new session is read from the first IE of the list. `NewReplaceSenderCTEID` draws
a TEID from the counter as `NewSenderCTEID` does. -/
def worldS5c : CPlaneConn World where
  NewSenderCTEID := World.onS5c specConn.NewSenderCTEID
  NewSenderUTEID := World.onS5c specConn.NewSenderUTEID
  FirstUteid := World.onS5c specConn.NewSenderUTEID
  CreateSession raddr ies w :=
    let session : Session :=
      { IMSI := match ies.head? with
          | some (some i) => (specIE.IMSI i).1
          | _ => ""
        peerAddr := raddr }
    let seq := w.s5c.sent.length + 1
    let req := Message.Generic ⟨message.MsgTypeCreatePDPContextRequest, 0, seq⟩
      (ies.filterMap id)
    match w.s5c.writeErr with
    | some err => (.error err, w)
    | none =>
      (.ok (session, seq),
        { w with s5c := { w.s5c with
            sessions := (w.s5c.nextTEID, session) :: w.s5c.sessions
            nextTEID := w.s5c.nextTEID + 1
            sent := w.s5c.sent ++ [(raddr, req)] } })
  DeleteSession teid session w :=
    let seq := w.s5c.sent.length + 1
    let req := Message.DeletePDPContextRequest
      { hdr := ⟨message.MsgTypeDeletePDPContextRequest, teid, seq⟩, AdditionalIEs := [] }
    match w.s5c.writeErr with
    | some err => ((0, some err), w)
    | none => ((seq, none), { w with s5c := { w.s5c with
        sent := w.s5c.sent ++ [(session.peerAddr, req)] } })
  GetSessionByIMSI imsi := World.onS5c (specConn.GetSessionByIMSI imsi)
  NewReplaceSenderCTEID _ := World.onS5c specConn.NewSenderCTEID
  ModifyBearer teid session ies w :=
    let seq := w.s5c.sent.length + 1
    let req := Message.Generic ⟨message.MsgTypeUpdatePDPContextRequest, teid, seq⟩
      (ies.filterMap id)
    match w.s5c.writeErr with
    | some err => ((0, some err), w)
    | none => ((seq, none), { w with s5c := { w.s5c with
        sent := w.s5c.sent ++ [(session.peerAddr, req)] } })

/-- The S5-C endpoint of the world as a connection: `specConn` on its state. -/
def worldS5Conn : Conn World where
  RespondTo raddr received toBeSent := World.onS5c (specConn.RespondTo raddr received toBeSent)
  Restarts := World.onS5c specConn.Restarts
  GetSessionByTEID teid peer := World.onS5c (specConn.GetSessionByTEID teid peer)
  GetSessionByIMSI imsi := World.onS5c (specConn.GetSessionByIMSI imsi)
  RemoveSession session w := { w with s5c := specConn.RemoveSession session w.s5c }
  NewSenderCTEID := World.onS5c specConn.NewSenderCTEID
  NewSenderUTEID := World.onS5c specConn.NewSenderUTEID
  NewSenderFTEID := World.onS5c specConn.NewSenderFTEID
  RegisterSession itei session w :=
    { w with s5c := specConn.RegisterSession itei session w.s5c }

/-- Modelled from the spec: a user-plane connection of the world; `relay_to`
"installs a forwarding rule". -/
def worldUPlane (s1u : Bool) : UPlaneConn World where
  RelayTo teidIn teidOut raddr w :=
    (none, { w with relays := w.relays ++ [(s1u, teidIn, teidOut, raddr)] })

/-- Modelled from the spec: the methods of a session in the world. `GetTEID` fails
with `ErrTEIDNotFound` for an interface with no TEID; `WaitMessage` gives the message
of the inbox with that sequence number and takes it out, or `ErrTimeout`. -/
def worldSession : SessionAPI World where
  AddTEID session iface teid w :=
    { w with teids := ((session.peerAddr, iface), teid) ::
        w.teids.filter (fun e => e.1 != (session.peerAddr, iface)) }
  GetTEID session iface w :=
    (match w.teids.find? (fun e => e.1 == (session.peerAddr, iface)) with
      | some e => (e.2, none)
      | none => (0, some .ErrTEIDNotFound), w)
  Activate session w := (none, { w with active := session.peerAddr :: w.active })
  AddIp session ip w := { w with assigned := (session.peerAddr, ip) :: w.assigned }
  WaitMessage _ seq _ w :=
    match w.inbox.find? (fun m => m.Sequence == seq) with
    | some m => ((some m, none), { w with inbox := w.inbox.erase m })
    | none => ((none, some .ErrTimeout), w)
  SetRemoteAddress session addr w :=
    { w with remote := (session.peerAddr, addr) ::
        w.remote.filter (fun e => e.1 != session.peerAddr) }
  SetOutgoingTEID session teid w :=
    { w with outgoing := (session.peerAddr, teid) ::
        w.outgoing.filter (fun e => e.1 != session.peerAddr) }
  OutgoingTEID session w :=
    (((w.outgoing.find? (fun e => e.1 == session.peerAddr)).map (fun e => e.2)).getD 0, w)
  RemoteAddress session w :=
    (((w.remote.find? (fun e => e.1 == session.peerAddr)).map (fun e => e.2)).getD "", w)
  GetIp session w :=
    (((w.assigned.find? (fun e => e.1 == session.peerAddr)).map (fun e => e.2)).getD "", w)

/-- What the handlers call of the absent packages, in the world; `net.ResolveUDPAddr`
gives the address it is asked for, and `pass_message_to` "delivers the message to that
session's inbox". -/
def worldDeps : Deps World :=
  { ie := specIE, session := worldSession, ResolveUDPAddr := fun a => (a, none)
    PassMessageTo := fun _ msg _ w => (none, { w with inbox := w.inbox ++ [msg] }) }

/-- The S-GW of the world. -/
def worldSgw : sgw1.sgw World :=
  { pgwAddr := "10.0.0.3", s5cIP := "10.0.0.2", s11IP := "10.0.1.2", s1uIP := "10.0.2.2"
    s5cConn := worldS5c
    s5uIP := "10.0.3.2"
    useKernelGTP := false
    s1uConn := worldUPlane true
    s5uConn := worldUPlane false
    s11Conn := worldConn }

end gwtester

/-! ## gw-tester: inputs of the runs exhibited in Part II -/

namespace gwtester

open gtpv1

/-- A subscriber's session at the MME, with the S-GW `10.0.1.2:2123` as peer. -/
def subscriberAtMME : Session :=
  { IMSI := "001010123456789", peerAddr := "10.0.1.2:2123" }

/-- A world of the MME: the session of the subscriber is registered under TEID
`0x21`. -/
def mmeWorld : World :=
  { s11 := { restartCounter := 0, sessions := [(0x21, subscriberAtMME)], sent := [],
             writeErr := none }
    s5c := { restartCounter := 0, sessions := [], sent := [], writeErr := none }
    teids := [(("10.0.1.2:2123", .S11MMEGTPC), 0x21)]
    inbox := []
    active := []
    assigned := [] }

/-- The receiver `*mme` before any response was handled. -/
def mme0 : mme1.mme := { created := 0, modified := 0, deleted := 0, sgw_s1uIP := "" }

/-- A CreatePDPContextResponse for TEID `0x21` with Cause 199 ("No resources
available"). -/
def rejectedCreate : message.CreatePDPContextResponse :=
  { hdr := ⟨message.MsgTypeCreatePDPContextResponse, 0x21, 5⟩
    Cause := some (ie.NewCause 199)
    TEIDDataI := none
    TEIDCPlane := none
    EndUserAddress := none
    GGSNAddressForCPlane := none
    GGSNAddressForUserTraffic := none
    AdditionalIEs := [] }

/-- An UpdatePDPContextResponse for TEID `0x21` without Cause IE. -/
def updateWithoutCause : message.UpdatePDPContextResponse :=
  { hdr := ⟨message.MsgTypeUpdatePDPContextResponse, 0x21, 6⟩, Cause := none,
    AdditionalIEs := [] }

/-- The session of the subscriber at the S-GW, with the MME `10.0.1.1:2123` as peer. -/
def subscriberAtSGW : Session :=
  { IMSI := "001010123456789", peerAddr := "10.0.1.1:2123", MSISDN := "819012345678",
    IMEI := "1234567890123456", RATType := 6 }

/-- The session of the same subscriber on S5-C, with the P-GW as peer. -/
def subscriberOnS5 : Session := { IMSI := "001010123456789", peerAddr := "10.0.0.3:2123" }

/-- A world of the S-GW: the subscriber has a session on S11 (TEID 7) and one on S5-C
(TEID 9), the TEIDs of the peers are known, and the P-GW's DeletePDPContextResponse to
the request with sequence number 1 is in the inbox. -/
def sgwWorld : World :=
  { s11 := { restartCounter := 0, sessions := [(7, subscriberAtSGW)], sent := [],
             writeErr := none }
    s5c := { restartCounter := 0, sessions := [(9, subscriberOnS5)], sent := [],
             writeErr := none }
    teids := [(("10.0.0.3:2123", .S5PGWGTPC), 0x55), (("10.0.1.1:2123", .S11MMEGTPC), 0x11)]
    inbox := [.DeletePDPContextResponse
      { hdr := ⟨message.MsgTypeDeletePDPContextResponse, 9, 1⟩
        Cause := some (ie.NewCause ResCauseRequestAccepted), AdditionalIEs := [] }]
    active := []
    assigned := [] }

/-- A DeletePDPContextRequest of the MME for the session under TEID 7. -/
def deleteRequest : Message :=
  .DeletePDPContextRequest
    { hdr := ⟨message.MsgTypeDeletePDPContextRequest, 7, 33⟩, AdditionalIEs := [] }

/-- A CreatePDPContextRequest of the MME with the four IEs the S-GW requires. -/
def createRequest : message.CreatePDPContextRequest :=
  { hdr := ⟨message.MsgTypeCreatePDPContextRequest, 0, 34⟩
    IMSI := some ⟨ie.IMSI, utils.StrToSwappedBytes "001010123456789"⟩
    MSISDN := some ⟨ie.MSISDN, utils.StrToSwappedBytes "819012345678"⟩
    IMEI := some ⟨ie.IMEISV, utils.StrToSwappedBytes "1234567890123456"⟩
    RATType := some ⟨ie.RATType, [6]⟩
    TEIDCPlane := some ⟨ie.TEIDCPlane, [0, 0, 0, 0x12]⟩
    UserLocationInformation := none
    APN := none
    SelectionMode := none
    EndUserAddress := none
    QoSProfile := none
    AdditionalIEs := [] }

/-- The same request without the MSISDN IE. -/
def createRequestWithoutMSISDN : message.CreatePDPContextRequest :=
  { createRequest with MSISDN := none }

end gwtester

/-! ## gw-tester: the constructor of the P-GW (`newPGW` of `pgw.go`) -/

namespace gwtester.pool

/-- The two fields of the P-GW's `Config` that the address pool depends on. -/
structure Config where
  RouteSubnet : String
  Dynamic : Bool
deriving DecidableEq, Repr

/-- Go's `strconv.Atoi` on a text of decimal digits; `none` for its error. A sign is
not read: `net.ParseCIDR` has refused such a text before. On such a text the value is
also the one that `dtoi` of package `net` reads for the prefix length. -/
def atoi (cs : List Char) : Option Nat :=
  if cs ≠ [] ∧ cs.all Char.isDigit then
    some (cs.foldl (fun n c => n * 10 + (c.toNat - 48)) 0)
  else none

/-- The fields of a text between its dots. -/
def splitDots (cs : List Char) : List (List Char) :=
  cs.foldr
    (fun c acc =>
      if c = '.' then [] :: acc
      else match acc with
        | f :: rest => (c :: f) :: rest
        | [] => [[c]])
    [[]]

/-- One field of an IPv4 text as Go's `netip.ParseAddr` reads it: at least one
character, decimal digits only, no leading zero in front of another digit, value at
most 255; `none` for its errors ("IPv4 field must have at least one digit",
"unexpected character", "IPv4 field has octet with leading zero", "IPv4 field has
value >255"). -/
def parseIPv4Field (cs : List Char) : Option Nat :=
  if cs ≠ [] ∧ cs.all Char.isDigit ∧ (cs.head? ≠ some '0' ∨ cs.length = 1)
      ∧ cs.foldl (fun n c => n * 10 + (c.toNat - 48)) 0 ≤ 255 then
    some (cs.foldl (fun n c => n * 10 + (c.toNat - 48)) 0)
  else none

/-- Go's `net.ParseCIDR` (standard library) on an IPv4 text `a.b.c.d/m`: the four
octets of the network, that is of the address with its host bits cleared (the `IP` of
the `IPNet` returned), and the prefix length; `none` for its error. The text before
the first `/` is the address, read as `netip.ParseAddr` reads it: exactly four fields
between dots, each as in `parseIPv4Field`. The text after it is the prefix length, a
non-empty text of decimal digits of value at most 32. IPv6 texts are outside this
model. -/
def ParseCIDR (s : String) : Option (List Nat × Nat) :=
  let ip := s.data.takeWhile (fun c => c ≠ '/')
  let m := (s.data.dropWhile (fun c => c ≠ '/')).drop 1
  let fields := (splitDots ip).map parseIPv4Field
  match atoi m with
  | some mask =>
    if fields.length = 4 ∧ fields.all Option.isSome ∧ mask ≤ 32 then
      some (wire.toBE 4 (wire.fromBE (fields.filterMap id) / 2 ^ (32 - mask)
        * 2 ^ (32 - mask)), mask)
    else none
  | none => none

/-- Go's `IPNet.Contains` for IPv4: the address agrees with the network on the first
`mask` bits. -/
def Contains (network : List Nat) (mask : Nat) (ip : List Nat) : Bool :=
  wire.fromBE ip / 2 ^ (32 - mask) == wire.fromBE network / 2 ^ (32 - mask)

/-- The loop of `newPGW` over `i < nbCtx` for IPv4 (lines 166 to 178), by the number
of rounds left: the addresses handed to `add_inactive`, as octets. `last` and `c` are
bytes, so `last++` and `c++` wrap at 256. -/
def ipv4Loop (a b : Nat) : Nat → Nat → Nat → List (List Nat)
  | 0, _, _ => []
  | n + 1, c, last =>
    let last1 := (last + 1) % 256
    if last1 = 255 then
      let c1 := (c + 1) % 256
      if c1 = 255 then [[a, b, c, last]] else [a, b, c, last] :: ipv4Loop a b n c1 1
    else [a, b, c, last] :: ipv4Loop a b n c last1

/-- The addresses that `newPGW` hands to `add_inactive` for the IPv4 network `ip` with
prefix length `mask` (lines 145 to 178): `nbCtx` of them from `start`, which is the
last octet of the network, or 1 when that octet is 0. -/
def ipv4Addrs (ip : List Nat) (mask : Nat) : List (List Nat) :=
  match ip with
  | [a, b, c, d] =>
    let nbCtx := if mask > 24 then 1 <<< (32 - mask) else (25 - mask) * 254
    let start := if d = 0 then (d + 1) % 256 else d
    ipv4Loop a b nbCtx c start
  | _ => []

/-- The part of `newPGW` that builds the pool (lines 111 to 198), for an IPv4 route
subnet: `none` when it returns an error; otherwise the pool, itself `none` if an
`add_inactive` panicked. The address texts are `fmt.Sprintf("%d.%d.%d.%d", ...)`. The
IPv6 branch is outside this model. -/
def newPGW (cfg : Config) : Option (Option pgw) :=
  match ParseCIDR cfg.RouteSubnet with
  | none => none
  | some (ip, _) =>
    if cfg.Dynamic then
      match atoi ((cfg.RouteSubnet.data.dropWhile (fun c => c ≠ '/')).drop 1) with
      | none => none
      | some mask =>
        some ((ipv4Addrs ip mask).foldl
          (fun p addr => p.bind fun q => add_inactive q (dotted addr)) (some emptyPool))
    else some (some emptyPool)

end gwtester.pool

/-! ## gw-tester: inputs of the runs of the S5 handlers and of the timeouts -/

namespace gwtester

open gtpv1

/-- An UpdatePDPContextResponse of the P-GW for the S5 session under TEID 9, with
Cause 199 ("No resources available"). -/
def rejectedUpdate : Message :=
  .UpdatePDPContextResponse
    { hdr := ⟨message.MsgTypeUpdatePDPContextResponse, 9, 2⟩
      Cause := some (ie.NewCause 199), AdditionalIEs := [] }

end gwtester

namespace gwtester

open gtpv1

/-- The world of the S-GW with nothing in the inbox: the P-GW does not answer. -/
def silentPGW : World := { sgwWorld with inbox := [] }

end gwtester

/-! ## gw-tester: `Attach` of the MME (`mme1/mme.go`, `mme/mme.go`) -/

namespace gwtester

open gtpv1

/-- Reading the receiver. -/
def Body.receiver {σ ρ : Type} : Body (σ × ρ) ρ := fun s => (.next s.2, s)

/-- What `Attach` uses besides the connection and the packages of `Deps`:
`net.SplitHostPort`; and `select { case <-ch: ...; case <-time.After(timeout): ... }`
on one of the channels `created` and `modified` of the receiver, with the timeout in
seconds: whether a value is received before the timer fires. The values are sent by
the handlers, which run on other goroutines, so this is a call on the world. -/
structure TaskDeps (σ : Type) where
  SplitHostPort : String → (String × String) × Option GtpError
  received : String → Nat → σ → Bool × σ

/-- The `select` statements recorded. -/
def recordedTaskDeps {σ : Type} (t : TaskDeps σ) : TaskDeps (σ × List Call) where
  SplitHostPort := t.SplitHostPort
  received ch timeout := record (t.received ch timeout) (Call.Select ch timeout)

/-- `time.Hour` in nanoseconds. -/
def Hour : Nat := 3600000000000

/-- Whether a recorded call is the `select` on `created` that ended with the timer:
the Create Session response was not signalled within the five seconds. -/
def createdTimedOut : Call → Bool
  | .Select ch _ received => ch == "created" && !received
  | _ => false

end gwtester

namespace gwtester.mme1

open gtpv1

/-- `Session` of `mme1/mme.go`, which "represents a subscriber": the data of an attach
request. (`Session` alone names the GTP session here.) -/
structure Subscriber where
  IMSI : String
  MSISDN : String
  IMEISV : String
  SrcIP : String
  itei : Nat
deriving DecidableEq, Repr

/-- The state of one call of `Attach`: the receiver, and the values sent so far on the
two channels of the call, in order: an error on `errCh` (`make(chan error, 1)`), a
response on `rspCh` (unbuffered). `Attach` itself receives one value, the first
that is sent. A send that blocks for ever is not told apart from one that completes:
in the task each send that may block is followed by the end of the task. -/
structure Task where
  m : mme
  sent : List (Except GtpError s1mme.AttachResponse)

/-- `errCh <- err` and `rspCh <- rsp`. -/
def send {σ : Type} (v : Except GtpError s1mme.AttachResponse) : Body (σ × Task) Unit :=
  Body.update (fun k => { k with sent := k.sent ++ [v] })

/-- The IEs of the request in `CreateSession` of `mme1/mme.go`: the two argument
lists of `m.s11Conn.CreateSession`, of which the first, with the End User Address IE,
is taken when the first octet `c` of `sess.SrcIP` is not `'0'`. -/
def CreateSession.ies (ie : IEAPI) (n : IEConstructors) (m : mme) (sess : Subscriber)
    (c : Char) (cteid uteid : Option IE) : List (Option IE) :=
  if c ≠ '0' then
    [some (n.NewIMSI sess.IMSI),
     some (n.NewMSISDN sess.MSISDN),
     some (n.NewIMEISV sess.IMEISV),
     some (n.NewUserLocationInformationWithSAI m.enb_mcc m.enb_mnc 0x1111 0x3333),
     some (n.NewRATType RatTypeUTRAN),
     some (n.NewQoSProfile
       [0x03, 0x1b, 0x93, 0x1f, 0x73, 0x96, 0xfe, 0xfe, 0x74, 0x97, 0xff, 0xff]),
     some (n.NewEndUserAddressIPv4 sess.SrcIP),
     some (n.NewAccessPointName m.apn),
     some (n.NewSelectionMode SelectionModeMSorNetworkProvidedAPNSubscribedVerified),
     some (n.NewProtocolConfigurationOptions 0 [(1, [0xde, 0xad, 0xbe, 0xef])]),
     some (ie.NewGSNAddress m.s1cIP),
     some (ie.NewGSNAddress m.s11IP),
     cteid,
     uteid,
     some (n.NewAPNRestriction gtpv2.APNRestrictionNoExistingContextsorRestriction),
     some (n.NewMSTimeZone (9 * Hour) 0)]
  else
    [some (n.NewIMSI sess.IMSI),
     some (n.NewMSISDN sess.MSISDN),
     some (n.NewIMEISV sess.IMEISV),
     some (n.NewUserLocationInformationWithSAI m.enb_mcc m.enb_mnc 0x1111 0x3333),
     some (n.NewRATType RatTypeUTRAN),
     some (n.NewQoSProfile
       [0x03, 0x1b, 0x93, 0x1f, 0x73, 0x96, 0xfe, 0xfe, 0x74, 0x97, 0xff, 0xff]),
     some (n.NewAccessPointName m.apn),
     some (n.NewSelectionMode SelectionModeMSorNetworkProvidedAPNSubscribedVerified),
     some (n.NewProtocolConfigurationOptions 0 [(1, [0xde, 0xad, 0xbe, 0xef])]),
     some (ie.NewGSNAddress m.s1cIP),
     some (ie.NewGSNAddress m.s11IP),
     cteid,
     uteid,
     some (n.NewAPNRestriction gtpv2.APNRestrictionNoExistingContextsorRestriction),
     some (n.NewMSTimeZone (9 * Hour) 0)]

/-- `CreateSession` of `mme1/mme.go`, statement by statement: the address of the S-GW
is resolved, and the request is sent on the S11 connection with the IEs of
`CreateSession.ies` (an empty `sess.SrcIP` makes the index expression `sess.SrcIP[0]`
panic). The result is the session or the error. -/
def CreateSession {σ ρ : Type} (d : Deps σ) (n : IEConstructors) (s11Conn : CPlaneConn σ)
    (m : mme) (sess : Subscriber) : Body (σ × ρ) (Except GtpError Session) := do
  let raddr := d.ResolveUDPAddr (m.sgw_s11IP ++ GTPCPort)
  match raddr.2 with
  | some err => pure (.error err)
  | none =>
    match sess.SrcIP.data.head? with
    | none => Body.panic
    | some c =>
      let cteid ← Body.call s11Conn.NewSenderCTEID
      let uteid ← Body.call s11Conn.NewSenderUTEID
      let r ← Body.call (s11Conn.CreateSession raddr.1
        (CreateSession.ies d.ie n m sess c cteid uteid))
      match r with
      | .error err => pure (.error err)
      | .ok (session, _) => pure (.ok session)

/-- `ModifyBearer` of `mme1/mme.go`, statement by statement: the TEID of the S-GW kept
by the session, and the request sent on the S11 connection with the address of the
eNB and the TEID of the subscriber. The result is the error (the bearer returned is
always nil). -/
def ModifyBearer {σ ρ : Type} (d : Deps σ) (n : IEConstructors) (s11Conn : CPlaneConn σ)
    (m : mme) (sess : Session) (sub : Subscriber) : Body (σ × ρ) (Option GtpError) := do
  let teid ← Body.call (d.session.GetTEID sess .S11SGWGTPC)
  match teid.2 with
  | some err => pure (some err)
  | none =>
    let r ← Body.call (s11Conn.ModifyBearer teid.1 sess
      [some (d.ie.NewGSNAddress m.enb_s1uIP), some (n.NewTEIDDataI sub.itei)])
    pure r.2

/-- The function that `Attach` of `mme1/mme.go` starts with `go`, statement by
statement: the location of the eNB is kept, the session is created, the task waits
five seconds for a value on `created` and on a timeout sends the error `timed out:
<IMSI>` on `errCh`, with no `return` after it; then `m.ModifyBearer`, the same wait on
`modified`, the TEID of the S-GW on S1-U, the entry of the subscriber in `m.teid`, and
the response on `rspCh`. A `return` of the function is `Body.ret none`. -/
def Attach.func1 {σ : Type} (d : Deps σ) (n : IEConstructors) (t : TaskDeps σ)
    (s11Conn : CPlaneConn σ) (req : s1mme.AttachRequest) (sess : Subscriber) :
    Body (σ × Task) Unit := do
  Body.update (fun k => { k with m := { k.m with
    enb_mcc := req.Location.Mcc
    enb_mnc := req.Location.Mnc
    enb_tai := req.Location.Tai % 65536
    enb_eci := req.Location.Eci } })
  let k ← Body.receiver
  let created ← CreateSession d n s11Conn k.m sess
  match created with
  | .error err =>
    send (.error err)
    Body.ret none
  | .ok session =>
    let got ← Body.call (t.received "created" 5)
    (if got = true then pure ()
    else send (.error (.other ("timed out: " ++ session.IMSI))))
    let k ← Body.receiver
    let err ← ModifyBearer d n s11Conn k.m session sess
    (match err with
    | some e => do
      send (.error e)
      Body.ret none
    | none => pure ())
    let got ← Body.call (t.received "modified" 5)
    (if got = true then pure ()
    else send (.error (.other ("timed out: " ++ session.IMSI))))
    let s1teid ← Body.call (d.session.GetTEID session .S11SGWGTPU)
    (match s1teid.2 with
    | some e => do
      send (.error e)
      Body.ret none
    | none => pure ())
    Body.update (fun k => { k with m := { k.m with
      teid := (req.Imsi, ⟨s1teid.1, session⟩) :: k.m.teid.filter (fun e => e.1 != req.Imsi) } })
    let _ ← Body.call (d.session.GetIp session)
    let k ← Body.receiver
    let ip ← Body.call (d.session.GetIp session)
    send (.ok
      { Cause := .SUCCESS
        SgwAddr := k.m.sgw_s1uIP ++ GTPUPort
        OTei := s1teid.1
        SrcIp := ip })

/-- `Attach` of `mme1/mme.go`: the address of the eNB is split and its host kept in
`m.enb.s1uIP` (on an error `Attach` returns it), the task is started, and `Attach`
returns the first value sent on `errCh` or `rspCh` (`none`: no value is ever sent
and `Attach` does not return). Given with it is the state when the task is over. -/
def Attach {σ : Type} (d : Deps σ) (n : IEConstructors) (t : TaskDeps σ)
    (s11Conn : CPlaneConn σ) (req : s1mme.AttachRequest) (s : σ × mme) :
    Option (Except GtpError s1mme.AttachResponse) × (σ × Task) :=
  let sess : Subscriber :=
    { IMSI := req.Imsi, MSISDN := req.Msisdn, IMEISV := req.Imeisv, SrcIP := req.SrcIp
      itei := req.ITei }
  let hp := t.SplitHostPort req.S1UAddr
  let m := { s.2 with enb_s1uIP := hp.1.1 }
  match hp.2 with
  | some err => (some (.error err), (s.1, ⟨m, []⟩))
  | none =>
    let r := (Attach.func1 d n t s11Conn req sess).run (s.1, ⟨m, []⟩)
    (r.2.2.sent.head?, r.2)

end gwtester.mme1

namespace gwtester.mmeGTPv2

open gtpv1

/-- `Session` of `mme/mme.go`, which "represents a subscriber": the data of an attach
request. (`Session` alone names the GTP session here.) -/
structure Subscriber where
  IMSI : String
  MSISDN : String
  IMEISV : String
  SrcIP : String
  itei : Nat
deriving DecidableEq, Repr

/-- `Sub` of `mme/mme.go`: what the MME keeps of an attached subscriber. -/
structure Sub where
  teid : Nat
  session : gtpv2.Session
deriving DecidableEq, Repr

/-- The part of the receiver `*mme` of `mme/mme.go` that `Attach`, `CreateSession` and
`ModifyBearer` read or write (a field `x` of the nested struct `enb` is `enb_x`). The
connection `s11Conn` is passed to these methods next to the receiver, and the
channels `created` and `modified` are with the world, see `TaskDeps`. The metrics
collector `mc` and the log lines have no effect on what the methods do and are left
out. -/
structure mme where
  s11IP : String
  apn : String
  mcc : String
  mnc : String
  teid : List (String × Sub)
  enb_mcc : String
  enb_mnc : String
  enb_tai : Nat
  enb_eci : Nat
  enb_s1uIP : String
  sgw_s11IP : String
  sgw_s1uIP : String
  pgw_s5cIP : String
deriving DecidableEq, Repr

/-- The state of one call of `Attach`, as in `mme1`. -/
structure Task where
  m : mme
  sent : List (Except GtpError s1mme.AttachResponse)

/-- `errCh <- err` and `rspCh <- rsp`. -/
def send {σ : Type} (v : Except GtpError s1mme.AttachResponse) : Body (σ × Task) Unit :=
  Body.update (fun k => { k with sent := k.sent ++ [v] })

/-- The IEs of the request in `CreateSession` of `mme/mme.go`: the default bearer
`br`, the flags `pci` and `pvi` read from it, and the argument list of
`m.s11Conn.CreateSession`. -/
def CreateSession.ies (n : gtpv2.IEConstructors) (m : mme) (sess : Subscriber)
    (fteid : gtpv2.IE) : List gtpv2.IE :=
  let br := n.NewBearer 5 ""
    { PL := 2, QCI := 255, MBRUL := 0xffffffff, MBRDL := 0xffffffff, GBRUL := 0xffffffff,
      GBRDL := 0xffffffff }
  let pci : Nat := if br.QoSProfile.PCI = true then 1 else 0
  let pvi : Nat := if br.QoSProfile.PVI = true then 1 else 0
  [n.NewIMSI sess.IMSI,
   n.NewMSISDN sess.MSISDN,
   n.NewMobileEquipmentIdentity sess.IMEISV,
   n.NewUserLocationInformationStruct
     [.NewCGI m.enb_mcc m.enb_mnc 0x1111 0x2222,
      .NewSAI m.enb_mcc m.enb_mnc 0x1111 0x3333,
      .NewRAI m.enb_mcc m.enb_mnc 0x1111 0x4444,
      .NewTAI m.enb_mcc m.enb_mnc 0x5555,
      .NewECGI m.enb_mcc m.enb_mnc 0x66666666,
      .NewLAI m.enb_mcc m.enb_mnc 0x1111,
      .NewMENBI m.enb_mcc m.enb_mnc 0x11111111,
      .NewEMENBI m.enb_mcc m.enb_mnc 0x22222222],
   n.NewRATType gtpv2.RATTypeEUTRAN,
   n.NewIndicationFromOctets [0x00, 0x00, 0x00, 0x00, 0x00, 0x00, 0x00],
   fteid,
   n.WithInstance (n.NewFullyQualifiedTEID gtpv2.IFTypeS5S8PGWGTPC 0 m.pgw_s5cIP "") 1,
   n.NewAccessPointName m.apn,
   n.NewSelectionMode gtpv2.SelectionModeMSorNetworkProvidedAPNSubscribedVerified,
   n.NewPDNType gtpv2.PDNTypeIPv4,
   n.NewPDNAddressAllocation sess.SrcIP,
   n.NewAPNRestriction gtpv2.APNRestrictionNoExistingContextsorRestriction,
   n.NewAggregateMaximumBitRate 0 0,
   n.NewBearerContext
     [n.NewEPSBearerID br.EBI,
      n.NewBearerQoS pci br.QoSProfile.PL pvi br.QoSProfile.QCI br.QoSProfile.MBRUL
        br.QoSProfile.MBRDL br.QoSProfile.GBRUL br.QoSProfile.GBRDL],
   n.NewFullyQualifiedCSID m.s11IP 1,
   n.NewServingNetwork m.mcc m.mnc,
   n.NewUETimeZone (9 * Hour) 0]

/-- `CreateSession` of `mme/mme.go`, statement by statement: the address of the S-GW
is resolved, and the request is sent on the S11 connection with the IEs of
`CreateSession.ies`. The result is the session or the error. -/
def CreateSession {σ ρ : Type} (ResolveUDPAddr : String → Addr × Option GtpError)
    (n : gtpv2.IEConstructors) (s11Conn : gtpv2.CPlaneConn σ) (m : mme) (sess : Subscriber) :
    Body (σ × ρ) (Except GtpError gtpv2.Session) := do
  let raddr := ResolveUDPAddr (m.sgw_s11IP ++ gtpv2.GTPCPort)
  match raddr.2 with
  | some err => pure (.error err)
  | none =>
    let fteid ← Body.call (s11Conn.NewSenderFTEID m.s11IP "")
    let r ← Body.call (s11Conn.CreateSession raddr.1 (CreateSession.ies n m sess fteid))
    match r with
    | .error err => pure (.error err)
    | .ok (session, _) => pure (.ok session)

/-- `ModifyBearer` of `mme/mme.go`, statement by statement: the TEID of the S-GW kept
by the session, and the request sent on the S11 connection with the F-TEID of the eNB
in the context of the default bearer (a session without default bearer makes the
field access panic). The result is the error (the bearer returned is always nil). -/
def ModifyBearer {σ ρ : Type} (a : gtpv2.SessionAPI σ) (n : gtpv2.IEConstructors)
    (s11Conn : gtpv2.CPlaneConn σ) (m : mme) (sess : gtpv2.Session) (sub : Subscriber) :
    Body (σ × ρ) (Option GtpError) := do
  let teid ← Body.call (a.GetTEID sess gtpv2.IFTypeS11S4SGWGTPC)
  match teid.2 with
  | some err => pure (some err)
  | none =>
    let fteid := n.NewFullyQualifiedTEID gtpv2.IFTypeS1UeNodeBGTPU sub.itei m.enb_s1uIP ""
    let br ← Body.call (a.GetDefaultBearer sess)
    let br ← Body.orPanic br
    let r ← Body.call (s11Conn.ModifyBearer teid.1 sess
      [n.NewIndicationFromOctets [0x00, 0x00, 0x00, 0x00, 0x00, 0x00, 0x00],
       n.NewBearerContext [n.NewEPSBearerID br.EBI, fteid, n.NewPortNumber 2125]])
    pure r.2

/-- The function that `Attach` of `mme/mme.go` starts with `go`, statement by
statement; it reads as the one of `mme1/mme.go` but for the interface type of the
S1-U TEID and the port suffix, which are those of package gtpv2. -/
def Attach.func1 {σ : Type} (ResolveUDPAddr : String → Addr × Option GtpError)
    (a : gtpv2.SessionAPI σ) (n : gtpv2.IEConstructors) (t : TaskDeps σ)
    (s11Conn : gtpv2.CPlaneConn σ) (req : s1mme.AttachRequest) (sess : Subscriber) :
    Body (σ × Task) Unit := do
  Body.update (fun k => { k with m := { k.m with
    enb_mcc := req.Location.Mcc
    enb_mnc := req.Location.Mnc
    enb_tai := req.Location.Tai % 65536
    enb_eci := req.Location.Eci } })
  let k ← Body.receiver
  let created ← CreateSession ResolveUDPAddr n s11Conn k.m sess
  match created with
  | .error err =>
    send (.error err)
    Body.ret none
  | .ok session =>
    let got ← Body.call (t.received "created" 5)
    (if got = true then pure ()
    else send (.error (.other ("timed out: " ++ session.IMSI))))
    let k ← Body.receiver
    let err ← ModifyBearer a n s11Conn k.m session sess
    (match err with
    | some e => do
      send (.error e)
      Body.ret none
    | none => pure ())
    let got ← Body.call (t.received "modified" 5)
    (if got = true then pure ()
    else send (.error (.other ("timed out: " ++ session.IMSI))))
    let s1teid ← Body.call (a.GetTEID session gtpv2.IFTypeS1USGWGTPU)
    (match s1teid.2 with
    | some e => do
      send (.error e)
      Body.ret none
    | none => pure ())
    Body.update (fun k => { k with m := { k.m with
      teid := (req.Imsi, ⟨s1teid.1, session⟩) :: k.m.teid.filter (fun e => e.1 != req.Imsi) } })
    let k ← Body.receiver
    let ip ← Body.call (a.GetIp session)
    send (.ok
      { Cause := .SUCCESS
        SgwAddr := k.m.sgw_s1uIP ++ gtpv2.GTPUPort
        OTei := s1teid.1
        SrcIp := ip })

/-- `Attach` of `mme/mme.go`, as in `mme1`. -/
def Attach {σ : Type} (ResolveUDPAddr : String → Addr × Option GtpError)
    (a : gtpv2.SessionAPI σ) (n : gtpv2.IEConstructors) (t : TaskDeps σ)
    (s11Conn : gtpv2.CPlaneConn σ) (req : s1mme.AttachRequest) (s : σ × mme) :
    Option (Except GtpError s1mme.AttachResponse) × (σ × Task) :=
  let sess : Subscriber :=
    { IMSI := req.Imsi, MSISDN := req.Msisdn, IMEISV := req.Imeisv, SrcIP := req.SrcIp
      itei := req.ITei }
  let hp := t.SplitHostPort req.S1UAddr
  let m := { s.2 with enb_s1uIP := hp.1.1 }
  match hp.2 with
  | some err => (some (.error err), (s.1, ⟨m, []⟩))
  | none =>
    let r := (Attach.func1 ResolveUDPAddr a n t s11Conn req sess).run (s.1, ⟨m, []⟩)
    (r.2.2.sent.head?, r.2)

end gwtester.mmeGTPv2

/-! ## gw-tester: a world to run `Attach` in -/

namespace gwtester

open gtpv1

/-- A model of the constructors of package `gtpv1/ie` for the runs exhibited: each IE
has its type tag of 3GPP TS 29.060 and a payload that keeps the arguments (digit
strings as TBCD, a TEID as four octets, texts as their octets). The encodings of the
package are not under src/ and no theorem depends on them. -/
def specNew : IEConstructors where
  NewIMSI s := ⟨ie.IMSI, utils.StrToSwappedBytes s⟩
  NewMSISDN s := ⟨ie.MSISDN, utils.StrToSwappedBytes s⟩
  NewIMEISV s := ⟨ie.IMEISV, utils.StrToSwappedBytes s⟩
  NewUserLocationInformationWithSAI mcc mnc lac sac :=
    ⟨152, 1 :: (utils.StrToSwappedBytes (mcc ++ mnc) ++ wire.toBE 2 lac ++ wire.toBE 2 sac)⟩
  NewRATType t := ⟨ie.RATType, [t]⟩
  NewQoSProfile b := ⟨135, b⟩
  NewEndUserAddressIPv4 s := ⟨ie.EndUserAddress, 0xf1 :: 0x21 :: parseDotted s⟩
  NewAccessPointName s := ⟨131, s.data.map Char.toNat⟩
  NewSelectionMode m := ⟨15, [m]⟩
  NewProtocolConfigurationOptions c opts :=
    ⟨132, c :: (opts.map (fun o => wire.toBE 2 o.1 ++ o.2.length :: o.2)).flatten⟩
  NewAPNRestriction r := ⟨149, [r]⟩
  NewMSTimeZone d dst := ⟨153, [d / Hour, dst]⟩
  NewTEIDDataI t := ⟨ie.TEIDDataI, wire.toBE 4 t⟩

/-- Modelled from the spec: the S11 endpoint of the world as the connection of the
MME, as `worldS5c` is for the S5-C endpoint. -/
def worldS11c : CPlaneConn World where
  NewSenderCTEID := World.onS11 specConn.NewSenderCTEID
  NewSenderUTEID := World.onS11 specConn.NewSenderUTEID
  FirstUteid := World.onS11 specConn.NewSenderUTEID
  CreateSession raddr ies w :=
    let session : Session :=
      { IMSI := match ies.head? with
          | some (some i) => (specIE.IMSI i).1
          | _ => ""
        peerAddr := raddr }
    let seq := w.s11.sent.length + 1
    let req := Message.Generic ⟨message.MsgTypeCreatePDPContextRequest, 0, seq⟩
      (ies.filterMap id)
    match w.s11.writeErr with
    | some err => (.error err, w)
    | none =>
      (.ok (session, seq),
        { w with s11 := { w.s11 with
            sessions := (w.s11.nextTEID, session) :: w.s11.sessions
            nextTEID := w.s11.nextTEID + 1
            sent := w.s11.sent ++ [(raddr, req)] } })
  DeleteSession teid session w :=
    let seq := w.s11.sent.length + 1
    let req := Message.DeletePDPContextRequest
      { hdr := ⟨message.MsgTypeDeletePDPContextRequest, teid, seq⟩, AdditionalIEs := [] }
    match w.s11.writeErr with
    | some err => ((0, some err), w)
    | none => ((seq, none), { w with s11 := { w.s11 with
        sent := w.s11.sent ++ [(session.peerAddr, req)] } })
  GetSessionByIMSI imsi := World.onS11 (specConn.GetSessionByIMSI imsi)
  NewReplaceSenderCTEID _ := World.onS11 specConn.NewSenderCTEID
  ModifyBearer teid session ies w :=
    let seq := w.s11.sent.length + 1
    let req := Message.Generic ⟨message.MsgTypeUpdatePDPContextRequest, teid, seq⟩
      (ies.filterMap id)
    match w.s11.writeErr with
    | some err => ((0, some err), w)
    | none => ((seq, none), { w with s11 := { w.s11 with
        sent := w.s11.sent ++ [(session.peerAddr, req)] } })

/-- What `Attach` uses in the world: `net.SplitHostPort` splits at the last colon, and
a `select` receives a value when the channel is among the `signals` of the world,
which it then leaves. -/
def worldTaskDeps : TaskDeps World where
  SplitHostPort s :=
    let host := (s.data.reverse.dropWhile (fun c => c ≠ ':')).drop 1
    if ':' ∈ s.data then
      ((String.mk host.reverse, String.mk (s.data.reverse.takeWhile (fun c => c ≠ ':')).reverse),
        none)
    else (("", ""), some (.other "missing port in address"))
  received ch _ w := (decide (ch ∈ w.signals), { w with signals := w.signals.erase ch })

/-- A world of the MME in which no handler signals on `created` or `modified`, and in
which the session with the S-GW `10.0.1.2:2123` has the TEID `0x77` of the S-GW on
S11: the state after a Create PDP Context Response was handled up to `AddTEID` and
`Activate` of the session failed, so that nothing was sent on `created`. -/
def attachWorld : World :=
  { s11 := { restartCounter := 0, sessions := [], sent := [], writeErr := none }
    s5c := { restartCounter := 0, sessions := [], sent := [], writeErr := none }
    teids := [(("10.0.1.2:2123", .S11SGWGTPC), 0x77)]
    inbox := []
    active := []
    assigned := [] }

/-- The receiver `*mme` of the runs of `Attach`. -/
def attachMME : mme1.mme :=
  { created := 0, modified := 0, deleted := 0, sgw_s1uIP := "", s11IP := "10.0.1.1",
    s1cIP := "10.0.4.1", apn := "internet", sgw_s11IP := "10.0.1.2" }

/-- An attach request of the eNB `10.0.2.1` for the subscriber of `subscriberAtMME`. -/
def attachRequest : s1mme.AttachRequest :=
  { Imsi := "001010123456789", Msisdn := "819012345678", Imeisv := "1234567890123456"
    SrcIp := "10.0.5.1", ITei := 0x31, S1UAddr := "10.0.2.1:2152"
    Location := { Mcc := "001", Mnc := "01", Tai := 1, Eci := 2 } }

end gwtester

/-! # Part II: lemmas and theorems -/

namespace gtpv1

/-! ## The handler map -/

theorem foldl_store_syncMap {σ : Type} (m : List (Nat × HandlerFunc σ))
    (acc : List (Nat × HandlerFunc σ)) :
    (m.foldl (fun mhm e => msgHandlerMap.store mhm e.1 e.2) ⟨acc⟩).syncMap
      = m.reverse ++ acc := by
  induction m generalizing acc with
  | nil => rfl
  | cons e tl ih =>
    rw [List.foldl_cons]
    show (List.foldl (fun mhm e => msgHandlerMap.store mhm e.1 e.2) ⟨e :: acc⟩ tl).syncMap = _
    rw [ih]
    simp

theorem newMsgHandlerMap_syncMap {σ : Type} (m : List (Nat × HandlerFunc σ)) :
    (newMsgHandlerMap m).syncMap = m.reverse := by
  simp [newMsgHandlerMap, foldl_store_syncMap]

theorem load_eq_some_of_mem_unique {σ : Type} (l : List (Nat × HandlerFunc σ)) (t : Nat)
    (h : HandlerFunc σ) (hmem : (t, h) ∈ l)
    (huniq : ∀ e ∈ l, e.1 = t → e.2 = h) :
    (msgHandlerMap.mk l).load t = some h := by
  unfold msgHandlerMap.load
  cases hf : l.find? (fun e => e.1 == t) with
  | none =>
    have := List.find?_eq_none.mp hf (t, h) hmem
    simp at this
  | some e =>
    have h1 : e ∈ l := List.mem_of_find?_eq_some hf
    have h2 := List.find?_some hf
    simp at h2
    simp [huniq e h1 h2]

theorem load_eq_none_of_not_mem {σ : Type} (l : List (Nat × HandlerFunc σ)) (t : Nat)
    (hnone : ∀ e ∈ l, e.1 ≠ t) :
    (msgHandlerMap.mk l).load t = none := by
  unfold msgHandlerMap.load
  have : l.find? (fun e => e.1 == t) = none := by
    apply List.find?_eq_none.mpr
    intro e he
    simpa using hnone e he
  simp [this]

theorem mem_defaultHandlers {σ : Type} (e : Nat × HandlerFunc σ) :
    e ∈ defaultHandlers σ ↔
      e = (message.MsgTypeEchoRequest, handleEchoRequest)
      ∨ e = (message.MsgTypeEchoResponse, handleEchoResponse)
      ∨ e = (message.MsgTypeErrorIndication, handleErrorIndication) := by
  simp [defaultHandlers]

theorem load_of_perm_default {σ : Type} (entries : List (Nat × HandlerFunc σ))
    (horder : entries.Perm (defaultHandlers σ)) (t : Nat) :
    (newMsgHandlerMap entries).load t
      = if t = message.MsgTypeEchoRequest then some handleEchoRequest
        else if t = message.MsgTypeEchoResponse then some handleEchoResponse
        else if t = message.MsgTypeErrorIndication then some handleErrorIndication
        else none := by
  have hmem : ∀ e, e ∈ entries.reverse ↔ e ∈ defaultHandlers σ := fun e =>
    ((List.reverse_perm entries).trans horder).mem_iff
  have hshape : newMsgHandlerMap entries = ⟨entries.reverse⟩ := by
    cases hm : newMsgHandlerMap entries with
    | mk l => rw [← newMsgHandlerMap_syncMap, hm]
  rw [hshape]
  simp only [message.MsgTypeEchoRequest, message.MsgTypeEchoResponse,
    message.MsgTypeErrorIndication]
  by_cases h1 : t = 1
  · subst h1
    simp only [if_true]
    apply load_eq_some_of_mem_unique
    · exact (hmem _).mpr (by simp [defaultHandlers, message.MsgTypeEchoRequest])
    · intro e he hk
      rcases (mem_defaultHandlers e).mp ((hmem e).mp he) with h | h | h <;> subst h <;>
        first
          | rfl
          | simp [message.MsgTypeEchoRequest, message.MsgTypeEchoResponse,
              message.MsgTypeErrorIndication] at hk
  by_cases h2 : t = 2
  · subst h2
    simp only [if_true, if_neg h1]
    apply load_eq_some_of_mem_unique
    · exact (hmem _).mpr (by simp [defaultHandlers, message.MsgTypeEchoResponse])
    · intro e he hk
      rcases (mem_defaultHandlers e).mp ((hmem e).mp he) with h | h | h <;> subst h <;>
        first
          | rfl
          | simp [message.MsgTypeEchoRequest, message.MsgTypeEchoResponse,
              message.MsgTypeErrorIndication] at hk
  by_cases h3 : t = 26
  · subst h3
    simp only [if_true, if_neg h1, if_neg h2]
    apply load_eq_some_of_mem_unique
    · exact (hmem _).mpr (by simp [defaultHandlers, message.MsgTypeErrorIndication])
    · intro e he hk
      rcases (mem_defaultHandlers e).mp ((hmem e).mp he) with h | h | h <;> subst h <;>
        first
          | rfl
          | simp [message.MsgTypeEchoRequest, message.MsgTypeEchoResponse,
              message.MsgTypeErrorIndication] at hk
  · simp only [if_neg h1, if_neg h2, if_neg h3]
    apply load_eq_none_of_not_mem
    intro e he hk
    rcases (mem_defaultHandlers e).mp ((hmem e).mp he) with h | h | h <;> subst h
    · exact h1 hk.symm
    · exact h2 hk.symm
    · exact h3 hk.symm

/-- C10: in the default handler map, in whatever order the `range` loop of
`newMsgHandlerMap` visits the three entries of the map literal, `load(t)` finds a
handler if and only if `t` is EchoRequest, EchoResponse or ErrorIndication; it
returns `handleEchoRequest`, `handleEchoResponse` and `handleErrorIndication`
respectively, and `(nil, false)` for every other message type. -/
theorem default_handler_map_load {σ : Type} (entries : List (Nat × HandlerFunc σ))
    (horder : entries.Perm (defaultHandlers σ)) (t : Nat) :
    (((newMsgHandlerMap entries).load t).isSome = true ↔
        (t = message.MsgTypeEchoRequest ∨ t = message.MsgTypeEchoResponse
          ∨ t = message.MsgTypeErrorIndication))
      ∧ (newMsgHandlerMap entries).load message.MsgTypeEchoRequest = some handleEchoRequest
      ∧ (newMsgHandlerMap entries).load message.MsgTypeEchoResponse = some handleEchoResponse
      ∧ (newMsgHandlerMap entries).load message.MsgTypeErrorIndication
          = some handleErrorIndication
      ∧ (t ≠ message.MsgTypeEchoRequest → t ≠ message.MsgTypeEchoResponse →
          t ≠ message.MsgTypeErrorIndication → (newMsgHandlerMap entries).load t = none)
      ∧ (newDefaultMsgHandlerMap σ).load t = (newMsgHandlerMap entries).load t := by
  refine ⟨?_, ?_, ?_, ?_, ?_, ?_⟩
  · rw [load_of_perm_default entries horder t]
    by_cases h1 : t = message.MsgTypeEchoRequest
    · simp [h1]
    by_cases h2 : t = message.MsgTypeEchoResponse
    · simp [h2, message.MsgTypeEchoRequest, message.MsgTypeEchoResponse]
    by_cases h3 : t = message.MsgTypeErrorIndication
    · simp [h3, message.MsgTypeEchoRequest, message.MsgTypeEchoResponse,
        message.MsgTypeErrorIndication]
    · simp [h1, h2, h3]
  · rw [load_of_perm_default entries horder]; simp
  · rw [load_of_perm_default entries horder]
    simp [message.MsgTypeEchoRequest, message.MsgTypeEchoResponse]
  · rw [load_of_perm_default entries horder]
    simp [message.MsgTypeEchoRequest, message.MsgTypeEchoResponse,
      message.MsgTypeErrorIndication]
  · intro h1 h2 h3
    rw [load_of_perm_default entries horder]
    simp [h1, h2, h3]
  · rw [load_of_perm_default entries horder, newDefaultMsgHandlerMap,
      load_of_perm_default (defaultHandlers σ) (List.Perm.refl _)]

/-- Witness for C10: the entries visited in reverse order, and message type 16
(CreatePDPContextRequest), for which no default handler exists. -/
theorem default_handler_map_load_witness :
    ((defaultHandlers Unit).reverse).Perm (defaultHandlers Unit)
      ∧ (newMsgHandlerMap (defaultHandlers Unit).reverse).load 16 = none
      ∧ (newMsgHandlerMap (defaultHandlers Unit).reverse).load message.MsgTypeEchoRequest
          = some handleEchoRequest :=
  ⟨List.reverse_perm _,
   (default_handler_map_load (defaultHandlers Unit).reverse (List.reverse_perm _) 16).2.2.2.2.1
     (by decide) (by decide) (by decide),
   (default_handler_map_load (defaultHandlers Unit).reverse (List.reverse_perm _) 16).2.1⟩

/-! ## The default handlers -/

/-- C1: on an EchoRequest with sequence number `hdr.SequenceNumber` from any sender,
over any implementation `c` of `Conn`, `handleEchoRequest` returns exactly what the
call `c.RespondTo(senderAddr, msg, rsp)` returns, where `rsp` is the EchoResponse
built with sequence 0 whose only IE is the Recovery IE holding `c.Restarts()`; on the
instrumented connection the log grows by `Restarts` and then that single `RespondTo`
call; and on the connection modelled from the spec the one datagram handed to the
socket is the EchoResponse with the request's sequence number and the endpoint's
restart counter, the returned error being the socket's. -/
theorem handleEchoRequest_responds_once {σ : Type} (c : Conn σ) (senderAddr : Addr)
    (hdr : Header) (ies : List IE) (s : σ) (log : List ConnCall) (st : ConnState) :
    handleEchoRequest c senderAddr (.EchoRequest hdr ies) s
        = c.RespondTo senderAddr (.EchoRequest hdr ies)
            (message.NewEchoResponse 0 [ie.NewRecovery (c.Restarts s).1]) (c.Restarts s).2
      ∧ (message.NewEchoResponse 0 [ie.NewRecovery (c.Restarts s).1]).isEchoResponse = true
      ∧ (message.NewEchoResponse 0 [ie.NewRecovery (c.Restarts s).1]).Sequence = 0
      ∧ (message.NewEchoResponse 0 [ie.NewRecovery (c.Restarts s).1]).ies
          = [⟨ie.Recovery, [(c.Restarts s).1]⟩]
      ∧ (handleEchoRequest c.traced senderAddr (.EchoRequest hdr ies) (s, log)).2.2
          = log ++ [.Restarts, .RespondTo senderAddr (.EchoRequest hdr ies)
              (message.NewEchoResponse 0 [ie.NewRecovery (c.Restarts s).1])]
      ∧ (((handleEchoRequest c.traced senderAddr (.EchoRequest hdr ies) (s, [])).2.2).filter
            ConnCall.isRespondTo).length = 1
      ∧ (handleEchoRequest c.traced senderAddr (.EchoRequest hdr ies) (s, log)).1
          = (c.RespondTo senderAddr (.EchoRequest hdr ies)
              (message.NewEchoResponse 0 [ie.NewRecovery (c.Restarts s).1]) (c.Restarts s).2).1
      ∧ handleEchoRequest specConn senderAddr (.EchoRequest hdr ies) st
          = (st.writeErr,
             { st with sent := st.sent ++
                [(senderAddr, .EchoResponse ⟨message.MsgTypeEchoResponse, 0, hdr.SequenceNumber⟩
                    [⟨ie.Recovery, [st.restartCounter]⟩])] }) := by
  refine ⟨rfl, rfl, rfl, rfl, ?_, ?_, rfl, rfl⟩
  · simp [handleEchoRequest, Conn.traced]
  · simp [handleEchoRequest, Conn.traced, ConnCall.isRespondTo]

/-- C2, the claim refuted: on the connection modelled from the spec, a session of
peer `10.0.0.1:2123` is still found by `GetSessionByIMSI` after the default handler
has handled two EchoResponses from that peer with Recovery 1 and then 2. -/
theorem handleEchoResponse_peer_restart_counterexample :
    ¬ (∀ (p : Addr) (r1 r2 : Nat) (h1 h2 : Header) (st : ConnState) (e : Nat × Session),
        r1 < r2 → e ∈ st.sessions → e.2.peerAddr = p →
        (specConn.GetSessionByIMSI e.2.IMSI
          (handleEchoResponse specConn p (.EchoResponse h2 [ie.NewRecovery r2])
            (handleEchoResponse specConn p (.EchoResponse h1 [ie.NewRecovery r1]) st).2).2).1.toOption
          = none) := by
  intro h
  have h0 := h "10.0.0.1:2123" 1 2 ⟨2, 0, 1⟩ ⟨2, 0, 2⟩
    { restartCounter := 0
      sessions := [(1, { IMSI := "001010123456789", peerAddr := "10.0.0.1:2123" })]
      sent := []
      writeErr := none }
    (1, { IMSI := "001010123456789", peerAddr := "10.0.0.1:2123" }) (by decide) (by decide) rfl
  exact absurd h0 (by decide)

/-- C2 as amended: the default EchoResponse handler does nothing. Over any
implementation of `Conn`, handling two EchoResponses from a peer, whatever their
Recovery values, returns nil both times, invokes no method of the connection and
leaves its state as it was; so on the connection modelled from the spec
`GetSessionByIMSI` answers for every IMSI what it answered before. -/
theorem handleEchoResponse_leaves_sessions {σ : Type} (c : Conn σ) (p : Addr)
    (h1 h2 : Header) (i1 i2 : List IE) (s : σ) (log : List ConnCall) (st : ConnState)
    (imsi : String) :
    handleEchoResponse c p (.EchoResponse h1 i1) s = (none, s)
      ∧ handleEchoResponse c p (.EchoResponse h2 i2)
          (handleEchoResponse c p (.EchoResponse h1 i1) s).2 = (none, s)
      ∧ (handleEchoResponse c.traced p (.EchoResponse h2 i2)
          (handleEchoResponse c.traced p (.EchoResponse h1 i1) (s, log)).2).2 = (s, log)
      ∧ (specConn.GetSessionByIMSI imsi
          (handleEchoResponse specConn p (.EchoResponse h2 i2)
            (handleEchoResponse specConn p (.EchoResponse h1 i1) st).2).2).1
          = (specConn.GetSessionByIMSI imsi st).1 :=
  ⟨rfl, rfl, rfl, rfl⟩

end gtpv1

/-! ## Big-endian octets -/

namespace wire

theorem toBE_two (n : Nat) : toBE 2 n = [n / 256 % 256, n % 256] := by
  simp [toBE]

theorem toBE_three (n : Nat) : toBE 3 n = [n / 65536 % 256, n / 256 % 256, n % 256] := by
  simp [toBE]

theorem toBE_four (n : Nat) :
    toBE 4 n = [n / 16777216 % 256, n / 65536 % 256, n / 256 % 256, n % 256] := by
  simp [toBE]

theorem fromBE_two (a b : Nat) : fromBE [a, b] = a * 256 + b := by
  simp [fromBE]

theorem fromBE_toBE_two (n : Nat) (h : n < 65536) : fromBE [n / 256 % 256, n % 256] = n := by
  rw [fromBE_two]; omega

theorem fromBE_toBE_three (n : Nat) (h : n < 2 ^ 24) :
    fromBE [n / 65536 % 256, n / 256 % 256, n % 256] = n := by
  simp [fromBE]; omega

theorem fromBE_toBE_four (n : Nat) (h : n < 2 ^ 32) :
    fromBE [n / 16777216 % 256, n / 65536 % 256, n / 256 % 256, n % 256] = n := by
  simp [fromBE]; omega

theorem toBE_length (k n : Nat) : (toBE k n).length = k := by
  induction k with
  | zero => rfl
  | succ k ih => simp [toBE, ih]

theorem toBE_octets (k n : Nat) : ∀ o ∈ toBE k n, o < 256 := by
  induction k with
  | zero => intro o ho; simp [toBE] at ho
  | succ k ih =>
    intro o ho
    simp only [toBE, List.mem_cons] at ho
    rcases ho with h | h
    · rw [h]; exact Nat.mod_lt _ (by decide)
    · exact ih o h

end wire

/-! ## TBCD -/

namespace utils

theorem digitVal_lt (c : Char) (h : c ∈ digits) : digitVal c < 10 := by
  simp only [digits, List.mem_cons, List.mem_singleton, List.not_mem_nil, or_false] at h
  rcases h with h | h | h | h | h | h | h | h | h | h <;> subst h <;> decide

theorem digitChar_digitVal (c : Char) (h : c ∈ digits) : digitChar (digitVal c) = c := by
  simp only [digits, List.mem_cons, List.mem_singleton, List.not_mem_nil, or_false] at h
  rcases h with h | h | h | h | h | h | h | h | h | h <;> subst h <;> decide

theorem tbcdDecode_tbcdEncode :
    ∀ (d : List Char), (∀ c ∈ d, c ∈ digits) → tbcdDecode (tbcdEncode d) = d
  | [], _ => rfl
  | [a], h => by
    have ha := digitVal_lt a (h a (by simp))
    have hc := digitChar_digitVal a (h a (by simp))
    have h1 : (0xf * 16 + digitVal a) / 16 = 0xf := by omega
    have h2 : (0xf * 16 + digitVal a) % 16 = digitVal a := by omega
    simp only [tbcdEncode, tbcdDecode, h1, h2, if_true, hc]
  | a :: b :: rest, h => by
    have ha := digitVal_lt a (h a (by simp))
    have hb := digitVal_lt b (h b (by simp))
    have hca := digitChar_digitVal a (h a (by simp))
    have hcb := digitChar_digitVal b (h b (by simp))
    have ih := tbcdDecode_tbcdEncode rest (fun c hc => h c (by simp [hc]))
    have h1 : (digitVal b * 16 + digitVal a) / 16 = digitVal b := by omega
    have h2 : (digitVal b * 16 + digitVal a) % 16 = digitVal a := by omega
    have hne : ¬ digitVal b = 0xf := by omega
    cases hr : tbcdEncode rest with
    | nil =>
      rw [hr] at ih
      simp only [tbcdEncode, hr, tbcdDecode, h1, h2, hne, if_false, hca, hcb]
      simp only [tbcdDecode] at ih
      rw [← ih]
    | cons o os =>
      rw [hr] at ih
      simp only [tbcdEncode, hr, tbcdDecode, h1, h2, hca, hcb, ih]

theorem tbcdEncode_length : ∀ (d : List Char), (tbcdEncode d).length = (d.length + 1) / 2
  | [] => rfl
  | [_] => by simp [tbcdEncode]
  | _ :: _ :: rest => by
    have ih := tbcdEncode_length rest
    simp only [tbcdEncode, List.length_cons, ih]
    omega

theorem tbcdEncode_pad :
    ∀ (d : List Char), (∀ c ∈ d, c ∈ digits) → d.length % 2 = 1 →
      ∃ init last, tbcdEncode d = init ++ [last] ∧ last / 16 = 0xf
        ∧ d.getLast? = some (digitChar (last % 16))
  | [], _, h => by simp at h
  | [a], hd, _ => by
    have ha := digitVal_lt a (hd a (by simp))
    have hc := digitChar_digitVal a (hd a (by simp))
    refine ⟨[], 0xf * 16 + digitVal a, rfl, by omega, ?_⟩
    have h2 : (0xf * 16 + digitVal a) % 16 = digitVal a := by omega
    simp [h2, hc]
  | a :: b :: rest, hd, h => by
    have hodd : rest.length % 2 = 1 := by
      simp only [List.length_cons] at h; omega
    obtain ⟨init, last, he, hl, hlast⟩ :=
      tbcdEncode_pad rest (fun c hc => hd c (by simp [hc])) hodd
    refine ⟨(digitVal b * 16 + digitVal a) :: init, last, by simp [tbcdEncode, he], hl, ?_⟩
    cases rest with
    | nil => simp at hodd
    | cons r rs => simpa [List.getLast?_cons_cons] using hlast

/-- C9: for every digit string `d` over the digits 0-9 (of any length, so of length
1 to 15 too), encoding `d` to TBCD, two digits per octet with the first in the low
nibble, and decoding back yields `d`; the encoding has one octet per pair of
digits; when the length of `d` is odd the last octet carries the pad nibble `0xF`
in its high half and the last digit in its low half; and the IMSI
`001010123456789` encodes to `00 01 01 21 43 65 87 f9`. -/
theorem tbcd_roundtrip (d : String) (hd : ∀ c ∈ d.data, c ∈ digits) :
    SwappedBytesToStr (StrToSwappedBytes d) = d
      ∧ (StrToSwappedBytes d).length = (d.length + 1) / 2
      ∧ (d.length % 2 = 1 →
          ∃ init last, StrToSwappedBytes d = init ++ [last] ∧ last / 16 = 0xf
            ∧ d.data.getLast? = some (digitChar (last % 16)))
      ∧ StrToSwappedBytes "001010123456789" = [0x00, 0x01, 0x01, 0x21, 0x43, 0x65, 0x87, 0xf9]
      ∧ SwappedBytesToStr [0x00, 0x01, 0x01, 0x21, 0x43, 0x65, 0x87, 0xf9]
          = "001010123456789" := by
  refine ⟨?_, ?_, ?_, by decide, by decide⟩
  · simp only [SwappedBytesToStr, StrToSwappedBytes, tbcdDecode_tbcdEncode d.data hd]
  · simp only [StrToSwappedBytes, tbcdEncode_length, String.length]
  · intro hodd
    exact tbcdEncode_pad d.data hd hodd

/-- Witness for C9: the 15-digit IMSI `001010123456789`, of odd length. -/
theorem tbcd_roundtrip_witness :
    (∀ c ∈ ("001010123456789" : String).data, c ∈ digits)
      ∧ SwappedBytesToStr (StrToSwappedBytes "001010123456789") = "001010123456789"
      ∧ (StrToSwappedBytes "001010123456789").length = 8 :=
  ⟨by decide, (tbcd_roundtrip "001010123456789" (by decide)).1,
    (tbcd_roundtrip "001010123456789" (by decide)).2.1⟩

end utils

/-! ## GTPv2 information elements -/

namespace gtpv2

theorem IE.serialize_of_valid (g : Nat → Bool) (t l i : Nat) (p : List Nat) (ch : List IE)
    (h : IE.valid g (.mk t l i p ch) = true) :
    IE.Serialize g (.mk t l i p ch) = t :: (l / 256 % 256) :: (l % 256) :: i :: p := by
  simp only [IE.valid, Bool.and_eq_true, decide_eq_true_eq] at h
  obtain ⟨⟨⟨⟨⟨_, _⟩, _⟩, _⟩, _⟩, hg⟩ := h
  simp only [IE.Serialize, wire.toBE]
  by_cases hgt : g t = true
  · simp only [hgt, if_true, Bool.and_eq_true, decide_eq_true_eq] at hg ⊢
    simp [hg.2]
  · simp [hgt]

theorem IE.marshalLen_of_valid (g : Nat → Bool) (x : IE) (h : IE.valid g x = true) :
    x.MarshalLen g = 4 + x.Length ∧ wire.ieLengthField (x.Serialize g) = x.Length := by
  cases x with
  | mk t l i p ch =>
    have hs := IE.serialize_of_valid g t l i p ch h
    simp only [IE.valid, Bool.and_eq_true, decide_eq_true_eq] at h
    obtain ⟨⟨⟨⟨⟨_, _⟩, hl⟩, hpl⟩, _⟩, _⟩ := h
    constructor
    · rw [IE.MarshalLen, hs]
      simp only [IE.Length, List.length_cons, hpl]
      omega
    · simp only [hs, wire.ieLengthField, IE.Length, List.drop_succ_cons, List.drop_zero,
        List.take_succ_cons, List.take_zero]
      exact wire.fromBE_toBE_two l hl

theorem IE.serializeAll_length (g : Nat → Bool) (ies : List IE) :
    (IE.SerializeAll g ies).length = (ies.map (fun c => c.MarshalLen g)).sum := by
  induction ies with
  | nil => simp [IE.SerializeAll]
  | cons x xs ih => simp [IE.SerializeAll, IE.MarshalLen, ih]

theorem IE.serializeAll_octets (g : Nat → Bool) (ies : List IE)
    (h : IE.validAll g ies = true) : ∀ o ∈ IE.SerializeAll g ies, o < 256 := by
  induction ies with
  | nil => intro o ho; simp [IE.SerializeAll] at ho
  | cons x xs ih =>
    cases x with
    | mk t l i p ch =>
      simp only [IE.validAll, Bool.and_eq_true] at h
      obtain ⟨hx, hxs⟩ := h
      have hs := IE.serialize_of_valid g t l i p ch hx
      simp only [IE.valid, Bool.and_eq_true, decide_eq_true_eq, List.all_eq_true] at hx
      obtain ⟨⟨⟨⟨⟨ht, hi⟩, _⟩, _⟩, hp⟩, _⟩ := hx
      intro o ho
      rw [IE.SerializeAll, hs] at ho
      simp only [List.cons_append, List.mem_cons, List.mem_append] at ho
      rcases ho with h1 | h1 | h1 | h1 | h1 | h1
      · omega
      · rw [h1]; exact Nat.mod_lt _ (by decide)
      · rw [h1]; exact Nat.mod_lt _ (by decide)
      · omega
      · exact hp o h1
      · exact ih hxs o h1

theorem ie.valid_New (g : Nat → Bool) (typ inst : Nat) (data : List Nat)
    (htyp : typ < 256) (hinst : inst < 16) (hlen : data.length < 65536)
    (hdata : ∀ o ∈ data, o < 256) (hg : g typ = false) :
    IE.valid g (ie.New typ inst data) = true := by
  simp only [ie.New, IE.valid, Bool.and_eq_true, decide_eq_true_eq, List.all_eq_true, hg]
  refine ⟨⟨⟨⟨⟨htyp, hinst⟩, hlen⟩, ?_⟩, hdata⟩, by simp⟩
  simp

theorem ie.valid_NewGrouped (g : Nat → Bool) (typ inst : Nat) (ies : List IE)
    (htyp : typ < 256) (hinst : inst < 16) (hies : IE.validAll g ies = true)
    (hlen : (IE.SerializeAll g ies).length < 65536) (hg : g typ = true) :
    IE.valid g (ie.NewGrouped g typ inst ies) = true := by
  simp only [ie.NewGrouped, IE.valid, Bool.and_eq_true, decide_eq_true_eq, List.all_eq_true, hg,
    if_true]
  refine ⟨⟨⟨⟨⟨htyp, hinst⟩, hlen⟩, ?_⟩, IE.serializeAll_octets g ies hies⟩, hies, ?_⟩ <;> simp

theorem parse_serializeAll (g : Nat → Bool) :
    ∀ (fuel : Nat) (ies : List IE), IE.validAll g ies = true →
      (IE.SerializeAll g ies).length < fuel →
      ParseMultiIEsAux g fuel (IE.SerializeAll g ies) = .ok ies := by
  intro fuel
  induction fuel with
  | zero => intro ies _ h; exact absurd h (Nat.not_lt_zero _)
  | succ fuel ih =>
    intro ies hv hlen
    cases ies with
    | nil => simp [IE.SerializeAll, ParseMultiIEsAux]
    | cons x tl =>
      cases x with
      | mk t l i p ch =>
        simp only [IE.validAll, Bool.and_eq_true] at hv
        obtain ⟨hx, htl⟩ := hv
        have hser := IE.serialize_of_valid g t l i p ch hx
        simp only [IE.valid, Bool.and_eq_true, decide_eq_true_eq] at hx
        obtain ⟨⟨⟨⟨⟨_, hi⟩, hl⟩, hpl⟩, _⟩, hg⟩ := hx
        have hbytes : IE.SerializeAll g (IE.mk t l i p ch :: tl)
            = t :: (l / 256 % 256) :: (l % 256) :: i :: (p ++ IE.SerializeAll g tl) := by
          rw [IE.SerializeAll, hser]; simp
        rw [hbytes] at hlen ⊢
        simp only [List.length_cons, List.length_append] at hlen
        have hfrom : wire.fromBE [l / 256 % 256, l % 256] = l := wire.fromBE_toBE_two l hl
        have htake : List.take l (p ++ IE.SerializeAll g tl) = p := by
          rw [hpl]; simp
        have hdrop : List.drop l (p ++ IE.SerializeAll g tl) = IE.SerializeAll g tl := by
          rw [hpl]; simp
        have hrest := ih tl htl (by omega)
        have himod : i % 16 = i := Nat.mod_eq_of_lt hi
        unfold ParseMultiIEsAux
        simp only [hfrom, htake, hdrop, hrest, himod, List.length_append]
        have hnl : ¬ (p.length + (IE.SerializeAll g tl).length < l) := by omega
        simp only [hnl, if_false]
        by_cases hgt : g t = true
        · simp only [hgt, if_true, Bool.and_eq_true, decide_eq_true_eq] at hg ⊢
          have hch := ih ch hg.1 (by rw [← hg.2]; omega)
          rw [← hg.2] at hch
          simp [hch]
        · simp only [hgt, Bool.false_eq_true, if_false] at hg ⊢
          have : ch = [] := by simpa using hg
          simp [this]

theorem parseMultiIEs_serializeAll (g : Nat → Bool) (ies : List IE)
    (h : IE.validAll g ies = true) :
    ParseMultiIEs g (IE.SerializeAll g ies) = .ok ies :=
  parse_serializeAll g _ ies h (Nat.lt_succ_self _)

end gtpv2

/-! ## GTPv2 messages -/

namespace gtpv2

theorem parse_serialize_new (g : Nat → Bool) (typ : Nat) (teid : Option Nat) (seq : Nat)
    (ies : List IE) (hteid : ∀ t, teid = some t → t < 2 ^ 32) (hseq : seq < 2 ^ 24)
    (hies : IE.validAll g ies = true)
    (hlen : (if teid.isSome then 8 else 4) + (IE.SerializeAll g ies).length < 65536) :
    Parse g ((message.New g typ teid seq ies).Serialize g)
      = .ok (message.New g typ teid seq ies) := by
  have hrt := parse_serializeAll g ((IE.SerializeAll g ies).length + 1) ies hies
    (Nat.lt_succ_self _)
  simp only [message.New, Message.Serialize]
  generalize IE.SerializeAll g ies = S at hrt hlen ⊢
  cases teid with
  | none =>
    simp only [Option.isSome_none, Bool.false_eq_true, if_false] at hlen
    have hfrom : wire.fromBE [(4 + S.length) / 256 % 256, (4 + S.length) % 256]
        = 4 + S.length := wire.fromBE_toBE_two _ hlen
    have htake : ∀ a b c d : Nat, List.take (4 + S.length) (a :: b :: c :: d :: S)
        = a :: b :: c :: d :: S := fun a b c d =>
      List.take_of_length_le (by simp only [List.length_cons]; omega)
    have hdrop : ∀ a b c d : Nat, List.drop (4 + S.length) (a :: b :: c :: d :: S) = [] :=
      fun a b c d => List.drop_of_length_le (by simp only [List.length_cons]; omega)
    simp only [Option.isSome_none, Bool.false_eq_true, if_false, wire.toBE_two,
      wire.toBE_three, List.append_nil, List.nil_append, List.cons_append,
      List.singleton_append, Parse, hfrom, htake, hdrop]
    simp [ParseMultiIEs, hrt, wire.fromBE_toBE_three seq hseq]
    omega
  | some t =>
    have ht := hteid t rfl
    simp only [Option.isSome_some, if_true] at hlen
    have hfrom : wire.fromBE [(8 + S.length) / 256 % 256, (8 + S.length) % 256]
        = 8 + S.length := wire.fromBE_toBE_two _ hlen
    have htake : ∀ a b c d e f g h : Nat,
        List.take (8 + S.length) (a :: b :: c :: d :: e :: f :: g :: h :: S)
        = a :: b :: c :: d :: e :: f :: g :: h :: S := fun a b c d e f g h =>
      List.take_of_length_le (by simp only [List.length_cons]; omega)
    have hdrop : ∀ a b c d e f g h : Nat,
        List.drop (8 + S.length) (a :: b :: c :: d :: e :: f :: g :: h :: S) = [] :=
      fun a b c d e f g h => List.drop_of_length_le (by simp only [List.length_cons]; omega)
    simp only [Option.isSome_some, if_true, wire.toBE_two, wire.toBE_three, wire.toBE_four,
      List.append_nil, List.nil_append, List.cons_append, List.singleton_append, Parse, hfrom,
      htake, hdrop]
    simp [ParseMultiIEs, hrt, wire.fromBE_toBE_three seq hseq, wire.fromBE_toBE_four t ht]
    omega

theorem parse_serialize_supported (g : Nat → Bool) (typ teid seq : Nat) (ies : List IE)
    (h : Supported g teid seq ies) :
    Parse g ((message.New g typ (some teid) seq ies).Serialize g)
      = .ok (message.New g typ (some teid) seq ies) :=
  parse_serialize_new g typ (some teid) seq ies
    (fun t ht => by cases ht; exact h.1) h.2.1 h.2.2.1 h.2.2.2

theorem wire_toBE_fromBE_two (a b : Nat) (ha : a < 256) (hb : b < 256) :
    wire.toBE 2 (wire.fromBE [a, b]) = [a, b] := by
  rw [wire.toBE_two, wire.fromBE_two]
  have h1 : (a * 256 + b) / 256 % 256 = a := by omega
  have h2 : (a * 256 + b) % 256 = b := by omega
  rw [h1, h2]

theorem wire_toBE_fromBE_three (a b c : Nat) (ha : a < 256) (hb : b < 256) (hc : c < 256) :
    wire.toBE 3 (wire.fromBE [a, b, c]) = [a, b, c] := by
  rw [wire.toBE_three]
  simp only [wire.fromBE, List.foldl]
  have h1 : ((0 * 256 + a) * 256 + b) * 256 + c = a * 65536 + b * 256 + c := by ring
  rw [h1]
  have e1 : (a * 65536 + b * 256 + c) / 65536 % 256 = a := by omega
  have e2 : (a * 65536 + b * 256 + c) / 256 % 256 = b := by omega
  have e3 : (a * 65536 + b * 256 + c) % 256 = c := by omega
  rw [e1, e2, e3]

theorem wire_toBE_fromBE_four (a b c d : Nat) (ha : a < 256) (hb : b < 256) (hc : c < 256)
    (hd : d < 256) : wire.toBE 4 (wire.fromBE [a, b, c, d]) = [a, b, c, d] := by
  rw [wire.toBE_four]
  simp only [wire.fromBE, List.foldl]
  have h1 : (((0 * 256 + a) * 256 + b) * 256 + c) * 256 + d
      = a * 16777216 + b * 65536 + c * 256 + d := by ring
  rw [h1]
  have e1 : (a * 16777216 + b * 65536 + c * 256 + d) / 16777216 % 256 = a := by omega
  have e2 : (a * 16777216 + b * 65536 + c * 256 + d) / 65536 % 256 = b := by omega
  have e3 : (a * 16777216 + b * 65536 + c * 256 + d) / 256 % 256 = c := by omega
  have e4 : (a * 16777216 + b * 65536 + c * 256 + d) % 256 = d := by omega
  rw [e1, e2, e3, e4]

theorem parse_of_wellFormedIEs (g : Nat → Bool) :
    ∀ (fuel : Nat) (b : List Nat), (∀ o ∈ b, o < 256) → WellFormedIEsAux g fuel b = true →
      ∃ ies, ParseMultiIEsAux g fuel b = .ok ies ∧ IE.SerializeAll g ies = b
        ∧ IE.validAll g ies = true := by
  intro fuel
  induction fuel with
  | zero => intro b _ h; simp [WellFormedIEsAux] at h
  | succ fuel ih =>
    intro b hoct hwf
    match b, hoct, hwf with
    | [], _, _ => exact ⟨[], by simp [ParseMultiIEsAux], rfl, rfl⟩
    | [_], _, hwf => simp [WellFormedIEsAux] at hwf
    | [_, _], _, hwf => simp [WellFormedIEsAux] at hwf
    | [_, _, _], _, hwf => simp [WellFormedIEsAux] at hwf
    | t :: l1 :: l0 :: i :: rest, hoct, hwf =>
      simp only [WellFormedIEsAux, Bool.and_eq_true, decide_eq_true_eq] at hwf
      obtain ⟨⟨⟨hi, hle⟩, hgrp⟩, hrest⟩ := hwf
      have ht : t < 256 := hoct t (by simp)
      have hl1 : l1 < 256 := hoct l1 (by simp)
      have hl0 : l0 < 256 := hoct l0 (by simp)
      have horest : ∀ o ∈ rest, o < 256 := fun o ho => hoct o (by simp [ho])
      have hotake : ∀ o ∈ rest.take (wire.fromBE [l1, l0]), o < 256 :=
        fun o ho => horest o (List.mem_of_mem_take ho)
      have hodrop : ∀ o ∈ rest.drop (wire.fromBE [l1, l0]), o < 256 :=
        fun o ho => horest o (List.mem_of_mem_drop ho)
      obtain ⟨more, hpm, hsm, hvm⟩ := ih _ hodrop hrest
      have hlen : wire.fromBE [l1, l0] < 65536 := by rw [wire.fromBE_two]; omega
      have hbe := wire_toBE_fromBE_two l1 l0 hl1 hl0
      have himod : i % 16 = i := Nat.mod_eq_of_lt hi
      have htl : (rest.take (wire.fromBE [l1, l0])).length = wire.fromBE [l1, l0] := by
        rw [List.length_take]; omega
      have hnl : ¬ rest.length < wire.fromBE [l1, l0] := by omega
      by_cases hgt : g t = true
      · simp only [hgt, if_true] at hgrp
        obtain ⟨ch, hpc, hsc, hvc⟩ := ih _ hotake hgrp
        refine ⟨IE.mk t (wire.fromBE [l1, l0]) i (rest.take (wire.fromBE [l1, l0])) ch :: more,
          ?_, ?_, ?_⟩
        · unfold ParseMultiIEsAux
          simp only [hnl, if_false, hgt, if_true, hpc, hpm, himod]
        · simp only [IE.SerializeAll, IE.Serialize, hgt, if_true, hsc, hsm, hbe,
            List.cons_append, List.nil_append, List.append_assoc, List.take_append_drop]
        · simp only [IE.validAll, IE.valid, Bool.and_eq_true, decide_eq_true_eq,
            List.all_eq_true, hgt, if_true]
          exact ⟨⟨⟨⟨⟨⟨ht, hi⟩, hlen⟩, htl.symm⟩, hotake⟩, hvc, hsc.symm⟩, hvm⟩
      · have hgf : g t = false := by simpa using hgt
        refine ⟨IE.mk t (wire.fromBE [l1, l0]) i (rest.take (wire.fromBE [l1, l0])) [] :: more,
          ?_, ?_, ?_⟩
        · unfold ParseMultiIEsAux
          simp only [hnl, if_false, hgf, Bool.false_eq_true, hpm, himod]
        · simp only [IE.SerializeAll, IE.Serialize, hgf, Bool.false_eq_true, if_false, hsm, hbe,
            List.cons_append, List.nil_append, List.append_assoc, List.take_append_drop]
        · simp only [IE.validAll, IE.valid, Bool.and_eq_true, decide_eq_true_eq,
            List.all_eq_true, hgf, Bool.false_eq_true, if_false]
          exact ⟨⟨⟨⟨⟨⟨ht, hi⟩, hlen⟩, htl.symm⟩, hotake⟩, by simp⟩, hvm⟩

theorem wellFormedIEs_serializeAll (g : Nat → Bool) :
    ∀ (fuel : Nat) (ies : List IE), IE.validAll g ies = true →
      (IE.SerializeAll g ies).length < fuel →
      WellFormedIEsAux g fuel (IE.SerializeAll g ies) = true := by
  intro fuel
  induction fuel with
  | zero => intro ies _ h; exact absurd h (Nat.not_lt_zero _)
  | succ fuel ih =>
    intro ies hv hlen
    cases ies with
    | nil => simp [IE.SerializeAll, WellFormedIEsAux]
    | cons x tl =>
      cases x with
      | mk t l i p ch =>
        simp only [IE.validAll, Bool.and_eq_true] at hv
        obtain ⟨hx, htl⟩ := hv
        have hser := IE.serialize_of_valid g t l i p ch hx
        simp only [IE.valid, Bool.and_eq_true, decide_eq_true_eq] at hx
        obtain ⟨⟨⟨⟨⟨_, hi⟩, hl⟩, hpl⟩, _⟩, hg⟩ := hx
        have hbytes : IE.SerializeAll g (IE.mk t l i p ch :: tl)
            = t :: (l / 256 % 256) :: (l % 256) :: i :: (p ++ IE.SerializeAll g tl) := by
          rw [IE.SerializeAll, hser]; simp
        rw [hbytes] at hlen ⊢
        simp only [List.length_cons, List.length_append] at hlen
        have hfrom : wire.fromBE [l / 256 % 256, l % 256] = l := wire.fromBE_toBE_two l hl
        have htake : List.take l (p ++ IE.SerializeAll g tl) = p := by
          rw [hpl]; simp
        have hdrop : List.drop l (p ++ IE.SerializeAll g tl) = IE.SerializeAll g tl := by
          rw [hpl]; simp
        have hrest := ih tl htl (by omega)
        unfold WellFormedIEsAux
        simp only [hfrom, htake, hdrop, hrest, List.length_append, Bool.and_eq_true,
          decide_eq_true_eq, and_true]
        refine ⟨⟨hi, by omega⟩, ?_⟩
        by_cases hgt : g t = true
        · simp only [hgt, if_true, Bool.and_eq_true, decide_eq_true_eq] at hg ⊢
          have hch := ih ch hg.1 (by rw [← hg.2]; omega)
          rw [← hg.2] at hch
          exact hch
        · simp [hgt]

theorem serialize_new_some (g : Nat → Bool) (typ teid seq : Nat) (ies : List IE) :
    (message.New g typ (some teid) seq ies).Serialize g
      = [0x48, typ] ++ wire.toBE 2 (8 + (IE.SerializeAll g ies).length) ++ wire.toBE 4 teid
          ++ wire.toBE 3 seq ++ [0x00] ++ IE.SerializeAll g ies := by
  simp [message.New, Message.Serialize]

theorem serialize_new_length (g : Nat → Bool) (typ : Nat) (teid : Option Nat) (seq : Nat)
    (ies : List IE) :
    ((message.New g typ teid seq ies).Serialize g).length
      = 4 + (message.New g typ teid seq ies).Length := by
  cases teid <;>
    simp [message.New, Message.Serialize, wire.toBE_length] <;> omega

theorem lengthField_new (g : Nat → Bool) (typ : Nat) (teid : Option Nat) (seq : Nat)
    (ies : List IE)
    (hlen : (if teid.isSome then 8 else 4) + (IE.SerializeAll g ies).length < 65536) :
    wire.lengthField ((message.New g typ teid seq ies).Serialize g)
      = (message.New g typ teid seq ies).Length := by
  simp only [message.New, Message.Serialize, wire.lengthField, wire.toBE_two, List.cons_append,
    List.drop_succ_cons, List.drop_zero, List.take_succ_cons, List.take_zero]
  exact wire.fromBE_toBE_two _ hlen

theorem serialize_parse_wellFormed (g : Nat → Bool) (typ : Nat) (b : List Nat)
    (h : WellFormed g typ b = true) :
    ∃ x, Parse g b = .ok x ∧ x.Typ = typ ∧ x.Serialize g = b := by
  rcases b with _ | ⟨flags, b⟩
  · simp [WellFormed] at h
  rcases b with _ | ⟨t, b⟩
  · simp [WellFormed] at h
  rcases b with _ | ⟨l1, b⟩
  · simp [WellFormed] at h
  rcases b with _ | ⟨l0, b⟩
  · simp [WellFormed] at h
  rcases b with _ | ⟨a1, b⟩
  · simp [WellFormed] at h
  rcases b with _ | ⟨a2, b⟩
  · simp [WellFormed] at h
  rcases b with _ | ⟨a3, b⟩
  · simp [WellFormed] at h
  rcases b with _ | ⟨a4, b⟩
  · simp [WellFormed] at h
  rcases b with _ | ⟨s1, b⟩
  · simp [WellFormed] at h
  rcases b with _ | ⟨s2, b⟩
  · simp [WellFormed] at h
  rcases b with _ | ⟨s3, b⟩
  · simp [WellFormed] at h
  rcases b with _ | ⟨spare, rest⟩
  · simp [WellFormed] at h
  simp only [WellFormed, Bool.and_eq_true, decide_eq_true_eq, List.all_eq_true] at h
  obtain ⟨⟨⟨⟨⟨⟨hoct, hflags⟩, htyp⟩, hspare⟩, h8⟩, hle⟩, hwf⟩ := h
  have hl1 : l1 < 256 := hoct l1 (by simp)
  have hl0 : l0 < 256 := hoct l0 (by simp)
  have ha1 : a1 < 256 := hoct a1 (by simp)
  have ha2 : a2 < 256 := hoct a2 (by simp)
  have ha3 : a3 < 256 := hoct a3 (by simp)
  have ha4 : a4 < 256 := hoct a4 (by simp)
  have hs1 : s1 < 256 := hoct s1 (by simp)
  have hs2 : s2 < 256 := hoct s2 (by simp)
  have hs3 : s3 < 256 := hoct s3 (by simp)
  have horest : ∀ o ∈ rest, o < 256 := fun o ho => hoct o (by simp [ho])
  obtain ⟨n, hn⟩ : ∃ n, wire.fromBE [l1, l0] = n + 8 := ⟨wire.fromBE [l1, l0] - 8, by omega⟩
  have hn8 : wire.fromBE [l1, l0] - 8 = n := by omega
  rw [hn8] at hwf
  obtain ⟨ies, hp, hs, _⟩ := parse_of_wellFormedIEs g _ (rest.take n)
    (fun o ho => horest o (List.mem_of_mem_take ho)) hwf
  have hbe2 := wire_toBE_fromBE_two l1 l0 hl1 hl0
  rw [hn] at hbe2
  subst hflags
  subst hspare
  subst htyp
  refine ⟨Message.mk 2 t (n + 8) (some (wire.fromBE [a1, a2, a3, a4]))
    (wire.fromBE [s1, s2, s3]) ies (rest.drop n), ?_, ?_, ?_⟩
  · have hlt : ¬ rest.length < n := by omega
    have hmin : n ⊓ rest.length = (List.take n rest).length := by
      rw [List.length_take]
    simp [Parse, hn, ParseMultiIEs, hlt]
    rw [hmin, hp]
  · rfl
  · simp only [Message.Serialize, Option.isSome_some, if_true, hbe2, hs,
      wire_toBE_fromBE_four a1 a2 a3 a4 ha1 ha2 ha3 ha4,
      wire_toBE_fromBE_three s1 s2 s3 hs1 hs2 hs3, List.cons_append, List.nil_append,
      List.append_assoc, List.take_append_drop, List.singleton_append]

theorem wellFormed_serialize (g : Nat → Bool) (typ teid seq : Nat) (ies : List IE)
    (htyp : typ < 256) (h : Supported g teid seq ies) :
    WellFormed g typ ((message.New g typ (some teid) seq ies).Serialize g) = true := by
  obtain ⟨_, _, hv, hlen⟩ := h
  have hwf := wellFormedIEs_serializeAll g ((IE.SerializeAll g ies).length + 1) ies hv
    (Nat.lt_succ_self _)
  have hoct := IE.serializeAll_octets g ies hv
  simp only [message.New, Message.Serialize, Option.isSome_some, if_true, wire.toBE_two,
    wire.toBE_three, wire.toBE_four, List.cons_append, List.nil_append, List.append_nil,
    List.singleton_append]
  generalize IE.SerializeAll g ies = S at hwf hoct hlen
  have hfrom : wire.fromBE [(8 + S.length) / 256 % 256, (8 + S.length) % 256] = 8 + S.length :=
    wire.fromBE_toBE_two _ hlen
  have htake : List.take (8 + S.length - 8) S = S :=
    List.take_of_length_le (by omega)
  simp only [WellFormed, hfrom, htake, hwf, Bool.and_eq_true, decide_eq_true_eq,
    List.all_eq_true, and_true]
  refine ⟨⟨?_, by omega⟩, by omega⟩
  intro o ho
  simp only [List.mem_cons] at ho
  rcases ho with h1 | h1 | h1 | h1 | h1 | h1 | h1 | h1 | h1 | h1 | h1 | h1 | h1
  · omega
  · omega
  · omega
  · omega
  · omega
  · omega
  · omega
  · omega
  · omega
  · omega
  · omega
  · omega
  · exact hoct o h1

end gtpv2

/-! ## The vectors of the GTPv2 tests -/

namespace gtpv2.message_test

set_option maxRecDepth 100000 in
theorem createBearer_serialize :
    createBearerStructured.Serialize ie.IsGrouped = createBearerSerialized := by
  decide

set_option maxRecDepth 100000 in
theorem createBearer_parse :
    message.ParseCreateBearerRequest ie.IsGrouped createBearerSerialized
      = .ok createBearerStructured := by
  rfl

set_option maxRecDepth 100000 in
theorem createBearer_wellFormed :
    WellFormed ie.IsGrouped message.MsgTypeCreateBearerRequest createBearerSerialized = true := by
  decide

set_option maxRecDepth 100000 in
theorem createBearer_supported :
    Supported ie.IsGrouped TestTEID TestSeq createBearerIEs :=
  ⟨by decide, by decide, by decide, by decide⟩

theorem modifyAccessBearers_supported :
    Supported ie.IsGrouped TestTEID TestSeq
      [ie.NewIndicationFromOctets [0xa1, 0x08, 0x15, 0x10, 0x88, 0x81, 0x40]] :=
  ⟨by decide, by decide, by decide, by decide⟩

theorem deleteBearer_supported :
    Supported ie.IsGrouped TestTEID TestSeq
      ([[ie.NewDelayValue 500, ie.NewDelayValue 100]].map (ie.NewBearerContext ie.IsGrouped)) :=
  ⟨by decide, by decide, by decide, by decide⟩

end gtpv2.message_test

/-! ## Round trips of the GTPv2 messages -/

namespace gtpv2

/-- C3: for every CreateBearerRequest `x` built by `NewCreateBearerRequest(teid, seq,
ies...)` from supported IEs (grouped ones with their nested children included),
`ParseCreateBearerRequest(serialize(x))` with its payload tail cleared equals `x`
field for field; for every well-formed octet string `b` of that type
`ParseCreateBearerRequest(b)` succeeds and serializes back to `b`, the
serialization of `x` being well-formed; and the
231-octet vector of the test, whose Bearer Context nests an EBI, a Bearer QoS and a
Bearer TFT with four packet filters and three parameters, is such a pair. -/
theorem createBearerRequest_roundtrip (g : Nat → Bool) (teid seq : Nat) (ies : List IE)
    (h : Supported g teid seq ies) :
    (message.ParseCreateBearerRequest g
        ((message.NewCreateBearerRequest g teid seq ies).Serialize g)).map Message.clearPayload
        = .ok (message.NewCreateBearerRequest g teid seq ies)
      ∧ (∀ b, WellFormed g message.MsgTypeCreateBearerRequest b = true →
          ∃ x, message.ParseCreateBearerRequest g b = .ok x
            ∧ x.Typ = message.MsgTypeCreateBearerRequest ∧ x.Serialize g = b)
      ∧ WellFormed g message.MsgTypeCreateBearerRequest
          ((message.NewCreateBearerRequest g teid seq ies).Serialize g) = true
      ∧ WellFormed ie.IsGrouped message.MsgTypeCreateBearerRequest
          message_test.createBearerSerialized = true
      ∧ message_test.createBearerStructured.Serialize ie.IsGrouped
          = message_test.createBearerSerialized
      ∧ message.ParseCreateBearerRequest ie.IsGrouped message_test.createBearerSerialized
          = .ok message_test.createBearerStructured
      ∧ message_test.createBearerSerialized.length = 231 := by
  refine ⟨?_, ?_, ?_, message_test.createBearer_wellFormed,
    message_test.createBearer_serialize, message_test.createBearer_parse, rfl⟩
  · rw [message.ParseCreateBearerRequest, message.NewCreateBearerRequest,
      parse_serialize_supported g _ teid seq ies h]
    rfl
  · intro b hb
    exact serialize_parse_wellFormed g _ b hb
  · exact wellFormed_serialize g _ teid seq ies (by decide) h

/-- Witness for C3: the message of `TestCreateBearerRequest`. -/
theorem createBearerRequest_roundtrip_witness :
    Supported ie.IsGrouped message_test.TestTEID message_test.TestSeq
        message_test.createBearerIEs
      ∧ (message.ParseCreateBearerRequest ie.IsGrouped
          (message_test.createBearerStructured.Serialize ie.IsGrouped)).map Message.clearPayload
          = .ok message_test.createBearerStructured :=
  ⟨message_test.createBearer_supported,
   (createBearerRequest_roundtrip ie.IsGrouped message_test.TestTEID message_test.TestSeq
      message_test.createBearerIEs message_test.createBearer_supported).1⟩

/-- C4: for every TEID, sequence number and list of supported IEs, the
ModifyAccessBearersRequest built by `NewModifyAccessBearersRequest(teid, seq, ies...)`
serializes to the 12-octet header (flags `0x48`, type `0xd3`, 2-octet big-endian
length, 4-octet big-endian TEID, 3-octet big-endian sequence number, one spare
octet `0x00`) followed by the IEs, and `ParseModifyAccessBearersRequest` of those
octets, payload tail cleared, returns the same message; with no IEs the output is
exactly those 12 octets with length 8; a well-formed octet string of that type
parses and serializes back to itself. Both cases of the test are instances. -/
theorem modifyAccessBearersRequest_roundtrip (g : Nat → Bool) (teid seq : Nat)
    (ies : List IE) (h : Supported g teid seq ies) :
    (message.NewModifyAccessBearersRequest g teid seq ies).Serialize g
        = [0x48, 0xd3] ++ wire.toBE 2 (8 + (IE.SerializeAll g ies).length) ++ wire.toBE 4 teid
            ++ wire.toBE 3 seq ++ [0x00] ++ IE.SerializeAll g ies
      ∧ ([0x48, 0xd3] ++ wire.toBE 2 (8 + (IE.SerializeAll g ies).length) ++ wire.toBE 4 teid
            ++ wire.toBE 3 seq ++ [0x00]).length = 12
      ∧ (message.ParseModifyAccessBearersRequest g
          ((message.NewModifyAccessBearersRequest g teid seq ies).Serialize g)).map
            Message.clearPayload
          = .ok (message.NewModifyAccessBearersRequest g teid seq ies)
      ∧ (message.NewModifyAccessBearersRequest g teid seq []).Serialize g
          = [0x48, 0xd3, 0x00, 0x08] ++ wire.toBE 4 teid ++ wire.toBE 3 seq ++ [0x00]
      ∧ ((message.NewModifyAccessBearersRequest g teid seq []).Serialize g).length = 12
      ∧ (message.ParseModifyAccessBearersRequest g
          ((message.NewModifyAccessBearersRequest g teid seq []).Serialize g)).map
            Message.clearPayload
          = .ok (message.NewModifyAccessBearersRequest g teid seq [])
      ∧ (∀ b, WellFormed g message.MsgTypeModifyAccessBearersRequest b = true →
          ∃ x, message.ParseModifyAccessBearersRequest g b = .ok x
            ∧ x.Typ = message.MsgTypeModifyAccessBearersRequest ∧ x.Serialize g = b)
      ∧ message_test.modifyAccessBearersNoIE.Serialize ie.IsGrouped
          = message_test.modifyAccessBearersNoIESerialized
      ∧ message_test.modifyAccessBearersWithIndication.Serialize ie.IsGrouped
          = message_test.modifyAccessBearersWithIndicationSerialized := by
  have hnil : Supported g teid seq [] :=
    ⟨h.1, h.2.1, rfl, by simp [IE.SerializeAll]⟩
  refine ⟨?_, ?_, ?_, ?_, ?_, ?_, fun b hb => serialize_parse_wellFormed g _ b hb,
    by decide, by decide⟩
  · exact serialize_new_some g _ teid seq ies
  · simp [wire.toBE_length]
  · rw [message.ParseModifyAccessBearersRequest, message.NewModifyAccessBearersRequest,
      parse_serialize_supported g _ teid seq ies h]
    rfl
  · rw [message.NewModifyAccessBearersRequest, serialize_new_some]
    simp [IE.SerializeAll, wire.toBE_two, message.MsgTypeModifyAccessBearersRequest]
  · rw [message.NewModifyAccessBearersRequest, serialize_new_length]
    simp [message.New, IE.SerializeAll]
  · rw [message.ParseModifyAccessBearersRequest, message.NewModifyAccessBearersRequest,
      parse_serialize_supported g _ teid seq [] hnil]
    rfl

/-- Witness for C4: the message of the test case "Normal/WithIndication". -/
theorem modifyAccessBearersRequest_roundtrip_witness :
    Supported ie.IsGrouped message_test.TestTEID message_test.TestSeq
        [ie.NewIndicationFromOctets [0xa1, 0x08, 0x15, 0x10, 0x88, 0x81, 0x40]]
      ∧ (message.ParseModifyAccessBearersRequest ie.IsGrouped
          (message_test.modifyAccessBearersWithIndication.Serialize ie.IsGrouped)).map
            Message.clearPayload
          = .ok message_test.modifyAccessBearersWithIndication :=
  ⟨message_test.modifyAccessBearers_supported,
   (modifyAccessBearersRequest_roundtrip ie.IsGrouped message_test.TestTEID
      message_test.TestSeq _ message_test.modifyAccessBearers_supported).2.2.1⟩

/-- C5: for every DeleteBearerCommand built by `NewDeleteBearerCommand(teid, seq,
bearerContexts...)`, each Bearer Context built from a list of children, serializing
and then `ParseDeleteBearerCommand`, payload tail cleared, returns the same message,
so the parsed Bearer Contexts hold their children in the order and with the values
given, also when several children have the same IE type; a well-formed octet string
of that type parses and serializes back to itself; in the test the two Delay Values
of 500 ms and 100 ms are encoded as `0x0a` and `0x02` and come back in that order. -/
theorem deleteBearerCommand_roundtrip (g : Nat → Bool) (teid seq : Nat)
    (contexts : List (List IE))
    (h : Supported g teid seq (contexts.map (ie.NewBearerContext g))) :
    (message.ParseDeleteBearerCommand g
        ((message.NewDeleteBearerCommand g teid seq
          (contexts.map (ie.NewBearerContext g))).Serialize g)).map Message.clearPayload
        = .ok (message.NewDeleteBearerCommand g teid seq (contexts.map (ie.NewBearerContext g)))
      ∧ (∃ x, message.ParseDeleteBearerCommand g
            ((message.NewDeleteBearerCommand g teid seq
              (contexts.map (ie.NewBearerContext g))).Serialize g) = .ok x
          ∧ x.IEs.map IE.ChildIEs = contexts)
      ∧ (∀ b, WellFormed g message.MsgTypeDeleteBearerCommand b = true →
          ∃ x, message.ParseDeleteBearerCommand g b = .ok x
            ∧ x.Typ = message.MsgTypeDeleteBearerCommand ∧ x.Serialize g = b)
      ∧ WellFormed g message.MsgTypeDeleteBearerCommand
          ((message.NewDeleteBearerCommand g teid seq
            (contexts.map (ie.NewBearerContext g))).Serialize g) = true
      ∧ message_test.deleteBearerStructured.Serialize ie.IsGrouped
          = message_test.deleteBearerSerialized
      ∧ (∃ x, message.ParseDeleteBearerCommand ie.IsGrouped message_test.deleteBearerSerialized
            = .ok x
          ∧ x.IEs.map (fun c => c.ChildIEs.map (fun d => (d.Typ, d.Payload)))
              = [[(ie.DelayValue, [0x0a]), (ie.DelayValue, [0x02])]]) := by
  have hp := parse_serialize_supported g message.MsgTypeDeleteBearerCommand teid seq _ h
  refine ⟨?_, ?_, ?_, ?_, by decide, ?_⟩
  · rw [message.ParseDeleteBearerCommand, message.NewDeleteBearerCommand, hp]
    rfl
  · refine ⟨_, hp, ?_⟩
    simp only [message.New, List.map_map]
    have : (IE.ChildIEs ∘ ie.NewBearerContext g) = id := by
      funext ch
      rfl
    rw [this, List.map_id]
  · intro b hb
    exact serialize_parse_wellFormed g _ b hb
  · exact wellFormed_serialize g _ teid seq _ (by decide) h
  · exact ⟨message_test.deleteBearerStructured, rfl, rfl⟩

/-- Witness for C5: the message of `TestDeleteBearerCommand`, one Bearer Context with
two Delay Values. -/
theorem deleteBearerCommand_roundtrip_witness :
    Supported ie.IsGrouped message_test.TestTEID message_test.TestSeq
        ([[ie.NewDelayValue 500, ie.NewDelayValue 100]].map (ie.NewBearerContext ie.IsGrouped))
      ∧ (message.ParseDeleteBearerCommand ie.IsGrouped
          (message_test.deleteBearerStructured.Serialize ie.IsGrouped)).map Message.clearPayload
          = .ok message_test.deleteBearerStructured :=
  ⟨message_test.deleteBearer_supported,
   (deleteBearerCommand_roundtrip ie.IsGrouped message_test.TestTEID message_test.TestSeq
      [[ie.NewDelayValue 500, ie.NewDelayValue 100]] message_test.deleteBearer_supported).1⟩

set_option maxRecDepth 100000 in
/-- C8: for every GTPv2 IE satisfying the invariant of the data model, the
serialized size is 4 plus the value of its 2-octet length field, and for every
grouped IE the length field equals the sum of the serialized sizes of its
children; a grouped IE built from valid children whose serializations fit the
length field satisfies the invariant. In the test vectors the Bearer Context
lengths are `0xd2 = 5 + 26 + 179` and `0x0a = 5 + 5`. -/
theorem ie_length_invariant (g : Nat → Bool) (x : IE) (h : IE.valid g x = true) :
    x.MarshalLen g = 4 + wire.ieLengthField (x.Serialize g)
      ∧ wire.ieLengthField (x.Serialize g) = x.Length
      ∧ (g x.Typ = true →
          wire.ieLengthField (x.Serialize g) = (x.ChildIEs.map (fun c => c.MarshalLen g)).sum)
      ∧ (∀ typ inst children, typ < 256 → inst < 16 → g typ = true →
          IE.validAll g children = true → (IE.SerializeAll g children).length < 65536 →
          IE.valid g (ie.NewGrouped g typ inst children) = true
            ∧ wire.ieLengthField ((ie.NewGrouped g typ inst children).Serialize g)
                = (children.map (fun c => c.MarshalLen g)).sum)
      ∧ wire.ieLengthField (message_test.createBearerContext.Serialize ie.IsGrouped) = 0xd2
      ∧ message_test.createBearerContext.ChildIEs.map (fun c => c.MarshalLen ie.IsGrouped)
          = [5, 26, 179]
      ∧ wire.ieLengthField (message_test.deleteBearerContext.Serialize ie.IsGrouped) = 0x0a
      ∧ message_test.deleteBearerContext.ChildIEs.map (fun c => c.MarshalLen ie.IsGrouped)
          = [5, 5] := by
  have hm := IE.marshalLen_of_valid g x h
  have hgrp : ∀ y : IE, IE.valid g y = true → g y.Typ = true →
      y.Length = (y.ChildIEs.map (fun c => c.MarshalLen g)).sum := by
    intro y hy hgy
    cases y with
    | mk t l i p ch =>
      simp only [IE.Typ] at hgy
      simp only [IE.valid, Bool.and_eq_true, decide_eq_true_eq, hgy, if_true] at hy
      obtain ⟨⟨⟨⟨⟨_, _⟩, _⟩, hpl⟩, _⟩, _, hpc⟩ := hy
      simp only [IE.Length, IE.ChildIEs]
      rw [hpl, hpc, IE.serializeAll_length]
  refine ⟨?_, hm.2, ?_, ?_, by decide, by decide, by decide, by decide⟩
  · rw [hm.2]; exact hm.1
  · intro hg
    rw [hm.2]
    exact hgrp x h hg
  · intro typ inst children htyp hinst hgt hch hlen
    have hv := ie.valid_NewGrouped g typ inst children htyp hinst hch hlen hgt
    refine ⟨hv, ?_⟩
    rw [(IE.marshalLen_of_valid g _ hv).2]
    exact hgrp _ hv hgt

set_option maxRecDepth 100000 in
/-- Witness for C8: the Bearer Context of `TestCreateBearerRequest`. -/
theorem ie_length_invariant_witness :
    IE.valid ie.IsGrouped message_test.createBearerContext = true
      ∧ message_test.createBearerContext.MarshalLen ie.IsGrouped
          = 4 + wire.ieLengthField (message_test.createBearerContext.Serialize ie.IsGrouped)
      ∧ message_test.createBearerContext.MarshalLen ie.IsGrouped = 214 :=
  ⟨by decide, (ie_length_invariant ie.IsGrouped message_test.createBearerContext (by decide)).1,
    by decide⟩

end gtpv2

/-! ## GTPv0 -/

namespace wire

theorem toBE_eight (n : Nat) :
    toBE 8 n = [n / 72057594037927936 % 256, n / 281474976710656 % 256,
      n / 1099511627776 % 256, n / 4294967296 % 256, n / 16777216 % 256, n / 65536 % 256,
      n / 256 % 256, n % 256] := by
  simp [toBE]

theorem fromBE_toBE_eight (n : Nat) (h : n < 2 ^ 64) :
    fromBE [n / 72057594037927936 % 256, n / 281474976710656 % 256,
      n / 1099511627776 % 256, n / 4294967296 % 256, n / 16777216 % 256, n / 65536 % 256,
      n / 256 % 256, n % 256] = n := by
  simp [fromBE]; omega

end wire

namespace gtpv0

theorem v0_parse_serialize_new (typ seq label tid : Nat) (ies : List Nat)
    (hseq : seq < 2 ^ 16) (hlabel : label < 2 ^ 16) (htid : tid < 2 ^ 64)
    (hlen : ies.length < 65536) :
    Parse ((message.New typ seq label tid ies).Serialize)
      = .ok (message.New typ seq label tid ies) := by
  have hfrom : wire.fromBE [ies.length / 256 % 256, ies.length % 256] = ies.length :=
    wire.fromBE_toBE_two _ hlen
  simp only [message.New, Message.Serialize, wire.toBE_two, wire.toBE_eight, List.append_nil,
    List.cons_append, List.nil_append, List.singleton_append, Parse, hfrom]
  simp [wire.fromBE_toBE_two seq hseq, wire.fromBE_toBE_two label hlabel,
    wire.fromBE_toBE_eight tid htid]
  have h255 : wire.fromBE [255] = 255 := by decide
  rw [h255, if_neg (by omega)]

theorem v0_serialize_new_length (typ seq label tid : Nat) (ies : List Nat) :
    ((message.New typ seq label tid ies).Serialize).length = 20 + ies.length := by
  simp [message.New, Message.Serialize, wire.toBE_length]
  omega

theorem v0_lengthField_new (typ seq label tid : Nat) (ies : List Nat) (hlen : ies.length < 65536) :
    wire.lengthField ((message.New typ seq label tid ies).Serialize) = ies.length := by
  simp only [message.New, Message.Serialize, wire.lengthField, wire.toBE_two, List.cons_append,
    List.drop_succ_cons, List.drop_zero, List.take_succ_cons, List.take_zero]
  exact wire.fromBE_toBE_two _ hlen

/-- C6: for every 16-bit sequence number, 16-bit flow label and 64-bit TID, the
GTPv0 EchoRequest built by `NewEchoRequest(seq, label, tid)` serializes to exactly
the 20-octet fixed header (flags `0x1e`, type `0x01`, 2-octet length equal to 0,
2-octet big-endian sequence number, 2-octet flow label, SNDCP N-PDU octet `0xff`,
three spare octets `0xff`, 8-octet TID), and `ParseEchoRequest` of those octets,
payload tail cleared, returns the same message; the vector of the test is an
instance. -/
theorem echoRequest_v0_roundtrip (seq label tid : Nat)
    (hseq : seq < 2 ^ 16) (hlabel : label < 2 ^ 16) (htid : tid < 2 ^ 64) :
    (message.NewEchoRequest seq label tid).Serialize
        = [0x1e, 0x01, 0x00, 0x00] ++ wire.toBE 2 seq ++ wire.toBE 2 label
            ++ [0xff, 0xff, 0xff, 0xff] ++ wire.toBE 8 tid
      ∧ ((message.NewEchoRequest seq label tid).Serialize).length = 20
      ∧ (message.ParseEchoRequest ((message.NewEchoRequest seq label tid).Serialize)).map
            Message.clearPayload
          = .ok (message.NewEchoRequest seq label tid)
      ∧ message_test.echoRequestStructured.Serialize = message_test.echoRequestSerialized
      ∧ message.ParseEchoRequest message_test.echoRequestSerialized
          = .ok message_test.echoRequestStructured := by
  refine ⟨?_, ?_, ?_, by decide, by rfl⟩
  · simp [message.NewEchoRequest, message.New, Message.Serialize, wire.toBE_two,
      message.MsgTypeEchoRequest]
  · rw [message.NewEchoRequest, v0_serialize_new_length]
    rfl
  · rw [message.ParseEchoRequest, message.NewEchoRequest,
      v0_parse_serialize_new _ seq label tid [] hseq hlabel htid (by simp)]
    rfl

/-- Witness for C6: the values of `TestEchoRequest`. -/
theorem echoRequest_v0_roundtrip_witness :
    message_test.TestSeq < 2 ^ 16 ∧ message_test.TestLabel < 2 ^ 16
      ∧ message_test.TestTID < 2 ^ 64
      ∧ (message.ParseEchoRequest message_test.echoRequestStructured.Serialize).map
            Message.clearPayload
          = .ok message_test.echoRequestStructured :=
  ⟨by decide, by decide, by decide,
   (echoRequest_v0_roundtrip message_test.TestSeq message_test.TestLabel message_test.TestTID
      (by decide) (by decide) (by decide)).2.2.1⟩

end gtpv0

/-! ## The length field -/

namespace wire

/-- C7, the claim refuted: the GTPv0 EchoRequest of the test serializes to 20
octets whose length field is 0, not the 16 octets that follow the length field. -/
theorem length_field_v0_counterexample :
    ¬ (∀ (seq label tid : Nat), seq < 2 ^ 16 → label < 2 ^ 16 → tid < 2 ^ 64 →
        lengthField (gtpv0.message.NewEchoRequest seq label tid).Serialize
          = (gtpv0.message.NewEchoRequest seq label tid).Serialize.length - 4) := by
  intro h
  have h0 := h gtpv0.message_test.TestSeq gtpv0.message_test.TestLabel
    gtpv0.message_test.TestTID (by decide) (by decide) (by decide)
  exact absurd h0 (by decide)

set_option maxRecDepth 100000 in
/-- C7 as amended: for every version 2 message the codec serializes, the length
field equals the total size minus 4 (the octets that follow the length field
itself); for every version 0 message it equals the total size minus the 20-octet
header. The vectors of the version 2 tests (lengths `0xe3`, `0x08`, `0x13`, `0x16`)
are instances of the first rule and the vector of the version 0 test (length 0) is
an instance of the second. -/
theorem length_field_per_version (g : Nat → Bool) (typ : Nat) (teid : Option Nat)
    (seq : Nat) (ies : List gtpv2.IE) (typ0 seq0 label0 tid0 : Nat) (ies0 : List Nat)
    (h2 : (if teid.isSome then 8 else 4) + (gtpv2.IE.SerializeAll g ies).length < 65536)
    (h0 : ies0.length < 65536) :
    lengthField ((gtpv2.message.New g typ teid seq ies).Serialize g)
        = ((gtpv2.message.New g typ teid seq ies).Serialize g).length - 4
      ∧ lengthField (gtpv0.message.New typ0 seq0 label0 tid0 ies0).Serialize
          = (gtpv0.message.New typ0 seq0 label0 tid0 ies0).Serialize.length - 20
      ∧ lengthField gtpv2.message_test.createBearerSerialized = 0xe3
      ∧ gtpv2.message_test.createBearerSerialized.length - 4 = 0xe3
      ∧ lengthField gtpv2.message_test.modifyAccessBearersNoIESerialized = 0x08
      ∧ gtpv2.message_test.modifyAccessBearersNoIESerialized.length - 4 = 0x08
      ∧ lengthField gtpv2.message_test.modifyAccessBearersWithIndicationSerialized = 0x13
      ∧ gtpv2.message_test.modifyAccessBearersWithIndicationSerialized.length - 4 = 0x13
      ∧ lengthField gtpv2.message_test.deleteBearerSerialized = 0x16
      ∧ gtpv2.message_test.deleteBearerSerialized.length - 4 = 0x16
      ∧ lengthField gtpv0.message_test.echoRequestSerialized = 0
      ∧ gtpv0.message_test.echoRequestSerialized.length - 20 = 0 := by
  refine ⟨?_, ?_, by decide, by decide, by decide, by decide, by decide, by decide,
    by decide, by decide, by decide, by decide⟩
  · rw [gtpv2.lengthField_new g typ teid seq ies h2, gtpv2.serialize_new_length]
    omega
  · rw [gtpv0.v0_lengthField_new _ _ _ _ _ h0, gtpv0.v0_serialize_new_length]
    omega

set_option maxRecDepth 100000 in
/-- Witness for C7 as amended: the messages of `TestCreateBearerRequest` (version 2)
and `TestEchoRequest` (version 0). -/
theorem length_field_per_version_witness :
    lengthField ((gtpv2.message.New gtpv2.ie.IsGrouped
          gtpv2.message.MsgTypeCreateBearerRequest (some gtpv2.message_test.TestTEID)
          gtpv2.message_test.TestSeq gtpv2.message_test.createBearerIEs).Serialize
          gtpv2.ie.IsGrouped)
        = ((gtpv2.message.New gtpv2.ie.IsGrouped
          gtpv2.message.MsgTypeCreateBearerRequest (some gtpv2.message_test.TestTEID)
          gtpv2.message_test.TestSeq gtpv2.message_test.createBearerIEs).Serialize
          gtpv2.ie.IsGrouped).length - 4
      ∧ lengthField (gtpv0.message.New gtpv0.message.MsgTypeEchoRequest
          gtpv0.message_test.TestSeq gtpv0.message_test.TestLabel
          gtpv0.message_test.TestTID []).Serialize
        = (gtpv0.message.New gtpv0.message.MsgTypeEchoRequest
          gtpv0.message_test.TestSeq gtpv0.message_test.TestLabel
          gtpv0.message_test.TestTID []).Serialize.length - 20 :=
  ⟨(length_field_per_version gtpv2.ie.IsGrouped gtpv2.message.MsgTypeCreateBearerRequest
      (some gtpv2.message_test.TestTEID) gtpv2.message_test.TestSeq
      gtpv2.message_test.createBearerIEs gtpv0.message.MsgTypeEchoRequest
      gtpv0.message_test.TestSeq gtpv0.message_test.TestLabel gtpv0.message_test.TestTID []
      (by decide) (by decide)).1,
   (length_field_per_version gtpv2.ie.IsGrouped gtpv2.message.MsgTypeCreateBearerRequest
      (some gtpv2.message_test.TestTEID) gtpv2.message_test.TestSeq
      gtpv2.message_test.createBearerIEs gtpv0.message.MsgTypeEchoRequest
      gtpv0.message_test.TestSeq gtpv0.message_test.TestLabel gtpv0.message_test.TestTID []
      (by decide) (by decide)).2.1⟩

end wire

/-! ## GTPv1: the handler map and the default handlers, continued -/

namespace gtpv1

/-- C11: for every handler map `m`, message types `t` and `u` and handler `h`: after
`m.store(t, h)`, `m.load(t)` returns `(h, true)`, whatever was stored for `t` before
(a handler stored over a default one is the one loaded, and of two handlers stored
for `t` the later one), while `m.load(u)` for every `u` different from `t` returns
what it returned before the store. -/
theorem store_then_load {σ : Type} (m : msgHandlerMap σ) (t u : Nat) (h h0 : HandlerFunc σ) :
    (m.store t h).load t = some h
      ∧ ((m.store t h0).store t h).load t = some h
      ∧ ((newDefaultMsgHandlerMap σ).store message.MsgTypeEchoRequest h).load
          message.MsgTypeEchoRequest = some h
      ∧ (u ≠ t → (m.store t h).load u = m.load u) := by
  refine ⟨?_, ?_, ?_, ?_⟩
  · simp [msgHandlerMap.store, msgHandlerMap.load]
  · simp [msgHandlerMap.store, msgHandlerMap.load]
  · simp [msgHandlerMap.store, msgHandlerMap.load]
  · intro hne
    have hne2 : (t == u) = false := by simpa using fun e : t = u => hne e.symm
    simp [msgHandlerMap.store, msgHandlerMap.load, List.find?, hne2]

/-- Witness for C11: `handleEchoResponse` stored for EchoRequest over the default
map; EchoResponse still loads its default handler. -/
theorem store_then_load_witness :
    ((newDefaultMsgHandlerMap Unit).store message.MsgTypeEchoRequest handleEchoResponse).load
        message.MsgTypeEchoRequest = some handleEchoResponse
      ∧ ((newDefaultMsgHandlerMap Unit).store message.MsgTypeEchoRequest handleEchoResponse).load
          message.MsgTypeEchoResponse
          = (newDefaultMsgHandlerMap Unit).load message.MsgTypeEchoResponse :=
  ⟨(store_then_load (newDefaultMsgHandlerMap Unit) message.MsgTypeEchoRequest
      message.MsgTypeEchoResponse handleEchoResponse handleEchoRequest).1,
   (store_then_load (newDefaultMsgHandlerMap Unit) message.MsgTypeEchoRequest
      message.MsgTypeEchoResponse handleEchoResponse handleEchoRequest).2.2.2 (by decide)⟩

/-- C12: for every ErrorIndication that carries a TEID Data I IE and a GTP-U peer
address IE, over any implementation of `Conn`, `handleErrorIndication` returns nil
and leaves the state of the connection as it was; on the instrumented connection
the log of method invocations does not grow, so there is no `RespondTo`, no
`RemoveSession` and no `RegisterSession`, and on the connection modelled from the
spec the session store is the same afterwards. -/
theorem handleErrorIndication_only_logs {σ : Type} (c : Conn σ) (senderAddr : Addr)
    (hdr : Header) (teid peer : IE) (ies : List IE) (s : σ) (log : List ConnCall)
    (st : ConnState) :
    handleErrorIndication c senderAddr (.ErrorIndication hdr (some teid) (some peer) ies) s
        = (none, s)
      ∧ handleErrorIndication c.traced senderAddr
          (.ErrorIndication hdr (some teid) (some peer) ies) (s, log) = (none, (s, log))
      ∧ (handleErrorIndication c.traced senderAddr
          (.ErrorIndication hdr (some teid) (some peer) ies) (s, [])).2.2 = []
      ∧ (handleErrorIndication specConn senderAddr
          (.ErrorIndication hdr (some teid) (some peer) ies) st).2.sessions = st.sessions :=
  ⟨rfl, rfl, rfl, rfl⟩

/-- C20: each default handler checks the concrete type of the message first. Over
any implementation of `Conn`, for every message that is not an EchoRequest
(respectively not an EchoResponse, not an ErrorIndication), `handleEchoRequest`
(respectively `handleEchoResponse`, `handleErrorIndication`) returns
`ErrUnexpectedType` and leaves the state as it was, the log of method invocations of
the instrumented connection included, so no `RespondTo` is made; and for every
EchoResponse `handleEchoResponse` returns nil with the state and the log as they
were. -/
theorem default_handlers_check_type {σ : Type} (c : Conn σ) (senderAddr : Addr)
    (msg : Message) (s : σ) (log : List ConnCall) :
    (msg.isEchoRequest = false →
        handleEchoRequest c senderAddr msg s = (some .ErrUnexpectedType, s)
          ∧ handleEchoRequest c.traced senderAddr msg (s, log)
              = (some .ErrUnexpectedType, (s, log)))
      ∧ (msg.isEchoResponse = false →
          handleEchoResponse c senderAddr msg s = (some .ErrUnexpectedType, s)
            ∧ handleEchoResponse c.traced senderAddr msg (s, log)
                = (some .ErrUnexpectedType, (s, log)))
      ∧ (msg.isErrorIndication = false →
          handleErrorIndication c senderAddr msg s = (some .ErrUnexpectedType, s)
            ∧ handleErrorIndication c.traced senderAddr msg (s, log)
                = (some .ErrUnexpectedType, (s, log)))
      ∧ (msg.isEchoResponse = true →
          handleEchoResponse c senderAddr msg s = (none, s)
            ∧ handleEchoResponse c.traced senderAddr msg (s, log) = (none, (s, log))) := by
  refine ⟨?_, ?_, ?_, ?_⟩ <;> intro h <;> cases msg <;>
    first
      | exact ⟨rfl, rfl⟩
      | simp [Message.isEchoRequest, Message.isEchoResponse, Message.isErrorIndication] at h

/-- Witness for C20: an EchoResponse handed to `handleEchoRequest` on the connection
modelled from the spec. -/
theorem default_handlers_check_type_witness :
    (Message.EchoResponse ⟨2, 0, 7⟩ []).isEchoRequest = false
      ∧ handleEchoRequest specConn "10.0.0.1:2123" (Message.EchoResponse ⟨2, 0, 7⟩ [])
          { restartCounter := 3, sessions := [], sent := [], writeErr := none }
          = (some .ErrUnexpectedType,
             { restartCounter := 3, sessions := [], sent := [], writeErr := none }) :=
  ⟨rfl,
   ((default_handlers_check_type specConn "10.0.0.1:2123" (Message.EchoResponse ⟨2, 0, 7⟩ [])
      { restartCounter := 3, sessions := [], sent := [], writeErr := none } []).1 rfl).1⟩

end gtpv1

/-! ## Error texts -/

namespace gtpv1

theorem hexVal_hexDigit (n : Nat) (h : n < 16) : hexVal (hexDigit n) = n := by
  interval_cases n <;> decide

theorem hex8_injective (a b : Nat) (ha : a < 2 ^ 32) (hb : b < 2 ^ 32)
    (h : hex8 a = hex8 b) : a = b := by
  simp only [hex8, List.cons.injEq, and_true] at h
  obtain ⟨h7, h6, h5, h4, h3, h2, h1, h0⟩ := h
  have e7 := congrArg hexVal h7
  have e6 := congrArg hexVal h6
  have e5 := congrArg hexVal h5
  have e4 := congrArg hexVal h4
  have e3 := congrArg hexVal h3
  have e2 := congrArg hexVal h2
  have e1 := congrArg hexVal h1
  have e0 := congrArg hexVal h0
  rw [hexVal_hexDigit _ (Nat.mod_lt _ (by decide)),
    hexVal_hexDigit _ (Nat.mod_lt _ (by decide))] at e7 e6 e5 e4 e3 e2 e1 e0
  norm_num at e7 e6 e5 e4 e3 e2 e1 e0
  omega

/-- C18: for every 32-bit TEID `t`, `InvalidTEIDError{TEID: t}.Error()` is the text
`got invalid TEID: ` followed by `0x` and `t` in lower-case hexadecimal on eight
digits, zero-padded (`0x00000001` for `t = 1`, `0xdeadbeef` for that value), and two
different TEIDs never produce the same message. -/
theorem invalidTEIDError_text (t u : Nat) (ht : t < 2 ^ 32) (hu : u < 2 ^ 32) :
    InvalidTEIDError.Error t = "got invalid TEID: 0x" ++ String.mk (hex8 t)
      ∧ (hex8 t).length = 8
      ∧ (∀ c ∈ hex8 t, c ∈ "0123456789abcdef".data)
      ∧ InvalidTEIDError.Error 1 = "got invalid TEID: 0x00000001"
      ∧ InvalidTEIDError.Error 0xdeadbeef = "got invalid TEID: 0xdeadbeef"
      ∧ (t ≠ u → InvalidTEIDError.Error t ≠ InvalidTEIDError.Error u) := by
  refine ⟨?_, rfl, ?_, by decide, by decide, ?_⟩
  · simp only [InvalidTEIDError.Error, ← String.append_assoc]
    rfl
  · have hd : ∀ n, n < 16 → hexDigit n ∈ "0123456789abcdef".data := by
      intro n hn
      interval_cases n <;> decide
    intro c hc
    simp only [hex8, List.mem_cons, List.mem_singleton, List.not_mem_nil, or_false] at hc
    rcases hc with h | h | h | h | h | h | h | h <;> rw [h] <;>
      exact hd _ (Nat.mod_lt _ (by decide))
  · intro hne heq
    apply hne
    apply hex8_injective t u ht hu
    have h1 := congrArg String.data heq
    simp only [InvalidTEIDError.Error, String.data_append, List.append_cancel_left_eq] at h1
    exact h1

/-- Witness for C18: the TEIDs `1` and `0x11223344`. -/
theorem invalidTEIDError_text_witness :
    (1 : Nat) < 2 ^ 32 ∧ (0x11223344 : Nat) < 2 ^ 32
      ∧ InvalidTEIDError.Error 1 = "got invalid TEID: 0x" ++ String.mk (hex8 1)
      ∧ InvalidTEIDError.Error 1 ≠ InvalidTEIDError.Error 0x11223344 :=
  ⟨by decide, by decide,
   (invalidTEIDError_text 1 0x11223344 (by decide) (by decide)).1,
   (invalidTEIDError_text 1 0x11223344 (by decide) (by decide)).2.2.2.2.2 (by decide)⟩

end gtpv1

/-! ## The address pool of the P-GW -/

namespace gwtester.pool

theorem pgw.modify_heap (p : pgw) (a : Nat) (f : list → list) (n : list)
    (h : p.heap[a]? = some n) :
    p.modify a f = some { p with heap := p.heap.set a (f n) } := by
  simp [pgw.modify, h]

/-- C19: `rem_active` reads from `p.inactive` instead of `p.active`. For every pool
whose inactive list has at least two entries (a head node at `a` whose successor is
another node at `b`), whatever the active list holds, `rem_active` returns the head
node `a` of the inactive list with its links cleared, sets `p.active` to the
successor `b`, whose `prevList` becomes nil and whose `last` becomes the head's, and
leaves `p.inactive` pointing to `a`; the head of the active list is not the node
returned. -/
theorem rem_active_reads_inactive (p : pgw) (a b : Nat) (na nb : list)
    (hin : p.inactive = some a) (ha : p.heap[a]? = some na)
    (hnext : na.nextList = some b) (hab : b ≠ a) (hb : p.heap[b]? = some nb) :
    ∃ q, rem_active p = some (some a, q)
      ∧ q.active = some b
      ∧ q.active ≠ some a
      ∧ q.inactive = some a
      ∧ q.heap[a]? = some ⟨na.ip, none, none, none⟩
      ∧ q.heap[b]? = some ⟨nb.ip, none, nb.nextList, na.last⟩
      ∧ q.heap.length = p.heap.length := by
  have hlb : b < p.heap.length := (List.getElem?_eq_some_iff.mp hb).1
  have hla : a < p.heap.length := (List.getElem?_eq_some_iff.mp ha).1
  have hba : ¬ a = b := fun e => hab e.symm
  have hna : p.heap[a] = na := (List.getElem?_eq_some_iff.mp ha).2
  simp [rem_active, hin, pgw.get, ha, hnext, pgw.modify, hb, List.getElem?_set, hab, hba,
    hlb, hla]
  exact ⟨by rw [hna], by rw [hna]⟩

/-- Witness for C19: the pool after `add_inactive` of two addresses and `add_active`
of a third; `rem_active` returns the first inactive node, not the active one. -/
theorem rem_active_reads_inactive_witness :
    ∃ p, ((add_inactive emptyPool "10.0.0.1").bind fun p1 =>
            (add_inactive p1 "10.0.0.2").bind fun p2 => add_active p2 "10.0.0.9") = some p
      ∧ p.inactive = some 0 ∧ p.active = some 2
      ∧ ∃ q, rem_active p = some (some 0, q) ∧ q.active = some 1 :=
  ⟨⟨[⟨"10.0.0.1", none, some 1, some 1⟩, ⟨"10.0.0.2", some 0, none, none⟩,
      ⟨"10.0.0.9", none, none, some 2⟩], some 0, some 2⟩, by decide, rfl, rfl,
    (rem_active_reads_inactive
      ⟨[⟨"10.0.0.1", none, some 1, some 1⟩, ⟨"10.0.0.2", some 0, none, none⟩,
        ⟨"10.0.0.9", none, none, some 2⟩], some 0, some 2⟩ 0 1
      ⟨"10.0.0.1", none, some 1, some 1⟩ ⟨"10.0.0.2", some 0, none, none⟩
      rfl rfl rfl (by decide) rfl).imp fun _ h => ⟨h.1, h.2.1⟩⟩

end gwtester.pool

/-! ## gw-tester: running a handler body -/

namespace gwtester

open gtpv1

theorem Body.run_pure {ω α : Type} (a : α) (s : ω) :
    Body.run (pure a : Body ω α) s = (.next a, s) := rfl

theorem Body.run_ret {ω α : Type} (e : Option GtpError) (s : ω) :
    Body.run (Body.ret e : Body ω α) s = (.ret e, s) := rfl

theorem Body.run_panic {ω α : Type} (s : ω) :
    Body.run (Body.panic : Body ω α) s = (.panic, s) := rfl

theorem Body.run_bind {ω α β : Type} (x : Body ω α) (f : α → Body ω β) (s : ω) :
    Body.run (x >>= f) s = match Body.run x s with
      | (.next a, s1) => Body.run (f a) s1
      | (.ret e, s1) => (.ret e, s1)
      | (.panic, s1) => (.panic, s1)
      | (.blocked, s1) => (.blocked, s1) := rfl

theorem Body.run_bind_pure {ω α β : Type} (a : α) (f : α → Body ω β) (s : ω) :
    Body.run (pure a >>= f) s = Body.run (f a) s := rfl

theorem Body.run_bind_ret {ω α β : Type} (e : Option GtpError) (f : α → Body ω β) (s : ω) :
    Body.run ((Body.ret e : Body ω α) >>= f) s = (.ret e, s) := rfl

theorem Body.run_bind_panic {ω α β : Type} (f : α → Body ω β) (s : ω) :
    Body.run ((Body.panic : Body ω α) >>= f) s = (.panic, s) := rfl

theorem Body.run_bind_call {σ ρ α β : Type} (g : σ → α × σ) (f : α → Body (σ × ρ) β)
    (s : σ × ρ) :
    Body.run (Body.call g >>= f) s = Body.run (f (g s.1).1) ((g s.1).2, s.2) := rfl

theorem Body.run_bind_exec {σ ρ β : Type} (g : σ → σ) (f : Unit → Body (σ × ρ) β)
    (s : σ × ρ) :
    Body.run (Body.exec g >>= f) s = Body.run (f ()) (g s.1, s.2) := rfl

theorem Body.run_bind_update {σ ρ β : Type} (g : ρ → ρ) (f : Unit → Body (σ × ρ) β)
    (s : σ × ρ) :
    Body.run (Body.update g >>= f) s = Body.run (f ()) (s.1, g s.2) := rfl

theorem Body.run_bind_send {σ ρ β : Type} (cap : Nat) (held : ρ → Nat) (put : Nat → ρ → ρ)
    (f : Unit → Body (σ × ρ) β) (s : σ × ρ) :
    Body.run (Body.send cap held put >>= f) s
      = if held s.2 < cap then Body.run (f ()) (s.1, put (held s.2 + 1) s.2)
        else (.blocked, s) := by
  show Body.bind (Body.send cap held put) f s = _
  unfold Body.bind Body.send
  by_cases h : held s.2 < cap
  · simp only [h, if_true]; rfl
  · simp only [h, if_false]

theorem Body.run_bind_check {ω β : Type} (err : Option GtpError) (f : Unit → Body ω β)
    (s : ω) :
    Body.run (Body.check err >>= f) s = match err with
      | some e => (.ret (some e), s)
      | none => Body.run (f ()) s := by
  cases err <;> rfl

theorem Body.run_bind_orPanic {ω α β : Type} (x : Option α) (f : α → Body ω β) (s : ω) :
    Body.run (Body.orPanic x >>= f) s = match x with
      | some a => Body.run (f a) s
      | none => (.panic, s) := by
  cases x <;> rfl

theorem Body.run_bind_ite {ω α β : Type} (c : Prop) [Decidable c] (x y : Body ω α)
    (f : α → Body ω β) (s : ω) :
    Body.run ((if c then x else y) >>= f) s
      = if c then Body.run (x >>= f) s else Body.run (y >>= f) s := by
  split <;> rfl

theorem Body.run_ite {ω α : Type} (c : Prop) [Decidable c] (x y : Body ω α) (s : ω) :
    Body.run (if c then x else y) s = if c then Body.run x s else Body.run y s := by
  split <;> rfl

theorem Body.run_bind_bind {ω α β γ : Type} (x : Body ω α) (g : α → Body ω β)
    (f : β → Body ω γ) (s : ω) :
    Body.run ((x >>= g) >>= f) s = Body.run (x >>= fun a => g a >>= f) s := by
  show Body.bind (Body.bind x g) f s = Body.bind x (fun a => Body.bind (g a) f) s
  unfold Body.bind
  rcases x s with ⟨r, s1⟩
  cases r <;> rfl

theorem Body.extends_pure {σ ρ α : Type} (a : α) :
    Body.Extends (Pure.pure a : Body ((σ × List Call) × ρ) α) :=
  ⟨fun _ => ⟨[], by simp [Body.run_pure]⟩⟩

theorem Body.extends_ret {σ ρ α : Type} (e : Option GtpError) :
    Body.Extends (Body.ret e : Body ((σ × List Call) × ρ) α) :=
  ⟨fun _ => ⟨[], by simp [Body.run_ret]⟩⟩

theorem Body.extends_panic {σ ρ α : Type} :
    Body.Extends (Body.panic : Body ((σ × List Call) × ρ) α) :=
  ⟨fun _ => ⟨[], by simp [Body.run_panic]⟩⟩

theorem Body.extends_check {σ ρ : Type} (err : Option GtpError) :
    Body.Extends (Body.check err : Body ((σ × List Call) × ρ) Unit) := by
  cases err
  · exact Body.extends_pure ()
  · exact Body.extends_ret _

theorem Body.extends_orPanic {σ ρ α : Type} (x : Option α) :
    Body.Extends (Body.orPanic x : Body ((σ × List Call) × ρ) α) := by
  cases x
  · exact Body.extends_panic
  · exact Body.extends_pure _

theorem Body.extends_call {σ ρ α : Type} (g : σ → α × σ) (ev : α → Call) :
    Body.Extends (Body.call (record g ev) : Body ((σ × List Call) × ρ) α) :=
  ⟨fun _ => ⟨[ev _], rfl⟩⟩

theorem Body.extends_exec {σ ρ : Type} (g : σ → σ) (ev : Call) :
    Body.Extends (Body.exec (recordExec g ev) : Body ((σ × List Call) × ρ) Unit) :=
  ⟨fun _ => ⟨[ev], rfl⟩⟩

theorem Body.extends_update {σ ρ : Type} (g : ρ → ρ) :
    Body.Extends (Body.update g : Body ((σ × List Call) × ρ) Unit) :=
  ⟨fun _ => ⟨[], by simp [Body.run, Body.update]⟩⟩

theorem Body.extends_bind {σ ρ α β : Type} (x : Body ((σ × List Call) × ρ) α)
    (f : α → Body ((σ × List Call) × ρ) β) (hx : Body.Extends x)
    (hf : ∀ a, Body.Extends (f a)) : Body.Extends (x >>= f) := by
  refine ⟨fun s => ?_⟩
  obtain ⟨r1, h1⟩ := hx.grows s
  rw [Body.run_bind]
  rcases hxs : Body.run x s with ⟨fl, s1⟩
  rw [hxs] at h1
  cases fl with
  | next a =>
    obtain ⟨r2, h2⟩ := (hf a).grows s1
    exact ⟨r1 ++ r2, by simp only [h2]; rw [h1, List.append_assoc]⟩
  | ret e => exact ⟨r1, h1⟩
  | panic => exact ⟨r1, h1⟩
  | blocked => exact ⟨r1, h1⟩

theorem Body.extends_ite {σ ρ α : Type} (c : Prop) [Decidable c]
    (x y : Body ((σ × List Call) × ρ) α) (hx : Body.Extends x) (hy : Body.Extends y) :
    Body.Extends (if c then x else y) := by
  split
  · exact hx
  · exact hy

theorem record_apply {σ α : Type} (f : σ → α × σ) (ev : α → Call) (s : σ × List Call) :
    record f ev s = ((f s.1).1, ((f s.1).2, s.2 ++ [ev (f s.1).1])) := rfl

theorem recordExec_apply {σ : Type} (f : σ → σ) (ev : Call) (s : σ × List Call) :
    recordExec f ev s = (f s.1, s.2 ++ [ev]) := rfl

theorem Body.extends_startsWith {σ ρ α : Type} (x : Body ((σ × List Call) × ρ) α)
    (s : (σ × List Call) × ρ) (pre : List Call) (hx : Body.Extends x)
    (hpre : pre <+: s.1.2) : pre <+: (x.run s).2.1.2 := by
  obtain ⟨rest, hrest⟩ := hx.grows s
  rw [hrest]
  exact hpre.trans (List.prefix_append _ _)

end gwtester

/-! ## gw-tester: the handlers of the MME -/

namespace gwtester.mme1

open gtpv1

/-- C13: for every CreatePDPContextResponse or UpdatePDPContextResponse whose TEID
resolves to a session and whose Cause IE holds a value other than
`ResCauseRequestAccepted`, over any connection and any implementation of the absent
packages, the handler of the MME makes two calls, `GetSessionByTEID` and then
`RemoveSession` on the session found, returns the `CauseNotOKError` whose `Cause` is
the received value, whose `MsgType` is the type name of the message and whose `Msg`
names the subscriber, and leaves the receiver as it was: nothing is sent on
`created` or `modified`. -/
theorem cause_not_accepted_removes_session {σ : Type} (d : Deps σ) (c : Conn σ)
    (sgwAddr : Addr) (st : σ) (m : mme) (session : Session) (causeIE : IE) (cause : Nat)
    (hcause : d.ie.Cause causeIE = (cause, none))
    (hne : cause ≠ ResCauseRequestAccepted) :
    (∀ rsp : message.CreatePDPContextResponse,
      (c.GetSessionByTEID rsp.hdr.TEID sgwAddr st).1 = .ok session →
      rsp.Cause = some causeIE →
      (handleCreatePDPContextResponse (recordedDeps d) (recordedConn c) sgwAddr
          (.CreatePDPContextResponse rsp)).run ((st, []), m)
        = (.ret (some (.CauseNotOKError "Create PDP Context Response" cause
              ("subscriber: " ++ session.IMSI))),
            ((c.RemoveSession (some session) (c.GetSessionByTEID rsp.hdr.TEID sgwAddr st).2,
              [.GetSessionByTEID rsp.hdr.TEID sgwAddr (.ok session),
                .RemoveSession (some session)]), m)))
    ∧ (∀ rsp : message.UpdatePDPContextResponse,
      (c.GetSessionByTEID rsp.hdr.TEID sgwAddr st).1 = .ok session →
      rsp.Cause = some causeIE →
      (handleUpdatePDPContextResponse (recordedDeps d) (recordedConn c) sgwAddr
          (.UpdatePDPContextResponse rsp)).run ((st, []), m)
        = (.ret (some (.CauseNotOKError "Update PDP Context Response" cause
              ("subscriber: " ++ session.IMSI))),
            ((c.RemoveSession (some session) (c.GetSessionByTEID rsp.hdr.TEID sgwAddr st).2,
              [.GetSessionByTEID rsp.hdr.TEID sgwAddr (.ok session),
                .RemoveSession (some session)]), m))) := by
  constructor
  · intro rsp hs hc
    simp [handleCreatePDPContextResponse, Body.run, bind, Body.bind, Body.call, Body.exec,
      Body.ret, Body.check, pure, recordedConn, recordedDeps, record, recordExec,
      Message.TEID, Message.hdr, hs, hc, hcause, hne, Message.MessageTypeName]
  · intro rsp hs hc
    simp [handleUpdatePDPContextResponse, Body.run, bind, Body.bind, Body.call, Body.exec,
      Body.ret, Body.check, pure, recordedConn, recordedDeps, record, recordExec,
      Message.TEID, Message.hdr, hs, hc, hcause, hne, Message.MessageTypeName]

/-- Witness for C13: the CreatePDPContextResponse with Cause 199 in the world of the
MME; afterwards the store of the connection holds no session. -/
theorem cause_not_accepted_removes_session_witness :
    (handleCreatePDPContextResponse (recordedDeps worldDeps) (recordedConn worldConn)
        "10.0.1.2:2123" (.CreatePDPContextResponse rejectedCreate)).run ((mmeWorld, []), mme0)
      = (.ret (some (.CauseNotOKError "Create PDP Context Response" 199
            "subscriber: 001010123456789")),
          (({ mmeWorld with s11 := { mmeWorld.s11 with sessions := [] } },
            [.GetSessionByTEID 0x21 "10.0.1.2:2123" (.ok subscriberAtMME),
             .RemoveSession (some subscriberAtMME)]), mme0)) :=
  (cause_not_accepted_removes_session worldDeps worldConn "10.0.1.2:2123" mmeWorld mme0
    subscriberAtMME (ie.NewCause 199) 199 rfl (by decide)).1 rejectedCreate rfl rfl

/-- C16, the claim refuted: in the world of the MME the channel `modified` already
holds a value when the UpdatePDPContextResponse without Cause IE arrives. The session
is found, and `handleUpdatePDPContextResponse` blocks at the send on `modified`: it
does not return nil, and nothing more is signalled. -/
theorem absent_cause_full_channel_counterexample :
    (handleUpdatePDPContextResponse (recordedDeps worldDeps) (recordedConn worldConn)
        "10.0.1.2:2123" (.UpdatePDPContextResponse updateWithoutCause)).run
          ((mmeWorld, []), { mme0 with modified := 1 })
      = (.blocked,
          ((mmeWorld, [.GetSessionByTEID 0x21 "10.0.1.2:2123" (.ok subscriberAtMME)]),
           { mme0 with modified := 1 }))
    ∧ ¬ (∀ m : mme,
        ((handleUpdatePDPContextResponse (recordedDeps worldDeps) (recordedConn worldConn)
          "10.0.1.2:2123" (.UpdatePDPContextResponse updateWithoutCause)).run
            ((mmeWorld, []), m)).1 = .ret none) :=
  ⟨rfl, fun h => absurd (h { mme0 with modified := 1 }) (by decide)⟩

/-- C16 as amended: the handlers of the MME do not reject a response for lacking the
Cause IE. For every UpdatePDPContextResponse without Cause IE whose TEID resolves to a
session, `handleUpdatePDPContextResponse` makes no call but the lookup, so the session
stays in the store, and goes to the send on `modified`: when the channel has room
(it holds fewer values than its capacity 1) the handler sends one value on it and
returns nil; when the channel is full the handler blocks at the send and the receiver
is left as it was. For every CreatePDPContextResponse, the run on the message without
Cause IE is the run on the same message with a Cause IE that reads as
`ResCauseRequestAccepted`: an absent Cause is handled as an accepted one, and the first
IE whose absence is reported is the GGSN address for user traffic
(`RequiredIEMissingError` of type `ie.BearerContext`). -/
theorem absent_cause_not_rejected {σ : Type} (d : Deps σ) (c : Conn σ) (sgwAddr : Addr)
    (st : σ) (m : mme) :
    (∀ (rsp : message.UpdatePDPContextResponse) (session : Session),
      (c.GetSessionByTEID rsp.hdr.TEID sgwAddr st).1 = .ok session →
      rsp.Cause = none →
      (m.modified < chanCap →
        (handleUpdatePDPContextResponse (recordedDeps d) (recordedConn c) sgwAddr
            (.UpdatePDPContextResponse rsp)).run ((st, []), m)
          = (.ret none,
              (((c.GetSessionByTEID rsp.hdr.TEID sgwAddr st).2,
                [.GetSessionByTEID rsp.hdr.TEID sgwAddr (.ok session)]),
               { m with modified := m.modified + 1 })))
      ∧ (chanCap ≤ m.modified →
        (handleUpdatePDPContextResponse (recordedDeps d) (recordedConn c) sgwAddr
            (.UpdatePDPContextResponse rsp)).run ((st, []), m)
          = (.blocked,
              (((c.GetSessionByTEID rsp.hdr.TEID sgwAddr st).2,
                [.GetSessionByTEID rsp.hdr.TEID sgwAddr (.ok session)]), m))))
    ∧ (∀ (rsp : message.CreatePDPContextResponse) (causeIE : IE),
      d.ie.Cause causeIE = (ResCauseRequestAccepted, none) →
      (handleCreatePDPContextResponse (recordedDeps d) (recordedConn c) sgwAddr
          (.CreatePDPContextResponse { rsp with Cause := none })).run ((st, []), m)
        = (handleCreatePDPContextResponse (recordedDeps d) (recordedConn c) sgwAddr
          (.CreatePDPContextResponse { rsp with Cause := some causeIE })).run ((st, []), m))
    ∧ (∀ (rsp : message.CreatePDPContextResponse) (session : Session),
      (c.GetSessionByTEID rsp.hdr.TEID sgwAddr st).1 = .ok session →
      rsp.Cause = none → rsp.GGSNAddressForUserTraffic = none →
      (handleCreatePDPContextResponse (recordedDeps d) (recordedConn c) sgwAddr
          (.CreatePDPContextResponse rsp)).run ((st, []), m)
        = (.ret (some (.RequiredIEMissingError gtpv2.ie.BearerContext)),
            (((c.GetSessionByTEID rsp.hdr.TEID sgwAddr st).2,
              [.GetSessionByTEID rsp.hdr.TEID sgwAddr (.ok session)]), m))) := by
  refine ⟨?_, ?_, ?_⟩
  · intro rsp session hs hc
    constructor
    · intro hroom
      simp [handleUpdatePDPContextResponse, Body.run, bind, Body.bind, Body.call, Body.exec,
        Body.ret, Body.send, pure, recordedConn, record, Message.TEID, Message.hdr, hs, hc,
        hroom]
    · intro hfull
      simp [handleUpdatePDPContextResponse, Body.run, bind, Body.bind, Body.call, Body.exec,
        Body.ret, Body.send, pure, recordedConn, record, Message.TEID, Message.hdr, hs, hc,
        Nat.not_lt.mpr hfull]
  · intro rsp causeIE hcause
    have hc : (recordedDeps d).ie.Cause causeIE = (ResCauseRequestAccepted, none) := hcause
    simp only [handleCreatePDPContextResponse, Message.TEID, Message.hdr, Body.run_bind_call]
    generalize (recordedConn c).GetSessionByTEID rsp.hdr.TEID sgwAddr (st, []) = x
    obtain ⟨r, s1⟩ := x
    cases r <;>
      simp only [hc, Body.run_bind_check, Body.run_bind_ite, Body.run_bind_pure,
        Body.run_bind_bind, ne_eq, not_true_eq_false, if_false]
  · intro rsp session hs hc hg
    simp [handleCreatePDPContextResponse, Body.run, bind, Body.bind, Body.call, Body.exec,
      Body.ret, pure, recordedConn, record, Message.TEID, Message.hdr, hs, hc, hg]

/-- Witness for C16: the UpdatePDPContextResponse without Cause IE in the world of the
MME with the channel `modified` empty, and the CreatePDPContextResponse with its Cause
IE taken out or accepted. -/
theorem absent_cause_not_rejected_witness :
    (handleUpdatePDPContextResponse (recordedDeps worldDeps) (recordedConn worldConn)
        "10.0.1.2:2123" (.UpdatePDPContextResponse updateWithoutCause)).run
          ((mmeWorld, []), mme0)
      = (.ret none,
          ((mmeWorld, [.GetSessionByTEID 0x21 "10.0.1.2:2123" (.ok subscriberAtMME)]),
           { mme0 with modified := 1 }))
    ∧ (handleCreatePDPContextResponse (recordedDeps worldDeps) (recordedConn worldConn)
        "10.0.1.2:2123"
        (.CreatePDPContextResponse { rejectedCreate with Cause := none })).run
          ((mmeWorld, []), mme0)
      = (handleCreatePDPContextResponse (recordedDeps worldDeps) (recordedConn worldConn)
        "10.0.1.2:2123"
        (.CreatePDPContextResponse
          { rejectedCreate with Cause := some (ie.NewCause ResCauseRequestAccepted) })).run
          ((mmeWorld, []), mme0) :=
  ⟨((absent_cause_not_rejected worldDeps worldConn "10.0.1.2:2123" mmeWorld mme0).1
      updateWithoutCause subscriberAtMME rfl rfl).1 (by decide),
   (absent_cause_not_rejected worldDeps worldConn "10.0.1.2:2123" mmeWorld mme0).2.1
      rejectedCreate (ie.NewCause ResCauseRequestAccepted) rfl⟩

end gwtester.mme1

/-! ## gw-tester: the S11 handlers of the S-GW -/

namespace gwtester.sgw1

open gtpv1

/-- In the world, the lookup by IMSI fails with `UnknownIMSIError` only. -/
theorem worldConn_lookup_error (imsi : String) (w : World) (e : GtpError)
    (h : (worldConn.GetSessionByIMSI imsi w).1 = .error e) :
    ∃ x, e = .UnknownIMSIError x := by
  simp only [worldConn, World.onS11, specConn] at h
  split at h
  · cases h
  · cases h
    exact ⟨imsi, rfl⟩

/-- C14, the claim refuted: in the world of the S-GW, the CreatePDPContextRequest
without MSISDN IE is answered by no `RespondTo`: the record of the run of
`handleCreateSessionRequest` holds no such call. -/
theorem create_session_missing_ie_counterexample :
    ¬ (∀ (req : message.CreatePDPContextRequest) (w : World),
        (req.IMSI = none ∨ req.MSISDN = none ∨ req.IMEI = none ∨ req.RATType = none) →
        ((handleCreateSessionRequest (recordedSgw worldSgw) (recordedDeps worldDeps)
          (recordedConn worldConn) "10.0.1.1:2123" (.CreatePDPContextRequest req)).run
            ((w, []), ())).2.1.2.any Call.isRespondTo = true) := by
  intro h
  have h0 := h createRequestWithoutMSISDN sgwWorld (Or.inr (Or.inl rfl))
  exact absurd h0 (by decide)

/-- C14 as amended: whenever one of the IEs that `handleCreateSessionRequest` requires
(IMSI, MSISDN, IMEI, RAT type) is absent from the request, over any connection and
any implementation of the absent packages, the handler calls neither `RespondTo` nor
`RegisterSession` and does not return nil; and when the statements before the check
of the absent IE go through (the TEID of the MME and the address of the P-GW are
read, the IEs present are read without error, and the lookup by IMSI fails with
`UnknownIMSIError` only), what it returns is a `RequiredIEMissingError`. -/
theorem create_session_missing_ie_returns_error {σ : Type} (s : sgw σ) (d : Deps σ)
    (s11Conn : Conn σ) (mmeAddr : Addr) (req : message.CreatePDPContextRequest) (st : σ)
    (habsent : req.IMSI = none ∨ req.MSISDN = none ∨ req.IMEI = none ∨ req.RATType = none) :
    let r := (handleCreateSessionRequest (recordedSgw s) (recordedDeps d)
      (recordedConn s11Conn) mmeAddr (.CreatePDPContextRequest req)).run ((st, []), ())
    r.2.1.2.filter Call.isRespondTo = []
    ∧ r.2.1.2.filter Call.isRegisterSession = []
    ∧ r.1 ≠ .ret none
    ∧ r.1 ≠ .next ()
    ∧ ((∃ teid, d.ie.TEID req.TEIDCPlane = some (teid, none)) →
        (d.ResolveUDPAddr (s.pgwAddr ++ GTPCPort)).2 = none →
        (∀ i, req.IMSI = some i → (d.ie.IMSI i).2 = none) →
        (∀ i, req.MSISDN = some i → (d.ie.MSISDN i).2 = none) →
        (∀ i, req.IMEI = some i → (d.ie.IMEISV i).2 = none) →
        (∀ imsi w e, (s11Conn.GetSessionByIMSI imsi w).1 = .error e →
          ∃ x, e = .UnknownIMSIError x) →
        ∃ t, r.1 = .ret (some (.RequiredIEMissingError t))) := by
  intro r
  have hr : r = (handleCreateSessionRequest (recordedSgw s) (recordedDeps d)
      (recordedConn s11Conn) mmeAddr (.CreatePDPContextRequest req)).run ((st, []), ()) := rfl
  clear_value r
  unfold handleCreateSessionRequest at hr
  rcases habsent with h | h | h | h
  all_goals
    repeat' (first
      | (simp only [h, Body.run_pure, Body.run_ret, Body.run_panic, Body.run_bind_pure,
          Body.run_bind_ret, Body.run_bind_panic, Body.run_bind_call, Body.run_bind_exec,
          Body.run_bind_update, Body.run_bind_check, Body.run_bind_orPanic,
          Body.run_bind_ite, Body.run_ite, Body.run_bind_bind, recordedConn, recordedDeps,
          recordedSgw, recordedCPlaneConn, record, recordExec, List.nil_append,
          List.append_assoc, List.singleton_append, List.cons_append] at hr)
      | (split at hr))
  all_goals subst hr
  all_goals refine ⟨by simp [Call.isRespondTo], by simp [Call.isRegisterSession], by simp, by simp, ?_⟩
  all_goals intro ht hres hI hM hE hL
  all_goals first
    | exact ⟨_, rfl⟩
    | (exfalso
       obtain ⟨teid, ht⟩ := ht
       first
         | (rename_i he hne hlook
            obtain ⟨x, hx⟩ := hL _ _ _ hlook
            exact hne x hx)
         | (clear hL; simp_all; done)
         | (clear hL; simp_all; subst_vars; simp_all))

/-- Witness for C14 as amended: the request without MSISDN IE in the world of the
S-GW. -/
theorem create_session_missing_ie_returns_error_witness :
    (((handleCreateSessionRequest (recordedSgw worldSgw) (recordedDeps worldDeps)
        (recordedConn worldConn) "10.0.1.1:2123"
        (.CreatePDPContextRequest createRequestWithoutMSISDN)).run
          ((sgwWorld, []), ())).2.1.2.filter Call.isRespondTo = [])
    ∧ (∃ t, ((handleCreateSessionRequest (recordedSgw worldSgw) (recordedDeps worldDeps)
        (recordedConn worldConn) "10.0.1.1:2123"
        (.CreatePDPContextRequest createRequestWithoutMSISDN)).run
          ((sgwWorld, []), ())).1 = .ret (some (.RequiredIEMissingError t))) :=
  ⟨(create_session_missing_ie_returns_error worldSgw worldDeps worldConn "10.0.1.1:2123"
      createRequestWithoutMSISDN sgwWorld (Or.inr (Or.inl rfl))).1,
   (create_session_missing_ie_returns_error worldSgw worldDeps worldConn "10.0.1.1:2123"
      createRequestWithoutMSISDN sgwWorld (Or.inr (Or.inl rfl))).2.2.2.2
      ⟨0x12, rfl⟩ rfl (fun i h => by cases h; rfl) (fun i h => by cases h)
      (fun i h => by cases h; rfl) worldConn_lookup_error⟩

/-- C15: `handleDeleteSessionRequest` does not remove the S11 session until the delete
is confirmed. On every run, over any connection and any implementation of the absent
packages, the record holds a `RemoveSession` if and only if the handler returns nil;
and when it returns nil the record is exactly: the S11 session found by TEID, the S5
session found by IMSI, the TEID of the P-GW, the delete sent, the TEID of the MME,
`WaitMessage` giving a DeletePDPContextResponse with no error, `RespondTo` relaying
that response to the MME with no error, and then `RemoveSession` of the S11 session.
So on every path that returns an error, and when the type assertion panics, no
session is removed. -/
theorem delete_removes_session_only_on_success {σ : Type} (s : sgw σ) (d : Deps σ)
    (s11Conn : Conn σ) (mmeAddr : Addr) (msg : Message) (st : σ) :
    let r := (handleDeleteSessionRequest (recordedSgw s) (recordedDeps d)
      (recordedConn s11Conn) mmeAddr msg).run ((st, []), ())
    (r.1 = .ret none ↔ r.2.1.2.filter Call.isRemoveSession ≠ [])
    ∧ (r.1 = .ret none →
        ∃ (s11Session s5Session : Session) (s5cpgwTEID seq s11mmeTEID : Nat)
          (rsp : message.DeletePDPContextResponse),
          r.2.1.2
            = [.GetSessionByTEID msg.TEID mmeAddr (.ok s11Session),
               .S5GetSessionByIMSI s11Session.IMSI (.ok s5Session),
               .GetTEID s5Session .S5PGWGTPC (s5cpgwTEID, none),
               .S5DeleteSession s5cpgwTEID s5Session (seq, none),
               .GetTEID s11Session .S11MMEGTPC (s11mmeTEID, none),
               .WaitMessage s11Session seq 5 (some (.DeletePDPContextResponse rsp), none),
               .RespondTo mmeAddr msg (.DeletePDPContextResponse
                  { rsp with hdr := ⟨rsp.hdr.Typ, s11mmeTEID, rsp.hdr.SequenceNumber⟩ }) none,
               .RemoveSession (some s11Session)])
    ∧ r.1 ≠ .next () := by
  intro r
  have hr : r = (handleDeleteSessionRequest (recordedSgw s) (recordedDeps d)
      (recordedConn s11Conn) mmeAddr msg).run ((st, []), ()) := rfl
  clear_value r
  unfold handleDeleteSessionRequest at hr
  repeat' (first
    | (simp only [Body.run_pure, Body.run_ret, Body.run_panic, Body.run_bind_pure,
        Body.run_bind_ret, Body.run_bind_panic, Body.run_bind_call, Body.run_bind_exec,
        Body.run_bind_update, Body.run_bind_check, Body.run_bind_orPanic, Body.run_bind_ite,
        Body.run_ite, Body.run_bind_bind, recordedConn, recordedDeps,
        recordedSgw, recordedCPlaneConn, record, recordExec, List.nil_append,
        List.append_assoc, List.singleton_append, List.cons_append] at hr)
    | (split at hr))
  all_goals (subst hr; simp [Call.isRemoveSession, Prod.ext_iff, *])

/-- Witness for C15: in the world of the S-GW the delete of the session under TEID 7
is confirmed by the P-GW, the handler returns nil and the session is removed. -/
theorem delete_removes_session_only_on_success_witness :
    ((handleDeleteSessionRequest (recordedSgw worldSgw) (recordedDeps worldDeps)
        (recordedConn worldConn) "10.0.1.1:2123" deleteRequest).run
          ((sgwWorld, []), ())).1 = .ret none
    ∧ ((handleDeleteSessionRequest (recordedSgw worldSgw) (recordedDeps worldDeps)
        (recordedConn worldConn) "10.0.1.1:2123" deleteRequest).run
          ((sgwWorld, []), ())).2.1.2.filter Call.isRemoveSession ≠ [] :=
  ⟨rfl, (delete_removes_session_only_on_success worldSgw worldDeps worldConn "10.0.1.1:2123"
    deleteRequest sgwWorld).1.mp rfl⟩

/-- C17: for every CreatePDPContextRequest carrying an IMSI `i`, over any connection
and any implementation of the absent packages, once the TEID of the MME and the
address of the P-GW are read: when `GetSessionByIMSI(i)` returns a session, the
record of the run starts with the TEID of the MME kept, the lookup and
`RemoveSession` of the session found, and, the other required IEs being there, goes
on with the allocation of a TEID and `RegisterSession` of the new session; when it
returns an `UnknownIMSIError`, the record goes from the lookup to the allocation and
`RegisterSession`, with no `RemoveSession`; when it returns any other error, the
handler returns that error wrapped in "got something unexpected: " right after the
lookup, and registers no session. -/
theorem create_session_removes_previous_session {σ : Type} (s : sgw σ) (d : Deps σ)
    (s11Conn : Conn σ) (mmeAddr : Addr) (req : message.CreatePDPContextRequest) (st : σ)
    (teid : Nat) (raddr : Addr) (imsiIE msisdnIE meiIE ratIE : IE) (i msisdn imei : String)
    (rat : Nat)
    (hteid : d.ie.TEID req.TEIDCPlane = some (teid, none))
    (hres : d.ResolveUDPAddr (s.pgwAddr ++ GTPCPort) = (raddr, none))
    (himsi : req.IMSI = some imsiIE) (hi : d.ie.IMSI imsiIE = (i, none)) :
    let r := (handleCreateSessionRequest (recordedSgw s) (recordedDeps d)
      (recordedConn s11Conn) mmeAddr (.CreatePDPContextRequest req)).run ((st, []), ())
    let st1 := d.session.AddTEID (NewSession mmeAddr) .S11MMEGTPC teid st
    let s11Session : Session :=
      { IMSI := i, peerAddr := mmeAddr, MSISDN := msisdn, IMEI := imei, RATType := rat }
    let others : Prop :=
      req.MSISDN = some msisdnIE ∧ d.ie.MSISDN msisdnIE = (msisdn, none)
      ∧ req.IMEI = some meiIE ∧ d.ie.IMEISV meiIE = (imei, none)
      ∧ req.RATType = some ratIE ∧ d.ie.RATType ratIE = (rat, none)
      ∧ ∀ w, (d.ie.MustTEID (s11Conn.NewSenderCTEID w).1).isSome
    (∀ sess, (s11Conn.GetSessionByIMSI i st1).1 = .ok sess →
      [.AddTEID (NewSession mmeAddr) .S11MMEGTPC teid,
       .GetSessionByIMSI i (.ok sess),
       .RemoveSession (some sess)] <+: r.2.1.2)
    ∧ (∀ sess, (s11Conn.GetSessionByIMSI i st1).1 = .ok sess → others →
      ∃ f t,
        [.AddTEID (NewSession mmeAddr) .S11MMEGTPC teid,
         .GetSessionByIMSI i (.ok sess),
         .RemoveSession (some sess),
         .NewSenderCTEID f,
         .RegisterSession t s11Session] <+: r.2.1.2)
    ∧ (∀ x, (s11Conn.GetSessionByIMSI i st1).1 = .error (.UnknownIMSIError x) → others →
      ∃ f t,
        [.AddTEID (NewSession mmeAddr) .S11MMEGTPC teid,
         .GetSessionByIMSI i (.error (.UnknownIMSIError x)),
         .NewSenderCTEID f,
         .RegisterSession t s11Session] <+: r.2.1.2)
    ∧ (∀ err, (s11Conn.GetSessionByIMSI i st1).1 = .error err →
      (∀ x, err ≠ .UnknownIMSIError x) →
      r = (.ret (some (.wrapped "got something unexpected: " err)),
            (((s11Conn.GetSessionByIMSI i st1).2,
              [.AddTEID (NewSession mmeAddr) .S11MMEGTPC teid,
               .GetSessionByIMSI i (.error err)]), ()))) := by
  intro r st1 s11Session others
  refine ⟨?_, ?_, ?_, ?_⟩
  · intro sess hok
    have hok2 : (s11Conn.GetSessionByIMSI i
      (d.session.AddTEID (NewSession mmeAddr) IFType.S11MMEGTPC teid st)).1 = .ok sess := hok
    show _ <+: ((handleCreateSessionRequest (recordedSgw s) (recordedDeps d)
      (recordedConn s11Conn) mmeAddr (.CreatePDPContextRequest req)).run ((st, []), ())).2.1.2
    unfold handleCreateSessionRequest
    simp only [hteid, hres, hi, himsi, hok2,
        Body.run_bind_pure, Body.run_bind_ret, Body.run_bind_call, Body.run_bind_exec,
        Body.run_bind_check, Body.run_bind_orPanic, Body.run_bind_bind, recordedConn,
        recordedDeps, recordedSgw, record_apply, recordExec_apply,
        List.nil_append, List.append_assoc, List.singleton_append, List.cons_append]
    apply Body.extends_startsWith
    · repeat' (first
        | exact Body.extends_pure _
        | exact Body.extends_ret _
        | exact Body.extends_panic
        | exact Body.extends_check _
        | exact Body.extends_orPanic _
        | exact Body.extends_call _ _
        | exact Body.extends_exec _ _
        | (apply Body.extends_bind)
        | (apply Body.extends_ite)
        | (intro _)
        | split)
    · exact ⟨_, rfl⟩
  · intro sess hok hothers
    obtain ⟨hmsisdn, hm, hmei, he, hrat, hr, hmust⟩ := hothers
    have hok2 : (s11Conn.GetSessionByIMSI i
      (d.session.AddTEID (NewSession mmeAddr) IFType.S11MMEGTPC teid st)).1 = .ok sess := hok
    show ∃ f t, _ <+: ((handleCreateSessionRequest (recordedSgw s) (recordedDeps d)
      (recordedConn s11Conn) mmeAddr (.CreatePDPContextRequest req)).run ((st, []), ())).2.1.2
    unfold handleCreateSessionRequest
    simp only [hteid, hres, hi, hm, he, hr, himsi, hmsisdn, hmei, hrat, hok2,
        Body.run_pure, Body.run_ret, Body.run_panic, Body.run_bind_pure,
        Body.run_bind_ret, Body.run_bind_panic, Body.run_bind_call, Body.run_bind_exec,
        Body.run_bind_update, Body.run_bind_check, Body.run_bind_orPanic,
        Body.run_bind_ite, Body.run_ite, Body.run_bind_bind, recordedConn,
        recordedCPlaneConn, recordedDeps, recordedSgw, record_apply, recordExec_apply,
        List.nil_append, List.append_assoc, List.singleton_append, List.cons_append]
    split
    · rename_i a ha
      refine ⟨(s11Conn.NewSenderCTEID (s11Conn.RemoveSession (some sess)
        (s11Conn.GetSessionByIMSI i
          (d.session.AddTEID (NewSession mmeAddr) IFType.S11MMEGTPC teid st)).2)).1, a, ?_⟩
      apply Body.extends_startsWith
      · repeat' (first
          | exact Body.extends_pure _
          | exact Body.extends_ret _
          | exact Body.extends_panic
          | exact Body.extends_check _
          | exact Body.extends_orPanic _
          | exact Body.extends_call _ _
          | exact Body.extends_exec _ _
          | (apply Body.extends_bind)
          | (apply Body.extends_ite)
          | (intro _)
          | split)
      · exact ⟨_, rfl⟩
    · rename_i hnone
      have := hmust (s11Conn.RemoveSession (some sess) (s11Conn.GetSessionByIMSI i
        (d.session.AddTEID (NewSession mmeAddr) IFType.S11MMEGTPC teid st)).2)
      rw [hnone] at this
      exact absurd this (by simp)
  · intro x hok hothers
    obtain ⟨hmsisdn, hm, hmei, he, hrat, hr, hmust⟩ := hothers
    have hok2 : (s11Conn.GetSessionByIMSI i
      (d.session.AddTEID (NewSession mmeAddr) IFType.S11MMEGTPC teid st)).1
        = .error (.UnknownIMSIError x) := hok
    show ∃ f t, _ <+: ((handleCreateSessionRequest (recordedSgw s) (recordedDeps d)
      (recordedConn s11Conn) mmeAddr (.CreatePDPContextRequest req)).run ((st, []), ())).2.1.2
    unfold handleCreateSessionRequest
    simp only [hteid, hres, hi, hm, he, hr, himsi, hmsisdn, hmei, hrat, hok2,
        Body.run_pure, Body.run_ret, Body.run_panic, Body.run_bind_pure,
        Body.run_bind_ret, Body.run_bind_panic, Body.run_bind_call, Body.run_bind_exec,
        Body.run_bind_update, Body.run_bind_check, Body.run_bind_orPanic,
        Body.run_bind_ite, Body.run_ite, Body.run_bind_bind, recordedConn,
        recordedCPlaneConn, recordedDeps, recordedSgw, record_apply, recordExec_apply,
        List.nil_append, List.append_assoc, List.singleton_append, List.cons_append]
    split
    · rename_i a ha
      refine ⟨(s11Conn.NewSenderCTEID (s11Conn.GetSessionByIMSI i
          (d.session.AddTEID (NewSession mmeAddr) IFType.S11MMEGTPC teid st)).2).1, a, ?_⟩
      apply Body.extends_startsWith
      · repeat' (first
          | exact Body.extends_pure _
          | exact Body.extends_ret _
          | exact Body.extends_panic
          | exact Body.extends_check _
          | exact Body.extends_orPanic _
          | exact Body.extends_call _ _
          | exact Body.extends_exec _ _
          | (apply Body.extends_bind)
          | (apply Body.extends_ite)
          | (intro _)
          | split)
      · exact ⟨_, rfl⟩
    · rename_i hnone
      have := hmust (s11Conn.GetSessionByIMSI i
        (d.session.AddTEID (NewSession mmeAddr) IFType.S11MMEGTPC teid st)).2
      rw [hnone] at this
      exact absurd this (by simp)
  · intro err hok hne
    have hok2 : (s11Conn.GetSessionByIMSI i
      (d.session.AddTEID (NewSession mmeAddr) IFType.S11MMEGTPC teid st)).1
        = .error err := hok
    show (handleCreateSessionRequest (recordedSgw s) (recordedDeps d)
      (recordedConn s11Conn) mmeAddr (.CreatePDPContextRequest req)).run ((st, []), ()) = _
    unfold handleCreateSessionRequest
    simp only [hteid, hres, hi, himsi, hok2,
        Body.run_bind_pure, Body.run_bind_ret, Body.run_bind_call, Body.run_bind_exec,
        Body.run_bind_check, Body.run_bind_orPanic, Body.run_bind_bind, recordedConn,
        recordedDeps, recordedSgw, record_apply, recordExec_apply,
        List.nil_append, List.append_assoc, List.singleton_append, List.cons_append]

/-- Witness for C17: the CreatePDPContextRequest of a subscriber who has a session in
the world of the S-GW. -/
theorem create_session_removes_previous_session_witness :
    ∃ f t,
      [.AddTEID (NewSession "10.0.1.1:2123") .S11MMEGTPC 0x12,
       .GetSessionByIMSI "001010123456789" (.ok subscriberAtSGW),
       .RemoveSession (some subscriberAtSGW),
       .NewSenderCTEID f,
       .RegisterSession t subscriberAtSGW]
      <+: ((handleCreateSessionRequest (recordedSgw worldSgw) (recordedDeps worldDeps)
        (recordedConn worldConn) "10.0.1.1:2123"
        (.CreatePDPContextRequest createRequest)).run ((sgwWorld, []), ())).2.1.2 :=
  (create_session_removes_previous_session worldSgw worldDeps worldConn "10.0.1.1:2123"
    createRequest sgwWorld 0x12 "10.0.0.3:2123"
    ⟨ie.IMSI, utils.StrToSwappedBytes "001010123456789"⟩
    ⟨ie.MSISDN, utils.StrToSwappedBytes "819012345678"⟩
    ⟨ie.IMEISV, utils.StrToSwappedBytes "1234567890123456"⟩
    ⟨ie.RATType, [6]⟩ "001010123456789" "819012345678" "1234567890123456" 6
    rfl rfl rfl (by decide)).2.1
    subscriberAtSGW rfl ⟨rfl, by decide, rfl, by decide, rfl, rfl, fun _ => rfl⟩

end gwtester.sgw1

/-! ## The inactive list of the pool -/

namespace gwtester.pool

/-- The node at each address of `poolOf`. -/
theorem poolOf_heap_getElem? (addrs : List String) (k : Nat) (act : Option Nat) (i : Nat) :
    (poolOf addrs k act).heap[i]? = if i < addrs.length then some (nodeOf addrs k i) else none := by
  simp only [poolOf, List.getElem?_map, List.getElem?_range]
  split
  · simp [List.getElem?_range, *]
  · simp [List.getElem?_range, *]
    omega

/-- `add_inactive` on a pool with no inactive entry: the new node is the head and its
own `last`. -/
theorem add_inactive_empty (p : pgw) (addr : String) (h : p.inactive = none) :
    add_inactive p addr
      = some { heap := p.heap ++ [⟨addr, none, none, some p.heap.length⟩]
               inactive := some p.heap.length, active := p.active } := by
  simp [add_inactive, h, pgw.modify]

/-- `add_inactive` on a pool whose head `hd` has the tail `t`: the new node is linked
after `t` and the head records it as `last`. -/
theorem add_inactive_nonempty (p : pgw) (addr : String) (hd t : Nat) (h nt : list)
    (hin : p.inactive = some hd) (hh : p.heap[hd]? = some h) (hl : h.last = some t)
    (ht : p.heap[t]? = some nt) :
    add_inactive p addr
      = some { heap := (p.heap.set t { nt with nextList := some p.heap.length }).set hd
                  { (if t = hd then { nt with nextList := some p.heap.length } else h) with
                    last := some p.heap.length }
                ++ [⟨addr, some t, none, none⟩]
               inactive := some hd, active := p.active } := by
  have hlt : t < p.heap.length := (List.getElem?_eq_some_iff.mp ht).1
  have hlh : hd < p.heap.length := (List.getElem?_eq_some_iff.mp hh).1
  by_cases hth : t = hd
  · subst hth
    have hnt : h = nt := by rw [hh] at ht; exact Option.some.inj ht
    subst hnt
    simp [add_inactive, hin, pgw.get, pgw.modify, hh, hl, ht, List.getElem?_append, hlt,
      List.getElem?_set]
  · simp [add_inactive, hin, pgw.get, pgw.modify, hh, hl, ht, List.getElem?_append, hlt, hlh,
      List.getElem?_set, hth]

/-- `add_inactive` on `poolOf` puts the address at the end. -/
theorem add_inactive_poolOf (addrs : List String) (k : Nat) (act : Option Nat) (addr : String)
    (hk : k < addrs.length ∨ (addrs = [] ∧ k = 0)) :
    add_inactive (poolOf addrs k act) addr = some (poolOf (addrs ++ [addr]) k act) := by
  rcases hk with hk | ⟨rfl, rfl⟩
  · have hn : 0 < addrs.length := by omega
    rw [add_inactive_nonempty (poolOf addrs k act) addr k (addrs.length - 1)
      (nodeOf addrs k k) (nodeOf addrs k (addrs.length - 1))]
    · simp only [poolOf, Option.some.injEq, pgw.mk.injEq, List.length_map, List.length_range,
        List.length_append, List.length_singleton, and_true]
      refine ⟨?_, by simp; omega⟩
      apply List.ext_getElem?
      intro i
      rw [List.getElem?_append, List.getElem?_set, List.getElem?_set, List.getElem?_map,
        List.getElem?_map]
      simp only [List.length_set, List.length_map, List.length_range]
      rcases Nat.lt_trichotomy i addrs.length with hi | hi | hi
      · have hi2 : i < addrs.length + 1 := by omega
        have e1 : (List.range addrs.length)[i]? = some i := by
          simp [List.getElem?_range, hi]
        have e2 : (List.range (addrs.length + 1))[i]? = some i := by
          simp [List.getElem?_range, hi2]
        have e3 : (addrs ++ [addr])[i]? = addrs[i]? := by
          simp [List.getElem?_append, hi]
        by_cases hik : k = i <;> by_cases hit : addrs.length - 1 = i <;>
          simp [hi, hik, hit, e1, e2, e3, nodeOf] <;>
          (try (repeat' constructor)) <;> (try split_ifs) <;>
          first | rfl | omega
      · subst hi
        have e2 : (List.range (addrs.length + 1))[addrs.length]? = some addrs.length := by
          simp [List.getElem?_range]
        have hne : ¬ addrs.length ≤ k := by omega
        have hne2 : ¬ addrs.length = k := by omega
        simp [e2, nodeOf, hne, hne2]
      · have e2 : (List.range (addrs.length + 1))[i]? = none := by
          simp [List.getElem?_range]; omega
        have hni : ¬ i < addrs.length := by omega
        simp [e2, hni]
        omega
    · simp [poolOf, hk]
    · simp [poolOf_heap_getElem?, hk]
    · simp [nodeOf]
    · simp [poolOf_heap_getElem?, hn]
  · rw [add_inactive_empty _ _ (by simp [poolOf])]
    rfl

/-- `rem_inactive` on a pool whose head has a successor: the head is returned with its
links cleared and the successor becomes the head, taking over `last`. -/
theorem rem_inactive_two (p : pgw) (a b : Nat) (na nb : list)
    (hin : p.inactive = some a) (ha : p.heap[a]? = some na)
    (hnext : na.nextList = some b) (hab : b ≠ a) (hb : p.heap[b]? = some nb) :
    rem_inactive p
      = some (some a,
          { heap := (p.heap.set b { nb with prevList := none, last := na.last }).set a
              ⟨na.ip, none, none, none⟩
            inactive := some b, active := p.active }) := by
  have hlb : b < p.heap.length := (List.getElem?_eq_some_iff.mp hb).1
  have hla : a < p.heap.length := (List.getElem?_eq_some_iff.mp ha).1
  have hba : ¬ a = b := fun e => hab e.symm
  have hna : p.heap[a] = na := (List.getElem?_eq_some_iff.mp ha).2
  simp [rem_inactive, hin, pgw.get, ha, hnext, pgw.modify, hb, List.getElem?_set, hab, hba,
    hlb, hla]
  rw [hna]

/-- `rem_inactive` on `poolOf` with at least two entries left takes the oldest one. -/
theorem rem_inactive_poolOf (addrs : List String) (k : Nat) (act : Option Nat)
    (hk : k + 1 < addrs.length) :
    rem_inactive (poolOf addrs k act) = some (some k, poolOf addrs (k + 1) act) := by
  rw [rem_inactive_two (poolOf addrs k act) k (k + 1) (nodeOf addrs k k)
    (nodeOf addrs k (k + 1))]
  · simp only [poolOf, Option.some.injEq, Prod.mk.injEq, pgw.mk.injEq, true_and, and_true]
    refine ⟨?_, by simp [hk]⟩
    apply List.ext_getElem?
    intro i
    rw [List.getElem?_set, List.getElem?_set, List.getElem?_map, List.getElem?_map]
    simp only [List.length_set, List.length_map, List.length_range]
    by_cases hi : i < addrs.length
    · have e1 : (List.range addrs.length)[i]? = some i := by
        simp [List.getElem?_range, hi]
      by_cases hik : k = i <;> by_cases hit : k + 1 = i <;>
        simp [hi, hik, hit, e1, nodeOf] <;>
        (try (repeat' constructor)) <;> (try split_ifs) <;>
        first | rfl | omega
    · have e1 : (List.range addrs.length)[i]? = none := by
        simp [List.getElem?_range]; omega
      have h1 : ¬ k = i := by omega
      have h2 : ¬ k + 1 = i := by omega
      simp [e1, h1, h2]
  · simp [poolOf]; omega
  · simp [poolOf_heap_getElem?]; omega
  · simp [nodeOf]; omega
  · omega
  · simp [poolOf_heap_getElem?, hk]

/-- Following `nextList` in `poolOf` from a node reaches the later addresses in order.
-/
theorem follow_poolOf (addrs : List String) (k : Nat) (act : Option Nat) :
    ∀ (m fuel i : Nat), k ≤ i → i + m = addrs.length → m ≤ fuel →
      (poolOf addrs k act).follow fuel (if i < addrs.length then some i else none)
        = List.range' i m
  | 0, fuel, i, _, him, _ => by
    have : ¬ i < addrs.length := by omega
    cases fuel <;> simp [pgw.follow, this]
  | m + 1, 0, i, _, _, hf => by omega
  | m + 1, fuel + 1, i, hki, him, hf => by
    have hi : i < addrs.length := by omega
    have ih := follow_poolOf addrs k act m fuel (i + 1) (by omega) (by omega) (by omega)
    simp only [hi, if_true, pgw.follow, poolOf_heap_getElem?, List.range'_succ]
    have hn : (nodeOf addrs k i).nextList = if i + 1 < addrs.length then some (i + 1) else none := by
      simp only [nodeOf]
      split_ifs <;> first | rfl | omega
    rw [hn, ih]

/-- Reading a list at the indices from `k` on gives the list without its first `k`
entries. -/
theorem map_getD_range_from (addrs : List String) :
    ∀ (m k : Nat), k + m = addrs.length →
      (List.range' k m).map (fun i => addrs[i]?.getD "") = addrs.drop k
  | 0, k, h => by
    have : addrs.length ≤ k := by omega
    simp [List.drop_eq_nil_of_le this]
  | m + 1, k, h => by
    have hk : k < addrs.length := by omega
    have ih := map_getD_range_from addrs m (k + 1) (by omega)
    rw [List.range'_succ, List.map_cons, ih, List.drop_eq_getElem_cons hk]
    simp [hk]

/-- A sequence of calls that the queue of the claim admits runs on `poolOf` without a
panic, ends in a `poolOf`, and returns the oldest entries with their links cleared. -/
theorem run_poolOf (act : Option Nat) :
    ∀ (ops : List Op) (addrs : List String) (k : Nat) (q outs : List String),
      (k < addrs.length ∨ (addrs = [] ∧ k = 0)) →
      fifo ops (addrs.drop k) = some (q, outs) →
      ∃ addrs1 k1,
        run ops (poolOf addrs k act)
          = some (poolOf addrs1 k1 act, outs.map (fun ip => ⟨ip, none, none, none⟩))
        ∧ q = addrs1.drop k1 ∧ (k1 < addrs1.length ∨ (addrs1 = [] ∧ k1 = 0))
  | [], addrs, k, q, outs, hk, h => by
    simp only [fifo, Option.some.injEq, Prod.mk.injEq] at h
    obtain ⟨rfl, rfl⟩ := h
    exact ⟨addrs, k, rfl, rfl, hk⟩
  | .add_inactive addr :: ops, addrs, k, q, outs, hk, h => by
    have hle : k ≤ addrs.length := by
      rcases hk with hk | ⟨rfl, rfl⟩
      · omega
      · simp
    have hd : (addrs ++ [addr]).drop k = addrs.drop k ++ [addr] :=
      List.drop_append_of_le_length hle
    simp only [fifo] at h
    rw [← hd] at h
    obtain ⟨addrs1, k1, hrun, hq, hk1⟩ :=
      run_poolOf act ops (addrs ++ [addr]) k q outs
        (Or.inl (by simp only [List.length_append, List.length_singleton]; omega)) h
    refine ⟨addrs1, k1, ?_, hq, hk1⟩
    simp only [run, add_inactive_poolOf addrs k act addr hk, Option.some_bind, hrun]
  | .rem_inactive :: ops, addrs, k, q, outs, hk, h => by
    simp only [fifo] at h
    split at h
    · rename_i x y rest hxy
      have hlen : (addrs.drop k).length = (x :: y :: rest).length := by rw [hxy]
      simp only [List.length_drop, List.length_cons] at hlen
      have hk2 : k + 1 < addrs.length := by omega
      have hk1 : k < addrs.length := by omega
      have hx : addrs[k]? = some x := by
        have := congrArg List.head? hxy
        simpa [List.head?_drop] using this
      have hyr : addrs.drop (k + 1) = y :: rest := by
        have := congrArg List.tail hxy
        simpa [List.tail_drop] using this
      rw [← hyr] at h
      cases hf : fifo ops (addrs.drop (k + 1)) with
      | none => simp [hf] at h
      | some r =>
        obtain ⟨q1, outs1⟩ := r
        simp only [hf, Option.map_some', Option.some.injEq, Prod.mk.injEq] at h
        obtain ⟨rfl, rfl⟩ := h
        obtain ⟨addrs1, k1, hrun, hq, hk1'⟩ :=
          run_poolOf act ops addrs (k + 1) q1 outs1 (Or.inl hk2) hf
        refine ⟨addrs1, k1, ?_, hq, hk1'⟩
        have hget : (poolOf addrs (k + 1) act).get k = some ⟨x, none, none, none⟩ := by
          simp [pgw.get, poolOf_heap_getElem?, hk1, nodeOf, hx]
        simp only [run, rem_inactive_poolOf addrs k act hk2, Option.some_bind, hget, hrun,
          Option.map_some', List.map_cons]
    · simp at h

/-- The inactive list of `poolOf` is the addresses from `k` on. -/
theorem inactiveNodes_poolOf (addrs : List String) (k : Nat) (act : Option Nat)
    (hk : k < addrs.length ∨ (addrs = [] ∧ k = 0)) :
    (poolOf addrs k act).inactiveNodes = List.range' k (addrs.length - k) := by
  have hle : k ≤ addrs.length := by
    rcases hk with hk | ⟨rfl, rfl⟩
    · omega
    · simp
  have hlen : (poolOf addrs k act).heap.length = addrs.length := by simp [poolOf]
  have := follow_poolOf addrs k act (addrs.length - k) addrs.length k (le_refl k) (by omega)
    (by omega)
  rw [pgw.inactiveNodes, hlen]
  exact this

/-- C25: the inactive pool is a first-in first-out queue with a tail pointer kept on
its head. For every sequence of `add_inactive` and `rem_inactive` calls on the empty
pool in which each `rem_inactive` is made while at least two entries remain, no call
dereferences `nil`; at the end the nodes followed through `nextList` from `p.inactive`
hold the remaining addresses in insertion order, `p.inactive` is the first of them,
the head's `prevList` is nil and its `last` is the final node of the list; and the
nodes that the `rem_inactive` calls returned hold the addresses taken, oldest first,
each with its three links nil. -/
theorem inactive_pool_is_fifo (ops : List Op) (q outs : List String)
    (h : fifo ops [] = some (q, outs)) :
    ∃ p, run ops emptyPool = some (p, outs.map (fun ip => ⟨ip, none, none, none⟩))
      ∧ p.inactiveNodes.map p.ipOf = q
      ∧ p.inactive = p.inactiveNodes.head?
      ∧ (∀ hd, p.inactive = some hd →
          ∃ n, p.heap[hd]? = some n ∧ n.prevList = none
            ∧ n.last = p.inactiveNodes.getLast?) := by
  obtain ⟨addrs, k, hrun, hq, hk⟩ := run_poolOf none ops [] 0 q outs (Or.inr ⟨rfl, rfl⟩) h
  have hle : k ≤ addrs.length := by
    rcases hk with hk | ⟨rfl, rfl⟩
    · omega
    · simp
  refine ⟨poolOf addrs k none, hrun, ?_, ?_, ?_⟩
  · rw [inactiveNodes_poolOf addrs k none hk, hq]
    have hip : ∀ i ∈ List.range' k (addrs.length - k),
        (poolOf addrs k none).ipOf i = addrs[i]?.getD "" := by
      intro i hi
      have hi2 : i < addrs.length := by
        have := (List.mem_range'_1.mp hi).2
        omega
      simp [pgw.ipOf, poolOf_heap_getElem?, hi2, nodeOf]
    rw [List.map_congr_left hip]
    exact map_getD_range_from addrs (addrs.length - k) k (by omega)
  · rw [inactiveNodes_poolOf addrs k none hk]
    rcases hk with hk | ⟨rfl, rfl⟩
    · have : addrs.length - k = (addrs.length - k - 1) + 1 := by omega
      rw [this, List.range'_succ]
      simp [poolOf, hk]
    · rfl
  · intro hd hhd
    rcases hk with hk | ⟨rfl, rfl⟩
    · have hhd2 : hd = k := by
        simp only [poolOf, hk, if_true, Option.some.injEq] at hhd
        exact hhd.symm
      subst hhd2
      refine ⟨nodeOf addrs hd hd, by simp [poolOf_heap_getElem?, hk], by simp [nodeOf], ?_⟩
      rw [inactiveNodes_poolOf addrs hd none (Or.inl hk)]
      have hm : addrs.length - hd = (addrs.length - hd - 1) + 1 := by omega
      rw [hm, List.range'_concat, List.getLast?_append]
      simp [nodeOf]
      omega
    · simp [poolOf] at hhd

/-- Witness for C25: three addresses put into the empty pool, the oldest taken, a
fourth put, the next oldest taken. -/
theorem inactive_pool_is_fifo_witness :
    ∃ p, run [.add_inactive "10.0.0.1", .add_inactive "10.0.0.2", .add_inactive "10.0.0.3",
              .rem_inactive, .add_inactive "10.0.0.4", .rem_inactive] emptyPool
          = some (p, [⟨"10.0.0.1", none, none, none⟩, ⟨"10.0.0.2", none, none, none⟩])
      ∧ p.inactiveNodes.map p.ipOf = ["10.0.0.3", "10.0.0.4"] :=
  (inactive_pool_is_fifo
    [.add_inactive "10.0.0.1", .add_inactive "10.0.0.2", .add_inactive "10.0.0.3",
     .rem_inactive, .add_inactive "10.0.0.4", .rem_inactive]
    ["10.0.0.3", "10.0.0.4"] ["10.0.0.1", "10.0.0.2"] rfl).imp fun _ h => ⟨h.1, h.2.1⟩

/-- C24, what the code does: on a pool whose inactive list has the head `a`,
`rem_inactive` depends on the successor of the head. When the head has none, that is
when the list holds exactly one address, it dereferences `nil`: after
`p.inactive = current.nextList` the head pointer is nil and `p.inactive.prevList = nil`
panics. When the head has a successor `b`, it returns the head with its three links
nil, and `b` is the new head, with `prevList` nil and the `last` of the old head. -/
theorem rem_inactive_last_entry_panics (p : pgw) (a : Nat) (n : list)
    (hin : p.inactive = some a) (ha : p.heap[a]? = some n) :
    (n.nextList = none → rem_inactive p = none)
    ∧ (∀ b nb, n.nextList = some b → b ≠ a → p.heap[b]? = some nb →
        rem_inactive p
          = some (some a,
              { heap := (p.heap.set b { nb with prevList := none, last := n.last }).set a
                  ⟨n.ip, none, none, none⟩
                inactive := some b, active := p.active })) := by
  constructor
  · intro hnext
    simp [rem_inactive, hin, pgw.get, ha, hnext]
  · intro b nb hnext hab hb
    exact rem_inactive_two p a b n nb hin ha hnext hab hb

/-- Witness for C24: the pool after one `add_inactive` on the empty pool. -/
theorem rem_inactive_last_entry_panics_witness :
    add_inactive emptyPool "10.0.0.1"
        = some ⟨[⟨"10.0.0.1", none, none, some 0⟩], some 0, none⟩
      ∧ rem_inactive ⟨[⟨"10.0.0.1", none, none, some 0⟩], some 0, none⟩ = none :=
  ⟨rfl, (rem_inactive_last_entry_panics ⟨[⟨"10.0.0.1", none, none, some 0⟩], some 0, none⟩ 0
    ⟨"10.0.0.1", none, none, some 0⟩ rfl rfl).1 rfl⟩

end gwtester.pool

/-! ## The constructor of the P-GW -/

namespace gwtester.pool

/-- The addresses held by the inactive list of `poolOf`, head first. -/
theorem inactive_ips_poolOf (addrs : List String) (k : Nat) (act : Option Nat)
    (hk : k < addrs.length ∨ (addrs = [] ∧ k = 0)) :
    (poolOf addrs k act).inactiveNodes.map (poolOf addrs k act).ipOf = addrs.drop k := by
  have hle : k ≤ addrs.length := by
    rcases hk with hk | ⟨rfl, rfl⟩
    · omega
    · simp
  rw [inactiveNodes_poolOf addrs k act hk]
  have hip : ∀ i ∈ List.range' k (addrs.length - k),
      (poolOf addrs k act).ipOf i = addrs[i]?.getD "" := by
    intro i hi
    have hi2 : i < addrs.length := by
      have := (List.mem_range'_1.mp hi).2
      omega
    simp [pgw.ipOf, poolOf_heap_getElem?, hi2, nodeOf]
  rw [List.map_congr_left hip]
  exact map_getD_range_from addrs (addrs.length - k) k (by omega)

/-- Putting a list of addresses into `poolOf`, one `add_inactive` after the other. -/
theorem foldl_add_inactive_poolOf (act : Option Nat) :
    ∀ (l addrs : List String), (0 < addrs.length ∨ addrs = []) →
      l.foldl (fun p addr => p.bind fun q => add_inactive q addr) (some (poolOf addrs 0 act))
        = some (poolOf (addrs ++ l) 0 act)
  | [], addrs, _ => by simp
  | x :: l, addrs, h => by
    have hk : 0 < addrs.length ∨ (addrs = [] ∧ 0 = 0) := h.imp id (fun e => ⟨e, rfl⟩)
    simp only [List.foldl_cons, Option.some_bind]
    rw [add_inactive_poolOf addrs 0 act x hk,
      foldl_add_inactive_poolOf act l (addrs ++ [x]) (Or.inl (by simp))]
    simp

/-- While the last octet stays below 255 the loop of `newPGW` counts it up. -/
theorem ipv4Loop_no_wrap (a b : Nat) :
    ∀ (n c last : Nat), last + n ≤ 255 →
      ipv4Loop a b n c last = (List.range' last n).map (fun l => [a, b, c, l])
  | 0, _, _, _ => rfl
  | n + 1, c, last, h => by
    have h1 : (last + 1) % 256 = last + 1 := Nat.mod_eq_of_lt (by omega)
    by_cases h2 : last + 1 = 255
    · have hn : n = 0 := by omega
      subst hn
      simp only [ipv4Loop, h1, h2, if_true]
      split <;> simp [List.range'_succ, ipv4Loop]
    · simp only [ipv4Loop, h1, h2, if_false, List.range'_succ, List.map_cons]
      rw [ipv4Loop_no_wrap a b n c (last + 1) (by omega)]

/-- The pool that `newPGW` builds holds the addresses of `ipv4Addrs`, in order. -/
theorem newPGW_pool (cfg : Config) (ip : List Nat) (mask : Nat)
    (h : ParseCIDR cfg.RouteSubnet = some (ip, mask)) (hdyn : cfg.Dynamic = true) :
    ∃ p, newPGW cfg = some (some p)
      ∧ p.inactiveNodes.map p.ipOf = (ipv4Addrs ip mask).map dotted := by
  have hm : atoi ((cfg.RouteSubnet.data.dropWhile (fun c => c ≠ '/')).drop 1) = some mask := by
    unfold ParseCIDR at h
    simp only at h
    split at h
    · rename_i m hm
      split at h
      · simp only [Option.some.injEq, Prod.mk.injEq] at h
        rw [hm, h.2]
      · exact absurd h (by simp)
    · exact absurd h (by simp)
  have hfold := foldl_add_inactive_poolOf none ((ipv4Addrs ip mask).map dotted) [] (Or.inr rfl)
  refine ⟨poolOf ((ipv4Addrs ip mask).map dotted) 0 none, ?_, ?_⟩
  · simp only [newPGW, h, hdyn, if_true, hm, List.foldl_map] at hfold ⊢
    exact congrArg some hfold
  · rw [inactive_ips_poolOf]
    · rfl
    · cases hl : (ipv4Addrs ip mask).map dotted
      · exact Or.inr ⟨rfl, rfl⟩
      · exact Or.inl (by simp)

/-- C23, what the code does: for a route subnet `a.b.c.0/m` with a prefix longer than
24 bits and dynamic allocation, `newPGW` returns a pool, and the inactive list of that
pool holds the address `a.b.c.n` with `n = 2 ^ (32 - m)` the size of the subnet: the
loop starts at `a.b.c.1` and makes `n` rounds. That address is outside the subnet. -/
theorem newPGW_address_outside_subnet (cfg : Config) (a b c mask : Nat)
    (h : ParseCIDR cfg.RouteSubnet = some ([a, b, c, 0], mask)) (hdyn : cfg.Dynamic = true)
    (hm : 24 < mask) :
    ∃ p, newPGW cfg = some (some p)
      ∧ dotted [a, b, c, 2 ^ (32 - mask)] ∈ p.inactiveNodes.map p.ipOf
      ∧ Contains [a, b, c, 0] mask [a, b, c, 2 ^ (32 - mask)] = false := by
  obtain ⟨p, hp, hips⟩ := newPGW_pool cfg _ _ h hdyn
  have hpos : 0 < 2 ^ (32 - mask) := Nat.two_pow_pos _
  have hle : 2 ^ (32 - mask) ≤ 2 ^ 7 := Nat.pow_le_pow_right (by decide) (by omega)
  refine ⟨p, hp, ?_, ?_⟩
  · rw [hips]
    apply List.mem_map_of_mem
    simp only [ipv4Addrs, hm, if_true, Nat.one_shiftLeft]
    rw [ipv4Loop_no_wrap a b _ c _ (by simp; omega)]
    apply List.mem_map_of_mem (fun l => [a, b, c, l])
    rw [List.mem_range'_1]
    simp
    omega
  · simp only [Contains, wire.fromBE, List.foldl_cons, List.foldl_nil, beq_eq_false_iff_ne,
      ne_eq]
    rw [Nat.add_div_right _ hpos]
    simp

/-- Witness for C23: the route subnet `10.0.0.0/30`. The pool holds `10.0.0.1` to
`10.0.0.4`, and `10.0.0.4` is outside `10.0.0.0/30`. -/
theorem newPGW_address_outside_subnet_witness :
    ParseCIDR "10.0.0.0/30" = some ([10, 0, 0, 0], 30)
      ∧ (∃ p, newPGW ⟨"10.0.0.0/30", true⟩ = some (some p)
          ∧ "10.0.0.4" ∈ p.inactiveNodes.map p.ipOf
          ∧ Contains [10, 0, 0, 0] 30 [10, 0, 0, 4] = false) :=
  ⟨rfl, newPGW_address_outside_subnet ⟨"10.0.0.0/30", true⟩ 10 0 0 30 rfl rfl (by decide)⟩

end gwtester.pool

/-! ## gw-tester: the S5 handlers of the S-GW -/

namespace gwtester.sgw1

open gtpv1

/-- The sibling handler `handleDeleteSessionResponse` on the same message in the same
world: after the same three calls it calls `RemoveSession` on the S5 session, and the
store of the S5-C endpoint is empty. -/
theorem delete_session_response_removes_session :
    (handleDeleteSessionResponse (recordedSgw worldSgw) (recordedDeps worldDeps)
        (recordedConn worldS5Conn) "10.0.0.3:2123" rejectedUpdate).run ((sgwWorld, []), ())
      = (.ret none,
          (({ sgwWorld with inbox := sgwWorld.inbox ++ [rejectedUpdate],
                            s5c := { sgwWorld.s5c with sessions := [] } },
            [.GetSessionByTEID 9 "10.0.0.3:2123" (.ok subscriberOnS5),
             .S11 (.GetSessionByIMSI "001010123456789" (.ok subscriberAtSGW)),
             .PassMessageTo subscriberAtSGW rejectedUpdate 5 none,
             .RemoveSession (some subscriberOnS5)]), ())) :=
  rfl

/-- C22, what the code does: `handleModifyBearerResponse` removes no session. Over
any connection and any implementation of the absent packages, for every message from
the P-GW: no run of the handler calls `RemoveSession`, on the S5-C connection or on
the S11 connection; and when the S5 session and the S11 session are found and the
message is passed to the S11 session with no error, the handler makes these three
calls and no other, and returns nil, so that the world is left as `PassMessageTo` left
it. -/
theorem modify_bearer_response_removes_no_session {σ : Type} (s : sgw σ) (d : Deps σ)
    (s5cConn : Conn σ) (pgwAddr : Addr) (msg : Message) (st : σ) :
    let r := (handleModifyBearerResponse (recordedSgw s) (recordedDeps d)
      (recordedConn s5cConn) pgwAddr msg).run ((st, []), ())
    let st1 := (s5cConn.GetSessionByTEID msg.TEID pgwAddr st).2
    (∀ c ∈ r.2.1.2, c.isRemoveSession = false ∧ ∀ x, c ≠ .S11 (.RemoveSession x))
    ∧ (∀ s5Session s11Session,
        (s5cConn.GetSessionByTEID msg.TEID pgwAddr st).1 = .ok s5Session →
        (s.s11Conn.GetSessionByIMSI s5Session.IMSI st1).1 = .ok s11Session →
        (d.PassMessageTo s11Session msg 5
          (s.s11Conn.GetSessionByIMSI s5Session.IMSI st1).2).1 = none →
        r = (.ret none,
          (((d.PassMessageTo s11Session msg 5
              (s.s11Conn.GetSessionByIMSI s5Session.IMSI st1).2).2,
            [.GetSessionByTEID msg.TEID pgwAddr (.ok s5Session),
             .S11 (.GetSessionByIMSI s5Session.IMSI (.ok s11Session)),
             .PassMessageTo s11Session msg 5 none]), ()))) := by
  intro r st1
  refine ⟨?_, ?_⟩
  · have hr : r = (handleModifyBearerResponse (recordedSgw s) (recordedDeps d)
        (recordedConn s5cConn) pgwAddr msg).run ((st, []), ()) := rfl
    clear_value r
    unfold handleModifyBearerResponse at hr
    repeat' (first
      | (simp only [Body.run_pure, Body.run_ret, Body.run_panic, Body.run_bind_pure,
          Body.run_bind_ret, Body.run_bind_panic, Body.run_bind_call, Body.run_bind_exec,
          Body.run_bind_update, Body.run_bind_check, Body.run_bind_orPanic, Body.run_bind_ite,
          Body.run_ite, Body.run_bind_bind, recordedConn, recordedDeps, recordedS11Conn,
          recordedSgw, recordedCPlaneConn, record, recordExec, List.nil_append,
          List.append_assoc, List.singleton_append, List.cons_append] at hr)
      | (split at hr))
    all_goals (subst hr; simp [Call.isRemoveSession])
  · intro s5Session s11Session h5 h11 hp
    have h5r : (recordedConn s5cConn).GetSessionByTEID msg.TEID pgwAddr (st, [])
        = (.ok s5Session, (st1, [.GetSessionByTEID msg.TEID pgwAddr (.ok s5Session)])) := by
      simp [recordedConn, record, h5, st1]
    have h11r : (recordedSgw s).s11Conn.GetSessionByIMSI s5Session.IMSI
          (st1, [.GetSessionByTEID msg.TEID pgwAddr (.ok s5Session)])
        = (.ok s11Session, ((s.s11Conn.GetSessionByIMSI s5Session.IMSI st1).2,
            [.GetSessionByTEID msg.TEID pgwAddr (.ok s5Session),
             .S11 (.GetSessionByIMSI s5Session.IMSI (.ok s11Session))])) := by
      simp [recordedSgw, recordedS11Conn, record, h11]
    have hpr : (recordedDeps d).PassMessageTo s11Session msg 5
          ((s.s11Conn.GetSessionByIMSI s5Session.IMSI st1).2,
            [.GetSessionByTEID msg.TEID pgwAddr (.ok s5Session),
             .S11 (.GetSessionByIMSI s5Session.IMSI (.ok s11Session))])
        = (none, ((d.PassMessageTo s11Session msg 5
              (s.s11Conn.GetSessionByIMSI s5Session.IMSI st1).2).2,
            [.GetSessionByTEID msg.TEID pgwAddr (.ok s5Session),
             .S11 (.GetSessionByIMSI s5Session.IMSI (.ok s11Session)),
             .PassMessageTo s11Session msg 5 none])) := by
      simp [recordedDeps, record, hp]
    show (handleModifyBearerResponse (recordedSgw s) (recordedDeps d)
      (recordedConn s5cConn) pgwAddr msg).run ((st, []), ()) = _
    unfold handleModifyBearerResponse
    simp only [Body.run_bind_call, h5r, h11r, hpr, Body.run_bind_check, Body.run_ret]

/-- Witness for C22: in the world of the S-GW an UpdatePDPContextResponse with a
failure cause arrives from the P-GW for the S5 session under TEID 9. The S5 session
and the S11 session are found and the message is passed to the S11 session with no
error; `handleModifyBearerResponse` returns nil after these three calls, and the S5
session is still in the store of the S5-C endpoint. -/
theorem modify_bearer_response_removes_no_session_witness :
    (handleModifyBearerResponse (recordedSgw worldSgw) (recordedDeps worldDeps)
        (recordedConn worldS5Conn) "10.0.0.3:2123" rejectedUpdate).run ((sgwWorld, []), ())
      = (.ret none,
          (({ sgwWorld with inbox := sgwWorld.inbox ++ [rejectedUpdate] },
            [.GetSessionByTEID 9 "10.0.0.3:2123" (.ok subscriberOnS5),
             .S11 (.GetSessionByIMSI "001010123456789" (.ok subscriberAtSGW)),
             .PassMessageTo subscriberAtSGW rejectedUpdate 5 none]), ()))
    ∧ ((handleModifyBearerResponse (recordedSgw worldSgw) (recordedDeps worldDeps)
        (recordedConn worldS5Conn) "10.0.0.3:2123" rejectedUpdate).run
          ((sgwWorld, []), ())).2.1.1.s5c.sessions = [(9, subscriberOnS5)] :=
  have h := (modify_bearer_response_removes_no_session worldSgw worldDeps worldS5Conn
    "10.0.0.3:2123" rejectedUpdate sgwWorld).2 subscriberOnS5 subscriberAtSGW rfl rfl rfl
  ⟨h, by rw [h]; rfl⟩

end gwtester.sgw1

/-! ## gw-tester: the S11 handlers of the S-GW when the wait for the P-GW fails -/

namespace gwtester.sgw1

open gtpv1

/-- The TEID of a response built by `NewCreatePDPContextResponse` determines it. -/
theorem NewCreatePDPContextResponse_inj (t1 t2 seq : Nat) (ies : List IE) :
    message.NewCreatePDPContextResponse t1 seq ies
      = message.NewCreatePDPContextResponse t2 seq ies ↔ t1 = t2 := by
  simp [message.NewCreatePDPContextResponse]

/-- The TEID of a response built by `NewUpdatePDPContextResponse` determines it. -/
theorem NewUpdatePDPContextResponse_inj (t1 t2 seq : Nat) (ies : List IE) :
    message.NewUpdatePDPContextResponse t1 seq ies
      = message.NewUpdatePDPContextResponse t2 seq ies ↔ t1 = t2 := by
  simp [message.NewUpdatePDPContextResponse]

/-- The TEID of a response built by `NewDeletePDPContextResponse` determines it. -/
theorem NewDeletePDPContextResponse_inj (t1 t2 seq : Nat) (ies : List IE) :
    message.NewDeletePDPContextResponse t1 seq ies
      = message.NewDeletePDPContextResponse t2 seq ies ↔ t1 = t2 := by
  simp [message.NewDeletePDPContextResponse]

/-- `handleDeleteSessionRequest` after a failed wait: the response sent to the MME
carries the cause `APNRestrictionPrivate2`. -/
theorem delete_after_failed_wait {σ : Type} (s : sgw σ) (d : Deps σ)
    (s11Conn : Conn σ) (mmeAddr : Addr) (msg : Message) (st : σ) :
    let r := (handleDeleteSessionRequest (recordedSgw s) (recordedDeps d)
      (recordedConn s11Conn) mmeAddr msg).run ((st, []), ())
    r.2.1.2.dropWhile (fun c => !failedWait c) ≠ [] →
      ∃ sess seq res teid e,
        r.2.1.2.dropWhile (fun c => !failedWait c)
          = [.WaitMessage sess seq 5 res,
             .RespondTo mmeAddr msg (message.NewDeletePDPContextResponse teid 0
                [ie.NewCause APNRestrictionPrivate2]) e]
        ∧ r.1 = .ret (if e = none then res.2 else e) := by
  intro r
  have hr : r = (handleDeleteSessionRequest (recordedSgw s) (recordedDeps d)
      (recordedConn s11Conn) mmeAddr msg).run ((st, []), ()) := rfl
  clear_value r
  unfold handleDeleteSessionRequest at hr
  repeat' (first
    | (simp only [Body.run_pure, Body.run_ret, Body.run_panic, Body.run_bind_pure,
        Body.run_bind_ret, Body.run_bind_panic, Body.run_bind_call, Body.run_bind_exec,
        Body.run_bind_update, Body.run_bind_check, Body.run_bind_orPanic, Body.run_bind_ite,
        Body.run_ite, Body.run_bind_bind, recordedConn, recordedDeps,
        recordedSgw, recordedCPlaneConn, record, recordExec, List.nil_append,
        List.append_assoc, List.singleton_append, List.cons_append] at hr)
    | (split at hr))
  all_goals (subst hr; simp [failedWait, List.dropWhile, NewCreatePDPContextResponse_inj,
    NewUpdatePDPContextResponse_inj, NewDeletePDPContextResponse_inj, *])
  all_goals (
    refine ⟨?_, ?_, ?_, ?_, ?_, ?_, ?h⟩
    case h => repeat' (first | exact rfl | constructor | simp [*]))

/-- `handleModifyBearerRequest` after a failed wait: the response sent to the MME
carries the cause `gtpv2.CausePGWNotResponding`. -/
theorem modify_after_failed_wait {σ : Type} (s : sgw σ) (d : Deps σ)
    (s11Conn : Conn σ) (mmeAddr : Addr) (msg : Message) (st : σ) :
    let r := (handleModifyBearerRequest (recordedSgw s) (recordedDeps d)
      (recordedConn s11Conn) mmeAddr msg).run ((st, []), ())
    r.2.1.2.dropWhile (fun c => !failedWait c) ≠ [] →
      ∃ sess seq res teid e,
        r.2.1.2.dropWhile (fun c => !failedWait c)
          = [.WaitMessage sess seq 5 res,
             .RespondTo mmeAddr msg (message.NewUpdatePDPContextResponse teid 0
                [ie.NewCause gtpv2.CausePGWNotResponding]) e]
        ∧ r.1 = .ret (if e = none then res.2 else e) := by
  intro r
  have hr : r = (handleModifyBearerRequest (recordedSgw s) (recordedDeps d)
      (recordedConn s11Conn) mmeAddr msg).run ((st, []), ()) := rfl
  clear_value r
  unfold handleModifyBearerRequest handleFTEIDU at hr
  repeat' (first
    | (simp only [Body.run_pure, Body.run_ret, Body.run_panic, Body.run_bind_pure,
        Body.run_bind_ret, Body.run_bind_panic, Body.run_bind_call, Body.run_bind_exec,
        Body.run_bind_update, Body.run_bind_check, Body.run_bind_orPanic, Body.run_bind_ite,
        Body.run_ite, Body.run_bind_bind, recordedConn, recordedDeps, recordedUPlaneConn,
        recordedSgw, recordedCPlaneConn, record, recordExec, List.nil_append,
        List.append_assoc, List.singleton_append, List.cons_append] at hr)
    | (split at hr))
  all_goals (subst hr; simp [failedWait, List.dropWhile, NewCreatePDPContextResponse_inj,
    NewUpdatePDPContextResponse_inj, NewDeletePDPContextResponse_inj, *])
  all_goals (
    refine ⟨?_, ?_, ?_, ?_, ?_, ?_, ?h⟩
    case h => repeat' (first | exact rfl | constructor | simp [*]))

set_option maxHeartbeats 4000000 in
/-- `handleCreateSessionRequest` after a failed wait: the response sent to the MME
carries the cause `APNRestrictionPrivate2`, and the session is removed. -/
theorem create_after_failed_wait {σ : Type} (s : sgw σ) (d : Deps σ)
    (s11Conn : Conn σ) (mmeAddr : Addr) (msg : Message) (st : σ) :
    let r := (handleCreateSessionRequest (recordedSgw s) (recordedDeps d)
      (recordedConn s11Conn) mmeAddr msg).run ((st, []), ())
    r.2.1.2.dropWhile (fun c => !failedWait c) ≠ [] →
      ∃ sess seq res teid e,
        r.2.1.2.dropWhile (fun c => !failedWait c)
          = [.WaitMessage sess seq 5 res,
             .RespondTo mmeAddr msg (message.NewCreatePDPContextResponse teid 0
                [ie.NewCause APNRestrictionPrivate2]) e,
             .RemoveSession (some sess)]
        ∧ r.1 = .ret (if e = none then res.2 else e) := by
  intro r
  have hr : r = (handleCreateSessionRequest (recordedSgw s) (recordedDeps d)
      (recordedConn s11Conn) mmeAddr msg).run ((st, []), ()) := rfl
  clear_value r
  unfold handleCreateSessionRequest at hr
  cases msg
  case' CreatePDPContextRequest m => cases m
  all_goals repeat' (first
    | (simp only [Body.run_pure, Body.run_ret, Body.run_panic, Body.run_bind_pure,
        Body.run_bind_ret, Body.run_bind_panic, Body.run_bind_call, Body.run_bind_exec,
        Body.run_bind_update, Body.run_bind_check, Body.run_bind_orPanic, Body.run_bind_ite,
        Body.run_ite, Body.run_bind_bind, recordedConn, recordedDeps, recordedUPlaneConn,
        recordedSgw, recordedCPlaneConn, record, recordExec, List.nil_append,
        List.append_assoc, List.singleton_append, List.cons_append] at hr)
    | (split at hr))
  all_goals (subst hr; simp [failedWait, List.dropWhile, NewCreatePDPContextResponse_inj,
    NewUpdatePDPContextResponse_inj, NewDeletePDPContextResponse_inj, *])
  all_goals (
    refine ⟨?_, ?_, ?_, ?_, ?_, ?_, ?h⟩
    case h =>
      repeat' (first
        | exact rfl
        | constructor
        | (simp [*]; done)
        | (split <;> (first | rfl | contradiction | simp [*]))))


/-- C21, what the code does: in each of the three S11 handlers of `sgw1`, over any
connection and any implementation of the absent packages, on every run in which
`WaitMessage` returns an error the calls from that wait on are the wait and one
`RespondTo` to the MME (and in `handleCreateSessionRequest` the removal of the
session), and the handler returns the error of `RespondTo` if there is one and the
error of the wait otherwise. The response sent carries the Cause
`gtpv2.CausePGWNotResponding` in `handleModifyBearerRequest` only: in
`handleCreateSessionRequest` and in `handleDeleteSessionRequest` it carries
`gtpv1.APNRestrictionPrivate2`, which is another value. -/
theorem wait_failure_cause_sent {σ : Type} (s : sgw σ) (d : Deps σ) (s11Conn : Conn σ)
    (mmeAddr : Addr) (msg : Message) (st : σ) :
    let rc := (handleCreateSessionRequest (recordedSgw s) (recordedDeps d)
      (recordedConn s11Conn) mmeAddr msg).run ((st, []), ())
    let rm := (handleModifyBearerRequest (recordedSgw s) (recordedDeps d)
      (recordedConn s11Conn) mmeAddr msg).run ((st, []), ())
    let rd := (handleDeleteSessionRequest (recordedSgw s) (recordedDeps d)
      (recordedConn s11Conn) mmeAddr msg).run ((st, []), ())
    (rc.2.1.2.dropWhile (fun c => !failedWait c) ≠ [] →
      ∃ sess seq res teid e,
        rc.2.1.2.dropWhile (fun c => !failedWait c)
          = [.WaitMessage sess seq 5 res,
             .RespondTo mmeAddr msg (message.NewCreatePDPContextResponse teid 0
                [ie.NewCause APNRestrictionPrivate2]) e,
             .RemoveSession (some sess)]
        ∧ rc.1 = .ret (if e = none then res.2 else e))
    ∧ (rm.2.1.2.dropWhile (fun c => !failedWait c) ≠ [] →
      ∃ sess seq res teid e,
        rm.2.1.2.dropWhile (fun c => !failedWait c)
          = [.WaitMessage sess seq 5 res,
             .RespondTo mmeAddr msg (message.NewUpdatePDPContextResponse teid 0
                [ie.NewCause gtpv2.CausePGWNotResponding]) e]
        ∧ rm.1 = .ret (if e = none then res.2 else e))
    ∧ (rd.2.1.2.dropWhile (fun c => !failedWait c) ≠ [] →
      ∃ sess seq res teid e,
        rd.2.1.2.dropWhile (fun c => !failedWait c)
          = [.WaitMessage sess seq 5 res,
             .RespondTo mmeAddr msg (message.NewDeletePDPContextResponse teid 0
                [ie.NewCause APNRestrictionPrivate2]) e]
        ∧ rd.1 = .ret (if e = none then res.2 else e))
    ∧ ie.NewCause APNRestrictionPrivate2 ≠ ie.NewCause gtpv2.CausePGWNotResponding :=
  ⟨create_after_failed_wait s d s11Conn mmeAddr msg st,
   modify_after_failed_wait s d s11Conn mmeAddr msg st,
   delete_after_failed_wait s d s11Conn mmeAddr msg st, by decide⟩

/-- Witness for C21: the MME asks the S-GW to delete the session under TEID 7 and the
P-GW does not answer. The S-GW sends a DeletePDPContextResponse with the Cause
`APNRestrictionPrivate2` and returns the error of the wait. -/
theorem wait_failure_cause_sent_witness :
    ((handleDeleteSessionRequest (recordedSgw worldSgw) (recordedDeps worldDeps)
        (recordedConn worldConn) "10.0.1.1:2123" deleteRequest).run
          ((silentPGW, []), ())).1 = .ret (some .ErrTimeout)
    ∧ ((handleDeleteSessionRequest (recordedSgw worldSgw) (recordedDeps worldDeps)
        (recordedConn worldConn) "10.0.1.1:2123" deleteRequest).run
          ((silentPGW, []), ())).2.1.2
      = [.GetSessionByTEID 7 "10.0.1.1:2123" (.ok subscriberAtSGW),
         .S5GetSessionByIMSI "001010123456789" (.ok subscriberOnS5),
         .GetTEID subscriberOnS5 .S5PGWGTPC (0x55, none),
         .S5DeleteSession 0x55 subscriberOnS5 (1, none),
         .GetTEID subscriberAtSGW .S11MMEGTPC (0x11, none),
         .WaitMessage subscriberAtSGW 1 5 (none, some .ErrTimeout),
         .RespondTo "10.0.1.1:2123" deleteRequest (message.NewDeletePDPContextResponse
            0x11 0 [ie.NewCause APNRestrictionPrivate2]) none]
    ∧ ∃ sess seq res teid e,
        ((handleDeleteSessionRequest (recordedSgw worldSgw) (recordedDeps worldDeps)
          (recordedConn worldConn) "10.0.1.1:2123" deleteRequest).run
            ((silentPGW, []), ())).2.1.2.dropWhile (fun c => !failedWait c)
          = [.WaitMessage sess seq 5 res,
             .RespondTo "10.0.1.1:2123" deleteRequest (message.NewDeletePDPContextResponse
                teid 0 [ie.NewCause APNRestrictionPrivate2]) e]
        ∧ ((handleDeleteSessionRequest (recordedSgw worldSgw) (recordedDeps worldDeps)
          (recordedConn worldConn) "10.0.1.1:2123" deleteRequest).run
            ((silentPGW, []), ())).1 = .ret (if e = none then res.2 else e) :=
  ⟨rfl, rfl, (wait_failure_cause_sent worldSgw worldDeps worldConn "10.0.1.1:2123" deleteRequest
    silentPGW).2.2.1 (fun h => List.noConfusion h)⟩

end gwtester.sgw1

/-! ## gw-tester: `Attach` of the MME -/

namespace gwtester

theorem Body.run_bind_receiver {σ ρ β : Type} (f : ρ → Body (σ × ρ) β) (s : σ × ρ) :
    Body.run (Body.receiver >>= f) s = Body.run (f s.2) s := rfl

end gwtester

namespace gwtester.mme1

open gtpv1

set_option maxHeartbeats 4000000 in
/-- `Attach` of `mme1/mme.go` after the wait for `created` timed out. -/
theorem attach_after_timeout {σ : Type} (d : Deps σ) (n : IEConstructors) (t : TaskDeps σ)
    (s11Conn : CPlaneConn σ) (req : s1mme.AttachRequest) (st : σ) (m : mme) :
    let out := Attach (recordedDeps d) n (recordedTaskDeps t) (recordedMMEConn s11Conn) req
      ((st, []), m)
    out.2.1.2.dropWhile (fun c => !createdTimedOut c) ≠ [] →
      ∃ session res rest,
        out.2.1.2.dropWhile (fun c => !createdTimedOut c)
          = .Select "created" 5 false :: .GetTEID session .S11SGWGTPC res :: rest
        ∧ out.1 = some (.error (.other ("timed out: " ++ session.IMSI)))
        ∧ (res.2 = none → ∃ r2 rest2,
            rest = .ModifyBearer res.1 session
              [some (d.ie.NewGSNAddress (t.SplitHostPort req.S1UAddr).1.1),
               some (n.NewTEIDDataI req.ITei)] r2 :: rest2) := by
  intro out
  have hr : out = Attach (recordedDeps d) n (recordedTaskDeps t) (recordedMMEConn s11Conn) req
      ((st, []), m) := rfl
  clear_value out
  unfold Attach Attach.func1 CreateSession ModifyBearer send at hr
  repeat' (first
    | (simp only [Body.run_pure, Body.run_ret, Body.run_panic, Body.run_bind_pure,
        Body.run_bind_ret, Body.run_bind_panic, Body.run_bind_call, Body.run_bind_exec,
        Body.run_bind_update, Body.run_bind_check, Body.run_bind_orPanic, Body.run_bind_ite,
        Body.run_ite, Body.run_bind_bind, Body.run_bind_receiver, recordedConn, recordedDeps,
        recordedTaskDeps, recordedMMEConn, record, recordExec, List.nil_append,
        List.append_assoc, List.singleton_append, List.cons_append] at hr)
    | (split at hr))
  all_goals (subst hr; simp [createdTimedOut, List.dropWhile, *])
  all_goals (
    refine ⟨?_, ?_, ?_, ?_, ?h⟩
    case h =>
      refine ⟨?_, ?_, ?_⟩
      · repeat' (first | exact rfl | constructor)
      · rfl
      · intro hb
        first
          | exact ⟨_, _, _, rfl⟩
          | (exfalso; simp [*] at hb))

end gwtester.mme1

namespace gwtester.mmeGTPv2

open gtpv1

set_option maxHeartbeats 4000000 in
/-- `Attach` of `mme/mme.go` after the wait for `created` timed out. -/
theorem attach_v2_after_timeout {σ : Type} (ResolveUDPAddr : String → Addr × Option GtpError)
    (a : gtpv2.SessionAPI σ) (n : gtpv2.IEConstructors) (t : TaskDeps σ)
    (s11Conn : gtpv2.CPlaneConn σ) (req : s1mme.AttachRequest) (st : σ) (m : mme) :
    let out := Attach ResolveUDPAddr (recordedV2Session a) n (recordedTaskDeps t)
      (recordedV2Conn s11Conn) req ((st, []), m)
    out.2.1.2.dropWhile (fun c => !createdTimedOut c) ≠ [] →
      ∃ session res rest,
        out.2.1.2.dropWhile (fun c => !createdTimedOut c)
          = .Select "created" 5 false
            :: .V2GetTEID session gtpv2.IFTypeS11S4SGWGTPC res :: rest
        ∧ out.1 = some (.error (.other ("timed out: " ++ session.IMSI)))
        ∧ (res.2 = none → ∃ b rest2,
            rest = .V2GetDefaultBearer session b :: rest2
            ∧ ∀ br, b = some br → ∃ r2 rest3,
              rest2 = .V2ModifyBearer res.1 session
                [n.NewIndicationFromOctets [0x00, 0x00, 0x00, 0x00, 0x00, 0x00, 0x00],
                 n.NewBearerContext
                  [n.NewEPSBearerID br.EBI,
                   n.NewFullyQualifiedTEID gtpv2.IFTypeS1UeNodeBGTPU req.ITei
                    (t.SplitHostPort req.S1UAddr).1.1 "",
                   n.NewPortNumber 2125]] r2 :: rest3) := by
  intro out
  have hr : out = Attach ResolveUDPAddr (recordedV2Session a) n (recordedTaskDeps t)
      (recordedV2Conn s11Conn) req ((st, []), m) := rfl
  clear_value out
  unfold Attach Attach.func1 CreateSession ModifyBearer send at hr
  repeat' (first
    | (simp only [Body.run_pure, Body.run_ret, Body.run_panic, Body.run_bind_pure,
        Body.run_bind_ret, Body.run_bind_panic, Body.run_bind_call, Body.run_bind_exec,
        Body.run_bind_update, Body.run_bind_check, Body.run_bind_orPanic, Body.run_bind_ite,
        Body.run_ite, Body.run_bind_bind, Body.run_bind_receiver, recordedV2Session,
        recordedTaskDeps, recordedV2Conn, record, recordExec, List.nil_append,
        List.append_assoc, List.singleton_append, List.cons_append] at hr)
    | (split at hr))
  all_goals (subst hr; simp [createdTimedOut, List.dropWhile, *])
  all_goals (
    refine ⟨?_, ?_, ?_, ?_, ?h⟩
    case h =>
      refine ⟨?_, ?_, ?_⟩
      · repeat' (first | exact rfl | constructor)
      · rfl
      · intro hb
        first
          | (refine ⟨_, _, rfl, ?_⟩
             intro br hbr
             first
              | (simp [*] at hbr; done)
              | (simp [*] at hbr; subst hbr; exact ⟨_, _, _, rfl⟩))
          | (exfalso; simp [*] at hb))

end gwtester.mmeGTPv2

namespace gwtester

open gtpv1

/-- C26, what the code does: in `Attach` of `mme1/mme.go` and of `mme/mme.go`, over any
connection and any implementation of the absent packages, on every run in which the
`select` on `created` ends with the timer, `Attach` returns the error `timed out:
<IMSI>`, and the task goes on with `m.ModifyBearer`: the call recorded right after
that `select` is the `GetTEID` of the S-GW's TEID on S11 with which `ModifyBearer`
begins, and when it gives a TEID the Modify Bearer request is sent on the S11
connection (in `mme/mme.go` after `GetDefaultBearer`, when there is a default
bearer). -/
theorem attach_sends_modify_bearer_after_timeout {σ : Type} (d : Deps σ)
    (n : IEConstructors) (t : TaskDeps σ) (s11Conn : CPlaneConn σ)
    (req : s1mme.AttachRequest) (st : σ) (m : mme1.mme) :
    (let out := mme1.Attach (recordedDeps d) n (recordedTaskDeps t) (recordedMMEConn s11Conn)
        req ((st, []), m);
      out.2.1.2.dropWhile (fun c => !createdTimedOut c) ≠ [] →
        ∃ session res rest,
          out.2.1.2.dropWhile (fun c => !createdTimedOut c)
            = .Select "created" 5 false :: .GetTEID session .S11SGWGTPC res :: rest
          ∧ out.1 = some (.error (.other ("timed out: " ++ session.IMSI)))
          ∧ (res.2 = none → ∃ r2 rest2,
              rest = .ModifyBearer res.1 session
                [some (d.ie.NewGSNAddress (t.SplitHostPort req.S1UAddr).1.1),
                 some (n.NewTEIDDataI req.ITei)] r2 :: rest2))
    ∧ (∀ (σ2 : Type) (ResolveUDPAddr : String → Addr × Option GtpError)
        (a : gtpv2.SessionAPI σ2) (n2 : gtpv2.IEConstructors) (t2 : TaskDeps σ2)
        (s11Conn2 : gtpv2.CPlaneConn σ2) (st2 : σ2) (m2 : mmeGTPv2.mme),
        let out := mmeGTPv2.Attach ResolveUDPAddr (recordedV2Session a) n2
          (recordedTaskDeps t2) (recordedV2Conn s11Conn2) req ((st2, []), m2);
        out.2.1.2.dropWhile (fun c => !createdTimedOut c) ≠ [] →
          ∃ session res rest,
            out.2.1.2.dropWhile (fun c => !createdTimedOut c)
              = .Select "created" 5 false
                :: .V2GetTEID session gtpv2.IFTypeS11S4SGWGTPC res :: rest
            ∧ out.1 = some (.error (.other ("timed out: " ++ session.IMSI)))
            ∧ (res.2 = none → ∃ b rest2,
                rest = .V2GetDefaultBearer session b :: rest2
                ∧ ∀ br, b = some br → ∃ r2 rest3,
                  rest2 = .V2ModifyBearer res.1 session
                    [n2.NewIndicationFromOctets [0x00, 0x00, 0x00, 0x00, 0x00, 0x00, 0x00],
                     n2.NewBearerContext
                      [n2.NewEPSBearerID br.EBI,
                       n2.NewFullyQualifiedTEID gtpv2.IFTypeS1UeNodeBGTPU req.ITei
                        (t2.SplitHostPort req.S1UAddr).1.1 "",
                       n2.NewPortNumber 2125]] r2 :: rest3)) :=
  ⟨mme1.attach_after_timeout d n t s11Conn req st m,
   fun _ ResolveUDPAddr a n2 t2 s11Conn2 st2 m2 =>
    mmeGTPv2.attach_v2_after_timeout ResolveUDPAddr a n2 t2 s11Conn2 req st2 m2⟩

/-- Witness for C26: the MME of `mme1` attaches a subscriber, the Create PDP Context
Request goes out, and nothing is signalled on `created`. `Attach` returns `timed out:
001010123456789`; after the timeout the task reads the TEID `0x77` of the S-GW and
sends the request of `ModifyBearer`, the second message on the wire. -/
theorem attach_sends_modify_bearer_after_timeout_witness :
    (mme1.Attach (recordedDeps worldDeps) specNew (recordedTaskDeps worldTaskDeps)
        (recordedMMEConn worldS11c) attachRequest ((attachWorld, []), attachMME)).1
      = some (.error (.other "timed out: 001010123456789"))
    ∧ (mme1.Attach (recordedDeps worldDeps) specNew (recordedTaskDeps worldTaskDeps)
        (recordedMMEConn worldS11c) attachRequest ((attachWorld, []), attachMME)).2.1.2.drop 3
      = [.Select "created" 5 false,
         .GetTEID subscriberAtMME .S11SGWGTPC (0x77, none),
         .ModifyBearer 0x77 subscriberAtMME
            [some (specIE.NewGSNAddress "10.0.2.1"), some (specNew.NewTEIDDataI 0x31)]
            (2, none),
         .Select "modified" 5 false,
         .GetTEID subscriberAtMME .S11SGWGTPU (0, some .ErrTEIDNotFound)]
    ∧ (mme1.Attach (recordedDeps worldDeps) specNew (recordedTaskDeps worldTaskDeps)
        (recordedMMEConn worldS11c) attachRequest
          ((attachWorld, []), attachMME)).2.1.1.s11.sent.length = 2
    ∧ ∃ session res rest,
        (mme1.Attach (recordedDeps worldDeps) specNew (recordedTaskDeps worldTaskDeps)
          (recordedMMEConn worldS11c) attachRequest
            ((attachWorld, []), attachMME)).2.1.2.dropWhile (fun c => !createdTimedOut c)
          = .Select "created" 5 false :: .GetTEID session .S11SGWGTPC res :: rest
        ∧ (mme1.Attach (recordedDeps worldDeps) specNew (recordedTaskDeps worldTaskDeps)
          (recordedMMEConn worldS11c) attachRequest ((attachWorld, []), attachMME)).1
            = some (.error (.other ("timed out: " ++ session.IMSI)))
        ∧ (res.2 = none → ∃ r2 rest2,
            rest = .ModifyBearer res.1 session
              [some (specIE.NewGSNAddress (worldTaskDeps.SplitHostPort "10.0.2.1:2152").1.1),
               some (specNew.NewTEIDDataI 0x31)] r2 :: rest2) :=
  ⟨rfl, rfl, rfl,
   (attach_sends_modify_bearer_after_timeout worldDeps specNew worldTaskDeps worldS11c
      attachRequest attachWorld attachMME).1 (fun h => List.noConfusion h)⟩

end gwtester
